import Mathlib

/-!
# ALTCOM LTE commands: get local time, get PIN set, get quality

A shallow embedding of
`sdk/modules/lte/altcom/api/lte/lte_getltime.c`, `lte_getpinset.c` and
`lte_getquality.c`.

Every C function of the three files is a Lean function of the same name.  The
functions they call but which live in other files (the command gateway, the
callback table, the status table, the buffer pool) are the fields of `Collab`:
arbitrary functions on an arbitrary world `σ`.  Every call of a collaborator is
also appended to a trace of `Event`s, so that "is called", "is called once",
"is called before" are statements about that trace.

Each function runs to completion: the interleaving of the worker, the receive
path and the callers is not part of the embedding.

Pointers: a function pointer or request buffer is its address, a `Nat`, with
`NULL = 0`; a pointer to a result structure is an `Option`, `none` for `NULL`
and `some v` for a pointer to memory that holds `v`.
-/

namespace Altcom

set_option linter.unusedVariables false

/-! ## Constants -/

/-- `EINVAL` of `<errno.h>`. -/
def EINVAL : Int := 22

/-- `ENOMEM` of `<errno.h>`. -/
def ENOMEM : Int := 12

/-- `EPROTO` of `<errno.h>`. -/
def EPROTO : Int := 71

/-- `NULL`. -/
def NULL : Nat := 0

/-- `REQ_DATA_LEN` of the three files. -/
def REQ_DATA_LEN : Nat := 0

/-- Constants and macros that the three files take from the headers they
include (`lte_api.h`, `altcombs.h`, `apicmd.h`, the `apicmd_*.h`); their values
are parameters of the embedding. -/
structure Consts where
  /-- powered-on threshold of the library status -/
  ALTCOM_STATUS_POWER_ON : Int
  /-- verdict of a status-change handler: remove the handler -/
  ALTCOM_STATUS_REG_CLR : Int
  /-- verdict of a status-change handler: keep the handler -/
  ALTCOM_STATUS_REG_KEEP : Int
  /-- result code of a successful response -/
  LTE_RESULT_OK : Int
  APICMDID_GET_LTIME : Nat
  APICMDID_GET_PINSET : Nat
  APICMDID_GET_QUALITY : Nat
  /-- the wait-forever timeout handed to `apicmdgw_send` -/
  SYS_TIMEO_FEVR : Int
  /-- `sizeof(struct apicmd_cmddat_getltimeres_s)` -/
  sizeof_getltimeres : Nat
  /-- `sizeof(struct apicmd_cmddat_getpinsetres_s)` -/
  sizeof_getpinsetres : Nat
  /-- `sizeof(struct apicmd_cmddat_getqualityres_s)` -/
  sizeof_getqualityres : Nat
  /-- byte order of the host: `true` for big-endian -/
  big_endian : Bool

/-! ## Machine integers -/

/-- Conversion of an integer to `uint32_t`. -/
def to_uint32 (i : Int) : Nat := (i % 4294967296).toNat

/-- Conversion of an unsigned value to `int32_t` (two's complement). -/
def to_int32 (n : Nat) : Int :=
  if n % 4294967296 < 2147483648 then ((n % 4294967296 : Nat) : Int)
  else ((n % 4294967296 : Nat) : Int) - 4294967296

/-- Reversal of the four bytes of a `uint32_t`. -/
def bswap32 (x : Nat) : Nat :=
  (x % 256) * 16777216 + (x / 256 % 256) * 65536 + (x / 65536 % 256) * 256
    + (x / 16777216 % 256)

/-- Modelled from the spec: `ntohl`, a macro of the platform headers that is
missing here; the spec calls the timezone field "network-order", so `ntohl`
converts a 32-bit value from network (big-endian) byte order to the byte order
of the host: the identity on a big-endian host, the byte reversal on a
little-endian one. -/
def ntohl (K : Consts) (x : Nat) : Nat :=
  if K.big_endian then x % 4294967296 else bswap32 x

/-- The value of the four bytes `b0 b1 b2 b3` (in memory order) read in
big-endian order, as an unsigned 32-bit number. -/
def be_decode (b0 b1 b2 b3 : Nat) : Nat :=
  (b0 % 256) * 16777216 + (b1 % 256) * 65536 + (b2 % 256) * 256 + b3 % 256

/-- The `int32_t` the host reads from a field whose four bytes in memory are
`b0 b1 b2 b3`. -/
def host_load32 (K : Consts) (b0 b1 b2 b3 : Nat) : Int :=
  if K.big_endian then to_int32 (be_decode b0 b1 b2 b3)
  else to_int32 (be_decode b3 b2 b1 b0)

/-! ## Data structures -/

/-- The `lte_localtime_t` of the API: seven `int32_t`. -/
structure lte_localtime_t where
  year : Int
  mon : Int
  mday : Int
  hour : Int
  min : Int
  sec : Int
  tz_sec : Int
deriving DecidableEq, Repr

/-- The `struct apicmd_cmddat_ltime_s` of the wire format: six `uint8_t` and an
`int32_t` in network byte order. -/
structure apicmd_cmddat_ltime_s where
  year : Nat
  month : Nat
  day : Nat
  hour : Nat
  minutes : Nat
  seconds : Nat
  timezone : Int
deriving DecidableEq, Repr

/-- The `struct apicmd_cmddat_getltimeres_s`: the result code, a `uint8_t`, and
the local time. -/
structure apicmd_cmddat_getltimeres_s where
  result : Nat
  ltime : apicmd_cmddat_ltime_s
deriving DecidableEq, Repr

/-- The `lte_getpin_t` of the API. -/
structure lte_getpin_t where
  enable : Nat
  status : Nat
  pin_attemptsleft : Nat
  puk_attemptsleft : Nat
  pin2_attemptsleft : Nat
  puk2_attemptsleft : Nat
deriving DecidableEq, Repr

/-- The `struct apicmd_cmddat_getpinsetres_s`: the result code and the PIN
settings, all `uint8_t`. -/
structure apicmd_cmddat_getpinsetres_s where
  result : Nat
  active : Nat
  status : Nat
  pin_attemptsleft : Nat
  puk_attemptsleft : Nat
  pin2_attemptsleft : Nat
  puk2_attemptsleft : Nat
deriving DecidableEq, Repr

/-- The `struct apicmd_cmddat_getqualityres_s`: the result code, a `uint8_t`,
and the quality; `Qraw` stands for the `struct apicmd_cmddat_quality_s` it
contains. -/
structure apicmd_cmddat_getqualityres_s (Qraw : Type) where
  result : Nat
  quality : Qraw

/-- The three status-change handlers, as function pointers. -/
inductive StatChgCb where
  | getltime_status_chg_cb
  | getpinset_status_chg_cb
  | getquality_status_chg_cb
deriving DecidableEq, Repr

/-- What `apicmdgw_send` leaves behind: its return value, the received length
it stores in `reslen`, and the contents of the local response buffer `resbuff`
after the call (whatever they are when nothing or too little was received). -/
structure SendRes (R : Type) where
  ret : Int
  reslen : Nat
  resbuff : R

/-! ## Collaborators and traces -/

/-- One call of a collaborator, with its arguments and, where the code looks at
it, its result.  `P` is the type of the payload handed to the user callback. -/
inductive Event (P : Type) where
  | check_poweron_status (ret : Int)
  | setup_apicallback (id : Nat) (api_cb : Nat) (stat_cb : StatChgCb) (ret : Int)
  | teardown_apicallback (id : Nat) (stat_cb : StatChgCb)
  | cmd_allocbuff (id : Nat) (len : Nat) (buff : Nat)
  | send (reqbuff : Nat) (presbuff : Bool) (resbufflen : Nat) (timeout : Int) (ret : Int)
  | free_cmd (buff : Nat)
  | unreg_cb (id : Nat)
  | get_unreg_cb (id : Nat) (ret : Int) (cb : Nat)
  | unreg_statchgcb (stat_cb : StatChgCb)
  | callback (cb : Nat) (result : Int) (payload : P)

/-- The functions of other files that the three files call, over a world `σ`.
`R` is the response structure of the command, `P` the payload of its user
callback. -/
structure Collab (σ R P : Type) where
  altcombs_check_poweron_status : σ → Int × σ
  altcombs_setup_apicallback : Nat → Nat → StatChgCb → σ → Int × σ
  altcombs_teardown_apicallback : Nat → StatChgCb → σ → σ
  apicmdgw_cmd_allocbuff : Nat → Nat → σ → Nat × σ
  apicmdgw_send : Nat → Bool → Nat → Int → σ → SendRes R × σ
  altcom_free_cmd : Nat → σ → σ
  altcomcallbacks_unreg_cb : Nat → σ → σ
  altcomcallbacks_get_unreg_cb : Nat → σ → (Int × Nat) × σ
  altcomstatus_unreg_statchgcb : StatChgCb → σ → σ
  /-- what running the user callback at address `cb` does to the world -/
  user_callback : Nat → Int → P → σ → σ

/-- The world together with the trace of the collaborator calls made so far. -/
structure Sys (σ P : Type) where
  world : σ
  trace : List (Event P)

/-- What a call of an implementation leaves behind: its return value, the
contents of the memory behind the result pointer, and the system. -/
structure Outcome (σ P O : Type) where
  ret : Int
  out : Option O
  sys : Sys σ P

variable {σ R P O Q Qraw : Type}

/-- Call of `altcombs_check_poweron_status()`. -/
def altcombs_check_poweron_status (E : Collab σ R P) (s : Sys σ P) : Int × Sys σ P :=
  let r := E.altcombs_check_poweron_status s.world
  (r.1, ⟨r.2, s.trace ++ [Event.check_poweron_status r.1]⟩)

/-- Call of `altcombs_setup_apicallback(id, api_cb, stat_cb)`. -/
def altcombs_setup_apicallback (E : Collab σ R P) (id api_cb : Nat) (stat_cb : StatChgCb)
    (s : Sys σ P) : Int × Sys σ P :=
  let r := E.altcombs_setup_apicallback id api_cb stat_cb s.world
  (r.1, ⟨r.2, s.trace ++ [Event.setup_apicallback id api_cb stat_cb r.1]⟩)

/-- Call of `altcombs_teardown_apicallback(id, stat_cb)`. -/
def altcombs_teardown_apicallback (E : Collab σ R P) (id : Nat) (stat_cb : StatChgCb)
    (s : Sys σ P) : Sys σ P :=
  ⟨E.altcombs_teardown_apicallback id stat_cb s.world,
    s.trace ++ [Event.teardown_apicallback id stat_cb]⟩

/-- Call of `apicmdgw_cmd_allocbuff(id, len)`. -/
def apicmdgw_cmd_allocbuff (E : Collab σ R P) (id len : Nat) (s : Sys σ P) : Nat × Sys σ P :=
  let r := E.apicmdgw_cmd_allocbuff id len s.world
  (r.1, ⟨r.2, s.trace ++ [Event.cmd_allocbuff id len r.1]⟩)

/-- Call of `apicmdgw_send(reqbuff, presbuff, resbufflen, &reslen, timeout)`;
`presbuff` is `true` when the response buffer pointer is not `NULL`. -/
def apicmdgw_send (E : Collab σ R P) (reqbuff : Nat) (presbuff : Bool) (resbufflen : Nat)
    (timeout : Int) (s : Sys σ P) : SendRes R × Sys σ P :=
  let r := E.apicmdgw_send reqbuff presbuff resbufflen timeout s.world
  (r.1, ⟨r.2, s.trace ++ [Event.send reqbuff presbuff resbufflen timeout r.1.ret]⟩)

/-- Call of `altcom_free_cmd(buff)`. -/
def altcom_free_cmd (E : Collab σ R P) (buff : Nat) (s : Sys σ P) : Sys σ P :=
  ⟨E.altcom_free_cmd buff s.world, s.trace ++ [Event.free_cmd buff]⟩

/-- Call of `altcomcallbacks_unreg_cb(id)`. -/
def altcomcallbacks_unreg_cb (E : Collab σ R P) (id : Nat) (s : Sys σ P) : Sys σ P :=
  ⟨E.altcomcallbacks_unreg_cb id s.world, s.trace ++ [Event.unreg_cb id]⟩

/-- Call of `altcomcallbacks_get_unreg_cb(id, &callback)`: the return value and
the callback stored through the pointer. -/
def altcomcallbacks_get_unreg_cb (E : Collab σ R P) (id : Nat) (s : Sys σ P) :
    (Int × Nat) × Sys σ P :=
  let r := E.altcomcallbacks_get_unreg_cb id s.world
  (r.1, ⟨r.2, s.trace ++ [Event.get_unreg_cb id r.1.1 r.1.2]⟩)

/-- Call of `altcomstatus_unreg_statchgcb(stat_cb)`. -/
def altcomstatus_unreg_statchgcb (E : Collab σ R P) (stat_cb : StatChgCb) (s : Sys σ P) :
    Sys σ P :=
  ⟨E.altcomstatus_unreg_statchgcb stat_cb s.world, s.trace ++ [Event.unreg_statchgcb stat_cb]⟩

/-- Call `callback(result, &payload)` of the user callback at address `cb`. -/
def call_callback (E : Collab σ R P) (cb : Nat) (result : Int) (payload : P) (s : Sys σ P) :
    Sys σ P :=
  ⟨E.user_callback cb result payload s.world, s.trace ++ [Event.callback cb result payload]⟩

/-! ## lte_getltime.c -/

/-- The C function `getltime_status_chg_cb`. -/
def getltime_status_chg_cb (K : Consts) (E : Collab σ R P) (new_stat old_stat : Int)
    (s : Sys σ P) : Int × Sys σ P :=
  if new_stat < K.ALTCOM_STATUS_POWER_ON then
    (K.ALTCOM_STATUS_REG_CLR, altcomcallbacks_unreg_cb E K.APICMDID_GET_LTIME s)
  else
    (K.ALTCOM_STATUS_REG_KEEP, s)

/-- The C function `getltime_parse_response`: `localtime` is the structure
behind the pointer before the call, the value is the structure after it. -/
def getltime_parse_response (K : Consts) (resp : apicmd_cmddat_getltimeres_s)
    (localtime : lte_localtime_t) : lte_localtime_t :=
  { localtime with
    year := (resp.ltime.year : Int)
    mon := (resp.ltime.month : Int)
    mday := (resp.ltime.day : Int)
    hour := (resp.ltime.hour : Int)
    min := (resp.ltime.minutes : Int)
    sec := (resp.ltime.seconds : Int)
    tz_sec := to_int32 (ntohl K (to_uint32 resp.ltime.timezone)) }

/-- The C function `getltime_job`: `arg` is the address of the received event,
`data` its contents, `ltime` the indeterminate initial contents of the local
variable of that name. -/
def getltime_job (K : Consts) (E : Collab σ apicmd_cmddat_getltimeres_s lte_localtime_t)
    (arg : Nat) (data : apicmd_cmddat_getltimeres_s) (ltime : lte_localtime_t)
    (s : Sys σ lte_localtime_t) : Sys σ lte_localtime_t :=
  let r := altcomcallbacks_get_unreg_cb E K.APICMDID_GET_LTIME s
  let ret := r.1.1
  let callback := r.1.2
  let s1 :=
    if ret = 0 ∧ callback ≠ NULL then
      let result : Int := (data.result : Int)
      call_callback E callback result (getltime_parse_response K data ltime) r.2
    else
      r.2
  let s2 := altcom_free_cmd E arg s1
  altcomstatus_unreg_statchgcb E StatChgCb.getltime_status_chg_cb s2

/-- The C function `lte_getlocaltime_impl`. -/
def lte_getlocaltime_impl (K : Consts) (E : Collab σ apicmd_cmddat_getltimeres_s P)
    (localtime : Option lte_localtime_t) (callback : Nat) (s : Sys σ P) :
    Outcome σ P lte_localtime_t :=
  let resbufflen := K.sizeof_getltimeres
  let sync : Bool := callback == NULL
  -- Check input parameter
  if localtime.isNone ∧ callback = NULL then ⟨-EINVAL, localtime, s⟩ else
  -- Check LTE library status
  let r1 := altcombs_check_poweron_status E s
  if 0 > r1.1 then ⟨r1.1, localtime, r1.2⟩ else
  -- presbuff = &resbuff, or setup API callback
  let presbuff : Bool := sync
  let r2 := if sync then r1
    else altcombs_setup_apicallback E K.APICMDID_GET_LTIME callback
      StatChgCb.getltime_status_chg_cb r1.2
  if ¬ sync ∧ 0 > r2.1 then ⟨r2.1, localtime, r2.2⟩ else
  let errout := fun (ret : Int) (t : Sys σ P) =>
    if ¬ sync then
      Outcome.mk ret localtime
        (altcombs_teardown_apicallback E K.APICMDID_GET_LTIME
          StatChgCb.getltime_status_chg_cb t)
    else Outcome.mk ret localtime t
  -- Allocate API command buffer to send
  let r3 := apicmdgw_cmd_allocbuff E K.APICMDID_GET_LTIME REQ_DATA_LEN r2.2
  let reqbuff := r3.1
  if reqbuff = NULL then errout (-ENOMEM) r3.2 else
  -- Send API command to modem
  let r4 := apicmdgw_send E reqbuff presbuff resbufflen K.SYS_TIMEO_FEVR r3.2
  let s5 := altcom_free_cmd E reqbuff r4.2
  if 0 > r4.1.ret then errout r4.1.ret s5 else
  if sync then
    let ret : Int := if K.LTE_RESULT_OK = (r4.1.resbuff.result : Int) then 0 else -EPROTO
    if 0 = ret then
      -- Parse local time
      ⟨ret, localtime.map (getltime_parse_response K r4.1.resbuff), s5⟩
    else ⟨ret, localtime, s5⟩
  else ⟨0, localtime, s5⟩

/-- The C function `lte_get_localtime_sync`. -/
def lte_get_localtime_sync (K : Consts) (E : Collab σ apicmd_cmddat_getltimeres_s P)
    (localtime : Option lte_localtime_t) (s : Sys σ P) : Outcome σ P lte_localtime_t :=
  lte_getlocaltime_impl K E localtime NULL s

/-- The C function `lte_get_localtime`. -/
def lte_get_localtime (K : Consts) (E : Collab σ apicmd_cmddat_getltimeres_s P)
    (callback : Nat) (s : Sys σ P) : Outcome σ P lte_localtime_t :=
  lte_getlocaltime_impl K E none callback s

/-! ## lte_getpinset.c -/

/-- The C function `getpinset_status_chg_cb`. -/
def getpinset_status_chg_cb (K : Consts) (E : Collab σ R P) (new_stat old_stat : Int)
    (s : Sys σ P) : Int × Sys σ P :=
  if new_stat < K.ALTCOM_STATUS_POWER_ON then
    (K.ALTCOM_STATUS_REG_CLR, altcomcallbacks_unreg_cb E K.APICMDID_GET_PINSET s)
  else
    (K.ALTCOM_STATUS_REG_KEEP, s)

/-- The C function `getpinset_parse_response`: `pinset` is the structure behind
the pointer before the call, the value is the structure after it. -/
def getpinset_parse_response (resp : apicmd_cmddat_getpinsetres_s) (pinset : lte_getpin_t) :
    lte_getpin_t :=
  { pinset with
    enable := resp.active
    status := resp.status
    pin_attemptsleft := resp.pin_attemptsleft
    puk_attemptsleft := resp.puk_attemptsleft
    pin2_attemptsleft := resp.pin2_attemptsleft
    puk2_attemptsleft := resp.puk2_attemptsleft }

/-- The C function `getpinset_job`: `arg` is the address of the received event,
`data` its contents, `pinset` the indeterminate initial contents of the local
variable of that name. -/
def getpinset_job (K : Consts) (E : Collab σ apicmd_cmddat_getpinsetres_s lte_getpin_t)
    (arg : Nat) (data : apicmd_cmddat_getpinsetres_s) (pinset : lte_getpin_t)
    (s : Sys σ lte_getpin_t) : Sys σ lte_getpin_t :=
  let r := altcomcallbacks_get_unreg_cb E K.APICMDID_GET_PINSET s
  let ret := r.1.1
  let callback := r.1.2
  let s1 :=
    if ret = 0 ∧ callback ≠ NULL then
      let result : Int := (data.result : Int)
      call_callback E callback result (getpinset_parse_response data pinset) r.2
    else
      r.2
  let s2 := altcom_free_cmd E arg s1
  altcomstatus_unreg_statchgcb E StatChgCb.getpinset_status_chg_cb s2

/-- The C function `lte_getpinset_impl`. -/
def lte_getpinset_impl (K : Consts) (E : Collab σ apicmd_cmddat_getpinsetres_s P)
    (pinset : Option lte_getpin_t) (callback : Nat) (s : Sys σ P) :
    Outcome σ P lte_getpin_t :=
  let resbufflen := K.sizeof_getpinsetres
  let sync : Bool := callback == NULL
  -- Check input parameter
  if pinset.isNone ∧ callback = NULL then ⟨-EINVAL, pinset, s⟩ else
  -- Check LTE library status
  let r1 := altcombs_check_poweron_status E s
  if 0 > r1.1 then ⟨r1.1, pinset, r1.2⟩ else
  -- presbuff = &resbuff, or setup API callback
  let presbuff : Bool := sync
  let r2 := if sync then r1
    else altcombs_setup_apicallback E K.APICMDID_GET_PINSET callback
      StatChgCb.getpinset_status_chg_cb r1.2
  if ¬ sync ∧ 0 > r2.1 then ⟨r2.1, pinset, r2.2⟩ else
  let errout := fun (ret : Int) (t : Sys σ P) =>
    if ¬ sync then
      Outcome.mk ret pinset
        (altcombs_teardown_apicallback E K.APICMDID_GET_PINSET
          StatChgCb.getpinset_status_chg_cb t)
    else Outcome.mk ret pinset t
  -- Allocate API command buffer to send
  let r3 := apicmdgw_cmd_allocbuff E K.APICMDID_GET_PINSET REQ_DATA_LEN r2.2
  let reqbuff := r3.1
  if reqbuff = NULL then errout (-ENOMEM) r3.2 else
  -- Send API command to modem
  let r4 := apicmdgw_send E reqbuff presbuff resbufflen K.SYS_TIMEO_FEVR r3.2
  let s5 := altcom_free_cmd E reqbuff r4.2
  if 0 > r4.1.ret then errout r4.1.ret s5 else
  if sync then
    let ret : Int := if K.LTE_RESULT_OK = (r4.1.resbuff.result : Int) then 0 else -EPROTO
    if 0 = ret then
      -- Parse PIN settings
      ⟨ret, pinset.map (getpinset_parse_response r4.1.resbuff), s5⟩
    else ⟨ret, pinset, s5⟩
  else ⟨0, pinset, s5⟩

/-- The C function `lte_get_pinset_sync`. -/
def lte_get_pinset_sync (K : Consts) (E : Collab σ apicmd_cmddat_getpinsetres_s P)
    (pinset : Option lte_getpin_t) (s : Sys σ P) : Outcome σ P lte_getpin_t :=
  lte_getpinset_impl K E pinset NULL s

/-- The C function `lte_get_pinset`. -/
def lte_get_pinset (K : Consts) (E : Collab σ apicmd_cmddat_getpinsetres_s P)
    (callback : Nat) (s : Sys σ P) : Outcome σ P lte_getpin_t :=
  lte_getpinset_impl K E none callback s

/-! ## lte_getquality.c

`Q` stands for `lte_quality_t`, `Qraw` for `struct apicmd_cmddat_quality_s`,
and `altcombs_set_quality`, which converts the second into the first and lives
in another file, is a parameter: given the structure behind its first
argument before the call and the wire structure, the structure after the call.
-/

/-- The C function `getquality_status_chg_cb`. -/
def getquality_status_chg_cb (K : Consts) (E : Collab σ R P) (new_stat old_stat : Int)
    (s : Sys σ P) : Int × Sys σ P :=
  if new_stat < K.ALTCOM_STATUS_POWER_ON then
    (K.ALTCOM_STATUS_REG_CLR, altcomcallbacks_unreg_cb E K.APICMDID_GET_QUALITY s)
  else
    (K.ALTCOM_STATUS_REG_KEEP, s)

/-- The C function `getquality_job`: `arg` is the address of the received
event, `data` its contents, `getquality` the indeterminate initial contents of
the local variable of that name. -/
def getquality_job (K : Consts) (E : Collab σ (apicmd_cmddat_getqualityres_s Qraw) Q)
    (altcombs_set_quality : Q → Qraw → Q)
    (arg : Nat) (data : apicmd_cmddat_getqualityres_s Qraw) (getquality : Q)
    (s : Sys σ Q) : Sys σ Q :=
  let r := altcomcallbacks_get_unreg_cb E K.APICMDID_GET_QUALITY s
  let ret := r.1.1
  let callback := r.1.2
  let s1 :=
    if ret = 0 ∧ callback ≠ NULL then
      let result : Int := (data.result : Int)
      call_callback E callback result (altcombs_set_quality getquality data.quality) r.2
    else
      r.2
  let s2 := altcom_free_cmd E arg s1
  altcomstatus_unreg_statchgcb E StatChgCb.getquality_status_chg_cb s2

/-- The C function `lte_getquality_impl`. -/
def lte_getquality_impl (K : Consts) (E : Collab σ (apicmd_cmddat_getqualityres_s Qraw) P)
    (altcombs_set_quality : Q → Qraw → Q)
    (quality : Option Q) (callback : Nat) (s : Sys σ P) : Outcome σ P Q :=
  let resbufflen := K.sizeof_getqualityres
  let sync : Bool := callback == NULL
  -- Check input parameter
  if quality.isNone ∧ callback = NULL then ⟨-EINVAL, quality, s⟩ else
  -- Check LTE library status
  let r1 := altcombs_check_poweron_status E s
  if 0 > r1.1 then ⟨r1.1, quality, r1.2⟩ else
  -- presbuff = &resbuff, or setup API callback
  let presbuff : Bool := sync
  let r2 := if sync then r1
    else altcombs_setup_apicallback E K.APICMDID_GET_QUALITY callback
      StatChgCb.getquality_status_chg_cb r1.2
  if ¬ sync ∧ 0 > r2.1 then ⟨r2.1, quality, r2.2⟩ else
  let errout := fun (ret : Int) (t : Sys σ P) =>
    if ¬ sync then
      Outcome.mk ret quality
        (altcombs_teardown_apicallback E K.APICMDID_GET_QUALITY
          StatChgCb.getquality_status_chg_cb t)
    else Outcome.mk ret quality t
  -- Allocate API command buffer to send
  let r3 := apicmdgw_cmd_allocbuff E K.APICMDID_GET_QUALITY REQ_DATA_LEN r2.2
  let reqbuff := r3.1
  if reqbuff = NULL then errout (-ENOMEM) r3.2 else
  -- Send API command to modem
  let r4 := apicmdgw_send E reqbuff presbuff resbufflen K.SYS_TIMEO_FEVR r3.2
  let s5 := altcom_free_cmd E reqbuff r4.2
  if 0 > r4.1.ret then errout r4.1.ret s5 else
  if sync then
    let ret : Int := if K.LTE_RESULT_OK = (r4.1.resbuff.result : Int) then 0 else -EPROTO
    if 0 = ret then
      -- Parse quality information
      ⟨ret, quality.map (fun q => altcombs_set_quality q r4.1.resbuff.quality), s5⟩
    else ⟨ret, quality, s5⟩
  else ⟨0, quality, s5⟩

/-- The C function `lte_get_quality_sync`. -/
def lte_get_quality_sync (K : Consts)
    (E : Collab σ (apicmd_cmddat_getqualityres_s Qraw) P)
    (altcombs_set_quality : Q → Qraw → Q) (quality : Option Q) (s : Sys σ P) :
    Outcome σ P Q :=
  lte_getquality_impl K E altcombs_set_quality quality NULL s

/-- The C function `lte_get_quality`. -/
def lte_get_quality (K : Consts) (E : Collab σ (apicmd_cmddat_getqualityres_s Qraw) P)
    (altcombs_set_quality : Q → Qraw → Q) (callback : Nat) (s : Sys σ P) :
    Outcome σ P Q :=
  lte_getquality_impl K E altcombs_set_quality none callback s

/-! ## The common shape of the three commands

The three files are the same code up to the command identifier, the
status-change handler, the response structure and the parser.  `Cmd` collects
what differs and `impl_core`, `job_core`, `status_chg_cb_core` are the common
code; the functions of the three files are shown below to be their instances,
so that a fact is proved once for the three. -/

/-- What distinguishes one command from another. -/
structure Cmd (R O : Type) where
  /-- the command identifier `APICMDID_...` -/
  id : Nat
  /-- the status-change handler of the command -/
  stat_cb : StatChgCb
  /-- `RES_DATA_LEN`, the size of the response structure -/
  resbufflen : Nat
  /-- the `result` field of the response structure -/
  result : R → Nat
  /-- the parser: response, structure behind the pointer before, structure after -/
  parse : R → O → O

/-- Get local time. -/
def getltime_cmd (K : Consts) : Cmd apicmd_cmddat_getltimeres_s lte_localtime_t :=
  ⟨K.APICMDID_GET_LTIME, StatChgCb.getltime_status_chg_cb, K.sizeof_getltimeres,
    fun r => r.result, getltime_parse_response K⟩

/-- Get PIN set. -/
def getpinset_cmd (K : Consts) : Cmd apicmd_cmddat_getpinsetres_s lte_getpin_t :=
  ⟨K.APICMDID_GET_PINSET, StatChgCb.getpinset_status_chg_cb, K.sizeof_getpinsetres,
    fun r => r.result, getpinset_parse_response⟩

/-- Get quality. -/
def getquality_cmd (K : Consts) (altcombs_set_quality : Q → Qraw → Q) :
    Cmd (apicmd_cmddat_getqualityres_s Qraw) Q :=
  ⟨K.APICMDID_GET_QUALITY, StatChgCb.getquality_status_chg_cb, K.sizeof_getqualityres,
    fun r => r.result, fun r q => altcombs_set_quality q r.quality⟩

/-- The common code of the three status-change handlers. -/
def status_chg_cb_core (K : Consts) (E : Collab σ R P) (id : Nat) (new_stat old_stat : Int)
    (s : Sys σ P) : Int × Sys σ P :=
  if new_stat < K.ALTCOM_STATUS_POWER_ON then
    (K.ALTCOM_STATUS_REG_CLR, altcomcallbacks_unreg_cb E id s)
  else
    (K.ALTCOM_STATUS_REG_KEEP, s)

/-- The common code of the three completion jobs. -/
def job_core (E : Collab σ R P) (c : Cmd R P) (arg : Nat) (data : R) (uninit : P)
    (s : Sys σ P) : Sys σ P :=
  let r := altcomcallbacks_get_unreg_cb E c.id s
  let s1 :=
    if r.1.1 = 0 ∧ r.1.2 ≠ NULL then
      call_callback E r.1.2 (c.result data : Int) (c.parse data uninit) r.2
    else
      r.2
  altcomstatus_unreg_statchgcb E c.stat_cb (altcom_free_cmd E arg s1)

/-- The common code of the three implementations. -/
def impl_core (K : Consts) (E : Collab σ R P) (c : Cmd R O) (out : Option O) (callback : Nat)
    (s : Sys σ P) : Outcome σ P O :=
  let sync : Bool := callback == NULL
  if out.isNone ∧ callback = NULL then ⟨-EINVAL, out, s⟩ else
  let r1 := altcombs_check_poweron_status E s
  if 0 > r1.1 then ⟨r1.1, out, r1.2⟩ else
  let r2 := if sync then r1
    else altcombs_setup_apicallback E c.id callback c.stat_cb r1.2
  if ¬ sync ∧ 0 > r2.1 then ⟨r2.1, out, r2.2⟩ else
  let errout := fun (ret : Int) (t : Sys σ P) =>
    if ¬ sync then
      Outcome.mk ret out (altcombs_teardown_apicallback E c.id c.stat_cb t)
    else Outcome.mk ret out t
  let r3 := apicmdgw_cmd_allocbuff E c.id REQ_DATA_LEN r2.2
  if r3.1 = NULL then errout (-ENOMEM) r3.2 else
  let r4 := apicmdgw_send E r3.1 sync c.resbufflen K.SYS_TIMEO_FEVR r3.2
  let s5 := altcom_free_cmd E r3.1 r4.2
  if 0 > r4.1.ret then errout r4.1.ret s5 else
  if sync then
    let ret : Int := if K.LTE_RESULT_OK = (c.result r4.1.resbuff : Int) then 0 else -EPROTO
    if 0 = ret then ⟨ret, out.map (c.parse r4.1.resbuff), s5⟩
    else ⟨ret, out, s5⟩
  else ⟨0, out, s5⟩

/-! ## What the collaborators answer along a call

The theorems speak of "the power check passes", "the allocation fails", "send
returns `e`".  A call started in world `w` makes its collaborator calls in a
fixed order; the following name the answers it gets. -/

/-- A system that starts in world `w` with an empty trace. -/
def start (w : σ) : Sys σ P := ⟨w, []⟩

/-- Return value of the power check a call makes from world `w`. -/
def power_check (E : Collab σ R P) (w : σ) : Int :=
  (E.altcombs_check_poweron_status w).1

/-- The world after the power check. -/
def after_power_check (E : Collab σ R P) (w : σ) : σ :=
  (E.altcombs_check_poweron_status w).2

/-- Return value of the registration (`altcombs_setup_apicallback`) that an
asynchronous call with callback `cb` makes after the power check. -/
def registration (E : Collab σ R P) (c : Cmd R O) (cb : Nat) (w : σ) : Int :=
  (E.altcombs_setup_apicallback c.id cb c.stat_cb (after_power_check E w)).1

/-- The world in which a call allocates its request buffer: the one after the
power check for a synchronous call (`cb = NULL`), the one after the
registration for an asynchronous call. -/
def before_alloc (E : Collab σ R P) (c : Cmd R O) (cb : Nat) (w : σ) : σ :=
  if cb = NULL then after_power_check E w
  else (E.altcombs_setup_apicallback c.id cb c.stat_cb (after_power_check E w)).2

/-- The request buffer the call is given, `NULL` when the allocation fails. -/
def allocation (E : Collab σ R P) (c : Cmd R O) (cb : Nat) (w : σ) : Nat :=
  (E.apicmdgw_cmd_allocbuff c.id REQ_DATA_LEN (before_alloc E c cb w)).1

/-- The world after the allocation. -/
def after_alloc (E : Collab σ R P) (c : Cmd R O) (cb : Nat) (w : σ) : σ :=
  (E.apicmdgw_cmd_allocbuff c.id REQ_DATA_LEN (before_alloc E c cb w)).2

/-- What `apicmdgw_send` answers to the call: return value, received length
and contents of the response buffer. -/
def transmission (K : Consts) (E : Collab σ R P) (c : Cmd R O) (cb : Nat) (w : σ) : SendRes R :=
  (E.apicmdgw_send (allocation E c cb w) (cb == NULL) c.resbufflen K.SYS_TIMEO_FEVR
    (after_alloc E c cb w)).1

/-- The callback invocations of a trace, in order: address, result, payload. -/
def callbacks : List (Event P) → List (Nat × Int × P)
  | [] => []
  | Event.callback cb result payload :: rest => (cb, result, payload) :: callbacks rest
  | _ :: rest => callbacks rest

/-- The buffers freed along a trace, in order. -/
def frees : List (Event P) → List Nat
  | [] => []
  | Event.free_cmd buff :: rest => buff :: frees rest
  | _ :: rest => frees rest

/-- The buffers successfully allocated along a trace, in order. -/
def allocs : List (Event P) → List Nat
  | [] => []
  | Event.cmd_allocbuff id len buff :: rest =>
    if buff = NULL then allocs rest else buff :: allocs rest
  | _ :: rest => allocs rest

/-- The calls of `apicmdgw_send` along a trace: the request buffers sent. -/
def sends : List (Event P) → List Nat
  | [] => []
  | Event.send reqbuff presbuff resbufflen timeout ret :: rest => reqbuff :: sends rest
  | _ :: rest => sends rest

/-- The world after the call of `apicmdgw_send`. -/
def after_send (K : Consts) (E : Collab σ R P) (c : Cmd R O) (cb : Nat) (w : σ) : σ :=
  (E.apicmdgw_send (allocation E c cb w) (cb == NULL) c.resbufflen K.SYS_TIMEO_FEVR
    (after_alloc E c cb w)).2

/-- The world after the request buffer is freed. -/
def after_free (K : Consts) (E : Collab σ R P) (c : Cmd R O) (cb : Nat) (w : σ) : σ :=
  E.altcom_free_cmd (allocation E c cb w) (after_send K E c cb w)

/-- The events up to the allocation: the power check and, for an asynchronous
call, the registration. -/
def entry_events (E : Collab σ R P) (c : Cmd R O) (cb : Nat) (w : σ) : List (Event P) :=
  if cb = NULL then [Event.check_poweron_status (power_check E w)]
  else [Event.check_poweron_status (power_check E w),
    Event.setup_apicallback c.id cb c.stat_cb (registration E c cb w)]

/-- The allocation, the transmission and the release of the request buffer. -/
def send_events (K : Consts) (E : Collab σ R P) (c : Cmd R O) (cb : Nat) (w : σ) :
    List (Event P) :=
  [Event.cmd_allocbuff c.id REQ_DATA_LEN (allocation E c cb w),
    Event.send (allocation E c cb w) (cb == NULL) c.resbufflen K.SYS_TIMEO_FEVR
      (transmission K E c cb w).ret,
    Event.free_cmd (allocation E c cb w)]

/-- The events of the label `errout`: the teardown, for an asynchronous call. -/
def errout_events (c : Cmd R O) (cb : Nat) : List (Event P) :=
  if cb = NULL then [] else [Event.teardown_apicallback c.id c.stat_cb]

/-- The world after the label `errout`, entered in world `v`. -/
def errout_world (E : Collab σ R P) (c : Cmd R O) (cb : Nat) (v : σ) : σ :=
  if cb = NULL then v else E.altcombs_teardown_apicallback c.id c.stat_cb v

/-! ## The engine of the spec: Callback Registry and Status Notifier

The callback table (`altcom_callbacks.c`), the status table
(`altcom_status.c`) and `altcombs.c` are other files of the SDK, missing here.
The facts about pending operations are proved on the Registry and Notifier that
the specification describes in its sections 4.2 and 4.3. -/

/-- Modelled from the spec: the Callback Registry (the table of
`altcom_callbacks.c`, missing here): "mapping CommandId → PendingOperation,
keys unique"; the pending operation is the address of the user callback. -/
abbrev Registry := Nat → Option Nat

/-- Modelled from the spec: the error codes of the Registry (those of
`altcom_callbacks.c` and `altcombs.c`, missing here): `AlreadyPending`, a
negative code, and `NotFound`, a code other than the 0 of success. -/
structure Codes where
  already_pending : Int
  not_found : Int
  already_pending_neg : already_pending < 0
  not_found_ne : not_found ≠ 0

/-- Modelled from the spec: `register(command_id, handler) → Ok | AlreadyPending`
of the Registry (`altcom_callbacks.c` is missing): "Registering when an entry
already exists for command_id fails without side effects". -/
def registry_register (C : Codes) (id handler : Nat) (r : Registry) : Int × Registry :=
  if (r id).isSome then (C.already_pending, r)
  else (0, fun k => if k = id then some handler else r k)

/-- Modelled from the spec: `take(command_id) → handler | NotFound` of the
Registry (`altcom_callbacks.c` is missing): "Atomically removes and returns the
entry". -/
def registry_take (C : Codes) (id : Nat) (r : Registry) : (Int × Nat) × Registry :=
  match r id with
  | some handler => ((0, handler), fun k => if k = id then none else r k)
  | none => ((C.not_found, NULL), r)

/-- Modelled from the spec: `unregister(command_id)` of the Registry
(`altcom_callbacks.c` is missing): "removes without returning the handler". -/
def registry_unregister (id : Nat) (r : Registry) : Registry :=
  fun k => if k = id then none else r k

/-- Modelled from the spec: the subscriber list of the Status Notifier (the
table of `altcom_status.c`, missing here): "(CommandId, cancellation handler)
pairs". -/
abbrev Notifier := List (Nat × StatChgCb)

/-- Modelled from the spec: `unsubscribe(command_id)` of the Status Notifier
(`altcom_status.c` is missing): "explicit removal". -/
def notifier_unsubscribe (id : Nat) (n : Notifier) : Notifier :=
  n.filter (fun e => e.1 ≠ id)

/-- Modelled from the spec: `subscribe(command_id, cancellation_handler)` of
the Status Notifier (`altcom_status.c` is missing): "Associates a handler with
the command id". -/
def notifier_subscribe (id : Nat) (handler : StatChgCb) (n : Notifier) : Notifier :=
  (id, handler) :: notifier_unsubscribe id n

/-- Whether the Status Notifier holds a subscription for the command id. -/
def notifier_subscribed (id : Nat) (n : Notifier) : Bool :=
  n.any (fun e => e.1 == id)

/-- Modelled from the spec: the state of the engine, Registry and Notifier
(the tables of `altcom_callbacks.c` and `altcom_status.c`, missing here). -/
structure Engine where
  registry : Registry
  notifier : Notifier

/-- The command id a status-change handler belongs to. -/
def stat_cb_id (K : Consts) : StatChgCb → Nat
  | StatChgCb.getltime_status_chg_cb => K.APICMDID_GET_LTIME
  | StatChgCb.getpinset_status_chg_cb => K.APICMDID_GET_PINSET
  | StatChgCb.getquality_status_chg_cb => K.APICMDID_GET_QUALITY

/-- What the collaborators outside the engine answer to one call: the power
check, the buffer pool, and the gateway. -/
structure Oracle (R : Type) where
  poweron : Int
  allocbuff : Nat
  send : SendRes R

/-- Modelled from the spec: the collaborators over the engine, the functions of
`altcombs.c`, `altcom_callbacks.c` and `altcom_status.c`, which are missing.
Registration is `register` followed by `subscribe`; teardown is `unregister` and
`unsubscribe`; `altcomcallbacks_get_unreg_cb` is `take`; `altcomcallbacks_unreg_cb`
is `unregister`; `altcomstatus_unreg_statchgcb` is `unsubscribe` for the command
of the handler.  The power check, the buffer pool and the gateway answer what
the oracle says and leave the engine alone, and the user callback does not
call back into the API. -/
def engine (K : Consts) (C : Codes) (O : Oracle R) : Collab Engine R P where
  altcombs_check_poweron_status := fun w => (O.poweron, w)
  altcombs_setup_apicallback := fun id api_cb stat_cb w =>
    if (registry_register C id api_cb w.registry).1 < 0 then
      ((registry_register C id api_cb w.registry).1, w)
    else
      (0, ⟨(registry_register C id api_cb w.registry).2,
        notifier_subscribe id stat_cb w.notifier⟩)
  altcombs_teardown_apicallback := fun id stat_cb w =>
    ⟨registry_unregister id w.registry, notifier_unsubscribe id w.notifier⟩
  apicmdgw_cmd_allocbuff := fun id len w => (O.allocbuff, w)
  apicmdgw_send := fun reqbuff presbuff resbufflen timeout w => (O.send, w)
  altcom_free_cmd := fun buff w => w
  altcomcallbacks_unreg_cb := fun id w => ⟨registry_unregister id w.registry, w.notifier⟩
  altcomcallbacks_get_unreg_cb := fun id w =>
    ((registry_take C id w.registry).1, ⟨(registry_take C id w.registry).2, w.notifier⟩)
  altcomstatus_unreg_statchgcb := fun stat_cb w =>
    ⟨w.registry, notifier_unsubscribe (stat_cb_id K stat_cb) w.notifier⟩
  user_callback := fun cb result payload w => w

/-- What happens to a command after its asynchronous call: a response arrives
and the completion job runs on it, or the power status changes and the
status-change handler of the command runs. -/
inductive Step (R P : Type) where
  | response (arg : Nat) (data : R) (uninit : P)
  | status (new_stat old_stat : Int)

/-- Run a sequence of steps of one command, given its completion job and its
status-change handler. -/
def run (job : Nat → R → P → Sys σ P → Sys σ P)
    (status_chg_cb : Int → Int → Sys σ P → Int × Sys σ P) :
    List (Step R P) → Sys σ P → Sys σ P
  | [], s => s
  | Step.response arg data uninit :: rest, s => run job status_chg_cb rest (job arg data uninit s)
  | Step.status new_stat old_stat :: rest, s =>
    run job status_chg_cb rest (status_chg_cb new_stat old_stat s).2

/-- The call reaches the allocation of the request buffer and is given one:
its arguments are valid, the power check passes, the registration (for an
asynchronous call) succeeds and the allocation does not return `NULL`. -/
def allocated (E : Collab σ R P) (c : Cmd R O) (out : Option O) (cb : Nat) (w : σ) : Prop :=
  ¬ (out.isNone ∧ cb = NULL) ∧ 0 ≤ power_check E w ∧
    (cb = NULL ∨ 0 ≤ registration E c cb w) ∧ allocation E c cb w ≠ NULL

/-- Buffer conservation for the trace `tr` of one call.  The buffers freed are
the buffers allocated, in the same order, and there is at most one.  When the
call was given the buffer `buff` (`given`), `buff` is the one buffer allocated
and the trace contains `seq`, the allocation of `buff`, its transmission and
its release in a row, with no release before or after.  Otherwise nothing is
allocated and nothing is freed. -/
def buffer_conservation (tr : List (Event P)) (given : Prop) (buff : Nat)
    (seq : List (Event P)) : Prop :=
  frees tr = allocs tr ∧ (allocs tr).length ≤ 1 ∧
  (given → allocs tr = [buff] ∧ frees tr = [buff] ∧
    ∃ pre post, tr = pre ++ seq ++ post ∧ frees pre = [] ∧ frees post = []) ∧
  (¬ given → allocs tr = [] ∧ frees tr = [] ∧ sends tr = [])

/-! ## Properties of one command on the engine

In the following, `call A cb s` is the asynchronous call of a command with the
callback `cb`, made in system `s` while the collaborators outside the engine
answer `A`; `job arg data uninit s` is a run of its completion job and
`status_chg_cb new_stat old_stat s` a run of its status-change handler. -/

/-- Mutual exclusion (P1 of the spec) for one command.  After an asynchronous
call that was accepted (returned 0): a second asynchronous call, whose power
check passes, returns the already-pending code having made only the power check
and the registration attempt (no allocation, no send, no teardown), and leaves
the engine as the first call left it; and after the completion job has run, or
after the status-change handler has run for a status below the powered-on
threshold, an asynchronous call whose collaborators succeed returns 0.  And
after an asynchronous call that was registered and failed in the allocation or
the send, an asynchronous call whose collaborators succeed returns 0. -/
def mutual_exclusion (K : Consts) (C : Codes) (id : Nat) (stat_cb : StatChgCb)
    (call : Oracle R → Nat → Sys Engine P → Outcome Engine P O)
    (job : Nat → R → P → Sys Engine P → Sys Engine P)
    (status_chg_cb : Int → Int → Sys Engine P → Int × Sys Engine P) : Prop :=
  (∀ (A1 : Oracle R) (cb1 : Nat) (s0 : Sys Engine P),
    cb1 ≠ NULL → (call A1 cb1 s0).ret = 0 →
    (∀ (A2 : Oracle R) (cb2 : Nat), cb2 ≠ NULL → 0 ≤ A2.poweron →
      call A2 cb2 (call A1 cb1 s0).sys =
        ⟨C.already_pending, none, ⟨(call A1 cb1 s0).sys.world,
          (call A1 cb1 s0).sys.trace ++ [Event.check_poweron_status A2.poweron,
            Event.setup_apicallback id cb2 stat_cb C.already_pending]⟩⟩) ∧
    (∀ (A3 : Oracle R) (cb3 : Nat), cb3 ≠ NULL → 0 ≤ A3.poweron →
      A3.allocbuff ≠ NULL → 0 ≤ A3.send.ret →
      (∀ (arg : Nat) (data : R) (uninit : P),
        (call A3 cb3 (job arg data uninit (call A1 cb1 s0).sys)).ret = 0) ∧
      (∀ new_stat old_stat : Int, new_stat < K.ALTCOM_STATUS_POWER_ON →
        (call A3 cb3 (status_chg_cb new_stat old_stat (call A1 cb1 s0).sys).2).ret = 0))) ∧
  (∀ (A1 : Oracle R) (cb1 : Nat) (s0 : Sys Engine P),
    cb1 ≠ NULL → s0.world.registry id = none → 0 ≤ A1.poweron →
    (A1.allocbuff = NULL ∨ A1.send.ret < 0) →
    (call A1 cb1 s0).ret < 0 ∧
    ∀ (A3 : Oracle R) (cb3 : Nat), cb3 ≠ NULL → 0 ≤ A3.poweron →
      A3.allocbuff ≠ NULL → 0 ≤ A3.send.ret →
      (call A3 cb3 (call A1 cb1 s0).sys).ret = 0)

/-- What a status drop does to a pending operation of one command.  After an
accepted asynchronous call with callback `cb` the operation is pending; the
status-change handler run for a status below the powered-on threshold answers
`ALTCOM_STATUS_REG_CLR`, invokes no callback and leaves no entry for the
command; and whatever responses and status changes follow, no callback is
invoked: the callback of the cancelled operation is not invoked at all. -/
def cancellation_drops (K : Consts) (id : Nat)
    (call : Oracle R → Nat → Sys Engine P → Outcome Engine P O)
    (job : Nat → R → P → Sys Engine P → Sys Engine P)
    (status_chg_cb : Int → Int → Sys Engine P → Int × Sys Engine P) : Prop :=
  ∀ (A : Oracle R) (cb : Nat) (w : Engine) (new_stat old_stat : Int),
    cb ≠ NULL → (call A cb (start w)).ret = 0 → new_stat < K.ALTCOM_STATUS_POWER_ON →
    (call A cb (start w)).sys.world.registry id = some cb ∧
    (status_chg_cb new_stat old_stat (call A cb (start w)).sys).1
      = K.ALTCOM_STATUS_REG_CLR ∧
    (status_chg_cb new_stat old_stat (call A cb (start w)).sys).2.world.registry id = none ∧
    callbacks (status_chg_cb new_stat old_stat (call A cb (start w)).sys).2.trace = [] ∧
    ∀ steps : List (Step R P),
      callbacks (run job status_chg_cb steps
        (status_chg_cb new_stat old_stat (call A cb (start w)).sys).2).trace = []

/-- No double invocation (P2 of the spec) for one command.  After an accepted
asynchronous call with callback `cb`, whatever sequence of responses and status
changes follows: at most one callback is invoked in total, it is `cb`, and
once a status below the powered-on threshold has been processed no further
callback is invoked. -/
def at_most_once (K : Consts)
    (call : Oracle R → Nat → Sys Engine P → Outcome Engine P O)
    (job : Nat → R → P → Sys Engine P → Sys Engine P)
    (status_chg_cb : Int → Int → Sys Engine P → Int × Sys Engine P) : Prop :=
  ∀ (A : Oracle R) (cb : Nat) (w : Engine), cb ≠ NULL → (call A cb (start w)).ret = 0 →
    ∀ steps : List (Step R P),
      (callbacks (run job status_chg_cb steps (call A cb (start w)).sys).trace).length ≤ 1 ∧
      (∀ x ∈ callbacks (run job status_chg_cb steps (call A cb (start w)).sys).trace,
        x.1 = cb) ∧
      ∀ (before after : List (Step R P)) (new_stat old_stat : Int),
        steps = before ++ Step.status new_stat old_stat :: after →
        new_stat < K.ALTCOM_STATUS_POWER_ON →
        callbacks (run job status_chg_cb steps (call A cb (start w)).sys).trace =
          callbacks (run job status_chg_cb (before ++ [Step.status new_stat old_stat])
            (call A cb (start w)).sys).trace

/-- What an asynchronous call with callback `cb` does when, after a successful
registration, the allocation or the send fails.  When the allocation fails the
call returns `-ENOMEM`, when the send returns a negative `e` it returns `e`; in
both cases `altcombs_teardown_apicallback` is called once, for the command id
and the status-change handler of the command, as the last thing the call
does.  `o` is the outcome of the call started in world `w` with an empty
trace. -/
def teardown_on_failure (K : Consts) (E : Collab σ R P) (c : Cmd R O) (cb : Nat) (w : σ)
    (o : Outcome σ P O) : Prop :=
  cb ≠ NULL → 0 ≤ power_check E w → 0 ≤ registration E c cb w →
  (allocation E c cb w = NULL →
    o.ret = -ENOMEM ∧
    o.sys.trace = [Event.check_poweron_status (power_check E w),
      Event.setup_apicallback c.id cb c.stat_cb (registration E c cb w),
      Event.cmd_allocbuff c.id REQ_DATA_LEN NULL,
      Event.teardown_apicallback c.id c.stat_cb] ∧
    o.sys.world = E.altcombs_teardown_apicallback c.id c.stat_cb (after_alloc E c cb w)) ∧
  (allocation E c cb w ≠ NULL → (transmission K E c cb w).ret < 0 →
    o.ret = (transmission K E c cb w).ret ∧
    o.sys.trace = [Event.check_poweron_status (power_check E w),
      Event.setup_apicallback c.id cb c.stat_cb (registration E c cb w),
      Event.cmd_allocbuff c.id REQ_DATA_LEN (allocation E c cb w),
      Event.send (allocation E c cb w) false c.resbufflen K.SYS_TIMEO_FEVR
        (transmission K E c cb w).ret,
      Event.free_cmd (allocation E c cb w),
      Event.teardown_apicallback c.id c.stat_cb] ∧
    o.sys.world = E.altcombs_teardown_apicallback c.id c.stat_cb (after_free K E c cb w))

/-- On the engine, nothing of a failed asynchronous call survives: when the
call with callback `cb` was registered (the power check passed and there was no
entry for the command) and the allocation or the send failed, the call returns
a negative value, the Registry is what it was before the call, with no entry
for the command, and the Notifier holds no subscription for the command. -/
def nothing_survives (id : Nat)
    (call : Oracle R → Nat → Sys Engine P → Outcome Engine P O) : Prop :=
  ∀ (A : Oracle R) (cb : Nat) (s : Sys Engine P), cb ≠ NULL → 0 ≤ A.poweron →
    s.world.registry id = none → (A.allocbuff = NULL ∨ A.send.ret < 0) →
    (call A cb s).ret < 0 ∧
    (call A cb s).sys.world.registry = s.world.registry ∧
    (call A cb s).sys.world.registry id = none ∧
    notifier_subscribed id (call A cb s).sys.world.notifier = false

/-- What a status-change handler does, for the command id `id`:
`r` and `r2` are its results for the statuses `new_stat, old_stat` and
`new_stat, old_stat2` in system `s`.  Below the powered-on threshold it calls
`altcomcallbacks_unreg_cb(id)`, and nothing else, and answers
`ALTCOM_STATUS_REG_CLR`; otherwise it calls nothing and answers
`ALTCOM_STATUS_REG_KEEP`; and `old_stat` plays no role. -/
def status_policy (K : Consts) (E : Collab σ R P) (id : Nat) (new_stat : Int) (s : Sys σ P)
    (r r2 : Int × Sys σ P) : Prop :=
  (new_stat < K.ALTCOM_STATUS_POWER_ON →
    r = (K.ALTCOM_STATUS_REG_CLR,
      ⟨E.altcomcallbacks_unreg_cb id s.world, s.trace ++ [Event.unreg_cb id]⟩)) ∧
  (K.ALTCOM_STATUS_POWER_ON ≤ new_stat → r = (K.ALTCOM_STATUS_REG_KEEP, s)) ∧
  r = r2

/-- What a status-change handler does to the engine, for the command id `id`:
`r` is its result for the status `new_stat` in system `s`.  Below the
powered-on threshold the entry of `id` is gone from the Registry and the
entries of the other command ids are what they were; otherwise the engine is
unchanged. -/
def status_policy_engine (K : Consts) (id : Nat) (new_stat : Int) (s : Sys Engine P)
    (r : Int × Sys Engine P) : Prop :=
  (new_stat < K.ALTCOM_STATUS_POWER_ON →
    r.2.world.registry id = none ∧
    (∀ k, k ≠ id → r.2.world.registry k = s.world.registry k) ∧
    r.2.world.notifier = s.world.notifier) ∧
  (K.ALTCOM_STATUS_POWER_ON ≤ new_stat → r.2.world = s.world)

/-! ## Concrete values for the examples -/

/-- Sample values of the constants, with a little-endian host. -/
def sample_consts : Consts where
  ALTCOM_STATUS_POWER_ON := 3
  ALTCOM_STATUS_REG_CLR := 1
  ALTCOM_STATUS_REG_KEEP := 0
  LTE_RESULT_OK := 0
  APICMDID_GET_LTIME := 11
  APICMDID_GET_PINSET := 12
  APICMDID_GET_QUALITY := 13
  SYS_TIMEO_FEVR := -1
  sizeof_getltimeres := 11
  sizeof_getpinsetres := 7
  sizeof_getqualityres := 10
  big_endian := false

/-- Sample codes of the Registry. -/
def sample_codes : Codes := ⟨-115, -2, by decide, by decide⟩

/-- The engine with no pending operation and no subscription. -/
def idle : Engine := ⟨fun _ => none, []⟩

/-- A response to get local time: 2024-06-01 10:30:00, the timezone field
holding the bytes `00 00 7E 90` (32400 in network order) as read by a
little-endian host. -/
def sample_ltime : apicmd_cmddat_ltime_s := ⟨24, 6, 1, 10, 30, 0, -1870790656⟩

/-- An oracle for a powered-on device with a free buffer pool, whose gateway
returns `ret` and leaves `resbuff` in the response buffer. -/
def answering (ret : Int) (reslen : Nat) (resbuff : R) : Oracle R :=
  ⟨0, 4096, ⟨ret, reslen, resbuff⟩⟩

/-- A response to get local time with result code 0 and the sample time. -/
def sample_response : apicmd_cmddat_getltimeres_s := ⟨0, sample_ltime⟩

/-- The collaborators over the engine for get local time, with a powered-on
device, a free buffer pool and a gateway that accepts the request. -/
def sample_engine : Collab Engine apicmd_cmddat_getltimeres_s lte_localtime_t :=
  engine sample_consts sample_codes (answering 0 0 sample_response)

/-- The system after the asynchronous call `lte_get_localtime(7)` made on the
idle engine. -/
def sample_pending : Sys Engine lte_localtime_t :=
  (lte_get_localtime sample_consts sample_engine 7 (start idle)).sys

/-! ## Further readings of a trace and of a call -/

/-- The calls of `altcombs_setup_apicallback` and `altcombs_teardown_apicallback`
along a trace, in order. -/
def registry_calls : List (Event P) → List (Event P)
  | [] => []
  | Event.setup_apicallback id api_cb stat_cb ret :: rest =>
    Event.setup_apicallback id api_cb stat_cb ret :: registry_calls rest
  | Event.teardown_apicallback id stat_cb :: rest =>
    Event.teardown_apicallback id stat_cb :: registry_calls rest
  | _ :: rest => registry_calls rest

/-- When a call transmits.  `o` is the outcome of the call of command `c` with
the arguments `out` and `cb`, started in world `w` with an empty trace.
`apicmdgw_send` is called at most once, and it is called if and only if the
arguments are valid, the power check passed, the call is synchronous or the
registration succeeded, and the request buffer was allocated.  When the power
check fails or the registration fails the call returns the negative code of
that collaborator, and when the allocation fails it returns `-ENOMEM`, each
time without a call of `apicmdgw_send`. -/
def transmits_iff_accepted (E : Collab σ R P) (c : Cmd R O) (out : Option O) (cb : Nat)
    (w : σ) (o : Outcome σ P O) : Prop :=
  (sends o.sys.trace).length ≤ 1 ∧
  (sends o.sys.trace = [allocation E c cb w] ↔ allocated E c out cb w) ∧
  (sends o.sys.trace = [] ↔ ¬ allocated E c out cb w) ∧
  (¬ (out.isNone ∧ cb = NULL) → power_check E w < 0 →
    o.ret = power_check E w ∧ sends o.sys.trace = []) ∧
  (cb ≠ NULL → 0 ≤ power_check E w → registration E c cb w < 0 →
    o.ret = registration E c cb w ∧ sends o.sys.trace = []) ∧
  (¬ (out.isNone ∧ cb = NULL) → 0 ≤ power_check E w →
    (cb = NULL ∨ 0 ≤ registration E c cb w) → allocation E c cb w = NULL →
    o.ret = -ENOMEM ∧ sends o.sys.trace = [])

/-- The return value of a call.  `o` is the outcome of the call of command `c`
with the arguments `out` and `cb`, started in world `w` with an empty trace.
The return value is 0 or negative, and it is 0 only if the request was handed
to `apicmdgw_send`, send did not return a negative value and, for a
synchronous call, the result field of the response is `LTE_RESULT_OK`. -/
def zero_or_negative (K : Consts) (E : Collab σ R P) (c : Cmd R O) (out : Option O)
    (cb : Nat) (w : σ) (o : Outcome σ P O) : Prop :=
  (o.ret = 0 ∨ o.ret < 0) ∧
  (o.ret = 0 →
    allocated E c out cb w ∧ sends o.sys.trace = [allocation E c cb w] ∧
    0 ≤ (transmission K E c cb w).ret ∧
    (cb = NULL → (c.result (transmission K E c cb w).resbuff : Int) = K.LTE_RESULT_OK))


/-- The asynchronous mode of a call.  `o` is the outcome of the call of command
`c` with the arguments `out` and `cb`, started in world `w` with an empty
trace.  No user callback is invoked during the call.  With a null callback
`altcombs_setup_apicallback` is not called; with a non-null callback, whatever
`out` is, it is called once the power check has passed.  And with a non-null
callback, when the power check, the registration, the allocation and the send
succeed, the call returns 0 (whatever non-negative value send returned), has
passed a null response buffer to `apicmdgw_send`, has left the memory behind
`out` as it was, and has not called `altcombs_teardown_apicallback`. -/
def async_mode (K : Consts) (E : Collab σ R P) (c : Cmd R O) (out : Option O) (cb : Nat)
    (w : σ) (o : Outcome σ P O) : Prop :=
  callbacks o.sys.trace = [] ∧
  (cb = NULL → registry_calls o.sys.trace = []) ∧
  (cb ≠ NULL → 0 ≤ power_check E w →
    Event.setup_apicallback c.id cb c.stat_cb (registration E c cb w) ∈ o.sys.trace ∧
    (0 ≤ registration E c cb w → allocation E c cb w ≠ NULL →
      0 ≤ (transmission K E c cb w).ret →
      o = ⟨0, out, ⟨after_free K E c cb w,
        [Event.check_poweron_status (power_check E w),
          Event.setup_apicallback c.id cb c.stat_cb (registration E c cb w),
          Event.cmd_allocbuff c.id REQ_DATA_LEN (allocation E c cb w),
          Event.send (allocation E c cb w) false c.resbufflen K.SYS_TIMEO_FEVR
            (transmission K E c cb w).ret,
          Event.free_cmd (allocation E c cb w)]⟩⟩))

/-- On the engine, an accepted asynchronous call leaves its registration and
its subscription in place: when the call with the non-null callback `cb` finds
no entry for the command and its power check, allocation and send succeed, it
returns 0, the Registry holds `cb` for the command and the Notifier holds the
status-change handler of the command. -/
def registration_stays (id : Nat) (stat_cb : StatChgCb)
    (call : Oracle R → Nat → Sys Engine P → Outcome Engine P O) : Prop :=
  ∀ (A : Oracle R) (cb : Nat) (s : Sys Engine P), cb ≠ NULL → 0 ≤ A.poweron →
    s.world.registry id = none → A.allocbuff ≠ NULL → 0 ≤ A.send.ret →
    (call A cb s).ret = 0 ∧
    (call A cb s).sys.world.registry id = some cb ∧
    (id, stat_cb) ∈ (call A cb s).sys.world.notifier ∧
    notifier_subscribed id (call A cb s).sys.world.notifier = true

/-- On the engine, a synchronous call leaves the Registry and the Notifier as
they are: `call A out s` is the synchronous call with the output pointer `out`
made in system `s`. -/
def sync_leaves_engine (call : Oracle R → Option O → Sys Engine P → Outcome Engine P O) :
    Prop :=
  ∀ (A : Oracle R) (out : Option O) (s : Sys Engine P), (call A out s).sys.world = s.world


/-- The collaborators `E` with a gateway whose answer (return value, received
length, contents of the response buffer) is changed by `f`; the world the
gateway leaves behind and the other collaborators are those of `E`. -/
def with_send (f : SendRes R → SendRes R) (E : Collab σ R P) : Collab σ R P where
  altcombs_check_poweron_status := E.altcombs_check_poweron_status
  altcombs_setup_apicallback := E.altcombs_setup_apicallback
  altcombs_teardown_apicallback := E.altcombs_teardown_apicallback
  apicmdgw_cmd_allocbuff := E.apicmdgw_cmd_allocbuff
  apicmdgw_send := fun reqbuff presbuff resbufflen timeout w =>
    (f (E.apicmdgw_send reqbuff presbuff resbufflen timeout w).1,
      (E.apicmdgw_send reqbuff presbuff resbufflen timeout w).2)
  altcom_free_cmd := E.altcom_free_cmd
  altcomcallbacks_unreg_cb := E.altcomcallbacks_unreg_cb
  altcomcallbacks_get_unreg_cb := E.altcomcallbacks_get_unreg_cb
  altcomstatus_unreg_statchgcb := E.altcomstatus_unreg_statchgcb
  user_callback := E.user_callback

/-- A synchronous call whose send fails.  `impl E out cb s` is the
implementation of command `c` over the collaborators `E`.  When the power
check passes, the request buffer is allocated and `apicmdgw_send` returns a
negative value, the synchronous call returns that value unchanged (so that it
is `-EPROTO` only if the gateway itself returned `-EPROTO`) and leaves the
output as it was; and the received length and the contents of the response
buffer play no role: with a gateway that returns the same value and leaves
anything else in `reslen` and in the response buffer, the whole outcome of the
call is the same. -/
def sync_transport_failure (K : Consts) (c : Cmd R O)
    (impl : Collab σ R P → Option O → Nat → Sys σ P → Outcome σ P O) : Prop :=
  ∀ (E : Collab σ R P) (v : O) (w : σ),
    0 ≤ power_check E w → allocation E c NULL w ≠ NULL →
    (transmission K E c NULL w).ret < 0 →
    (impl E (some v) NULL (start w)).ret = (transmission K E c NULL w).ret ∧
    (impl E (some v) NULL (start w)).out = some v ∧
    ((transmission K E c NULL w).ret ≠ -EPROTO →
      (impl E (some v) NULL (start w)).ret ≠ -EPROTO) ∧
    ∀ f : SendRes R → SendRes R, (∀ r, (f r).ret = r.ret) →
      impl (with_send f E) (some v) NULL (start w) = impl E (some v) NULL (start w)

/-- The outcome of a synchronous call once the send has succeeded.  `impl E
out cb s` is the implementation of command `c` over the collaborators `E`.
When the power check passes, the request buffer is allocated and
`apicmdgw_send` returns a non-negative value, the return value and the output
of the synchronous call are given by the contents of the response buffer
alone: 0 and the parsed buffer when its result field is `LTE_RESULT_OK`,
`-EPROTO` and the old output otherwise.  With a gateway that leaves the same
contents in the response buffer and reports any other received length, or
returns any other non-negative value, the return value and the output are the
same. -/
def sync_outcome_from_buffer (K : Consts) (c : Cmd R O)
    (impl : Collab σ R P → Option O → Nat → Sys σ P → Outcome σ P O) : Prop :=
  ∀ (E : Collab σ R P) (v : O) (w : σ),
    0 ≤ power_check E w → allocation E c NULL w ≠ NULL →
    0 ≤ (transmission K E c NULL w).ret →
    (impl E (some v) NULL (start w)).ret
      = (if K.LTE_RESULT_OK = (c.result (transmission K E c NULL w).resbuff : Int) then 0
        else -EPROTO) ∧
    (impl E (some v) NULL (start w)).out
      = (if K.LTE_RESULT_OK = (c.result (transmission K E c NULL w).resbuff : Int) then
          some (c.parse (transmission K E c NULL w).resbuff v)
        else some v) ∧
    ∀ f : SendRes R → SendRes R, (∀ r, (f r).resbuff = r.resbuff) →
      (∀ r, 0 ≤ r.ret → 0 ≤ (f r).ret) →
      (impl (with_send f E) (some v) NULL (start w)).ret
        = (impl E (some v) NULL (start w)).ret ∧
      (impl (with_send f E) (some v) NULL (start w)).out
        = (impl E (some v) NULL (start w)).out


/-! ## The response handlers

`apicmdhdlr_getltime`, `apicmdhdlr_getpinset` and `apicmdhdlr_getquality` hand
the received event to `apicmdhdlrbs_do_runjob` of `apicmdhdlrbs.c`, together
with the response identifier of their command and their completion job.  The
macro `APICMDID_CONVERT_RES` and the function `apicmdhdlrbs_do_runjob` are
parameters of the three handlers, the latter a function on an arbitrary world
`T` of the dispatcher. -/

/-- The `enum evthdlrc_e` of `evthdlbs.h`. -/
inductive evthdlrc_e where
  | EVTHDLRC_STARTHANDLE
  | EVTHDLRC_UNSUPPORTEDEVENT
  | EVTHDLRC_INTERNALERROR
deriving DecidableEq, Repr

/-- The three completion jobs, as function pointers. -/
inductive JobFn where
  | getltime_job
  | getpinset_job
  | getquality_job
deriving DecidableEq, Repr

/-- A received event as the pointer `evt` gives access to it: its address and
the command identifier in its header. -/
structure Frame where
  addr : Nat
  cmdid : Nat
deriving DecidableEq, Repr

/-- The C function `apicmdhdlr_getltime`. -/
def apicmdhdlr_getltime {T : Type} (K : Consts) (APICMDID_CONVERT_RES : Nat → Nat)
    (do_runjob : Frame → Nat → JobFn → T → evthdlrc_e × T)
    (evt : Frame) (evlen : Nat) (t : T) : evthdlrc_e × T :=
  do_runjob evt (APICMDID_CONVERT_RES K.APICMDID_GET_LTIME) JobFn.getltime_job t

/-- The C function `apicmdhdlr_getpinset`. -/
def apicmdhdlr_getpinset {T : Type} (K : Consts) (APICMDID_CONVERT_RES : Nat → Nat)
    (do_runjob : Frame → Nat → JobFn → T → evthdlrc_e × T)
    (evt : Frame) (evlen : Nat) (t : T) : evthdlrc_e × T :=
  do_runjob evt (APICMDID_CONVERT_RES K.APICMDID_GET_PINSET) JobFn.getpinset_job t

/-- The C function `apicmdhdlr_getquality`. -/
def apicmdhdlr_getquality {T : Type} (K : Consts) (APICMDID_CONVERT_RES : Nat → Nat)
    (do_runjob : Frame → Nat → JobFn → T → evthdlrc_e × T)
    (evt : Frame) (evlen : Nat) (t : T) : evthdlrc_e × T :=
  do_runjob evt (APICMDID_CONVERT_RES K.APICMDID_GET_QUALITY) JobFn.getquality_job t

/-- Modelled from the spec: `apicmdhdlrbs_do_runjob` (of `apicmdhdlrbs.c`,
missing here), the `dispatch` of section 4.4 for one response identifier:
"Matches the frame's command identifier against known response identifiers; if
matched, schedules the corresponding completion job with ownership of the
inbound buffer transferred to that job; if unmatched, the frame is rejected
without consuming it ... and Unsupported is reported; a malformed/too-short
frame yields InternalError."  The function gets the frame, not its length:
`malformed` is what it can judge of the frame by itself.  Its world is the
queue of the scheduled jobs with their frames. -/
def apicmdhdlrbs_do_runjob (malformed : Frame → Bool) (evt : Frame) (cmdid : Nat)
    (job : JobFn) (queue : List (JobFn × Frame)) : evthdlrc_e × List (JobFn × Frame) :=
  if malformed evt then (evthdlrc_e.EVTHDLRC_INTERNALERROR, queue)
  else if evt.cmdid = cmdid then (evthdlrc_e.EVTHDLRC_STARTHANDLE, queue ++ [(job, evt)])
  else (evthdlrc_e.EVTHDLRC_UNSUPPORTEDEVENT, queue)

/-- What a response handler does, for the response identifier `resid` and the
completion job `job` of its command.  Its result is the result of
`apicmdhdlrbs_do_runjob` for the frame, `resid` and `job`, whatever the length
`evlen` is.  With the dispatcher of the spec: a frame with the identifier
`resid` yields `EVTHDLRC_STARTHANDLE` and schedules `job` with the frame; a
frame with another identifier yields `EVTHDLRC_UNSUPPORTEDEVENT` and schedules
nothing; a frame that the dispatcher judges malformed yields
`EVTHDLRC_INTERNALERROR` and schedules nothing. -/
def dispatches (resid : Nat) (job : JobFn)
    (handler : (T : Type) → (Frame → Nat → JobFn → T → evthdlrc_e × T) → Frame → Nat → T →
      evthdlrc_e × T) : Prop :=
  (∀ (T : Type) (do_runjob : Frame → Nat → JobFn → T → evthdlrc_e × T) (evt : Frame)
      (evlen : Nat) (t : T),
    handler T do_runjob evt evlen t = do_runjob evt resid job t) ∧
  (∀ (malformed : Frame → Bool) (evt : Frame) (evlen : Nat) (queue : List (JobFn × Frame)),
    (malformed evt = false → evt.cmdid = resid →
      handler _ (apicmdhdlrbs_do_runjob malformed) evt evlen queue
        = (evthdlrc_e.EVTHDLRC_STARTHANDLE, queue ++ [(job, evt)])) ∧
    (malformed evt = false → evt.cmdid ≠ resid →
      handler _ (apicmdhdlrbs_do_runjob malformed) evt evlen queue
        = (evthdlrc_e.EVTHDLRC_UNSUPPORTEDEVENT, queue)) ∧
    (malformed evt = true →
      handler _ (apicmdhdlrbs_do_runjob malformed) evt evlen queue
        = (evthdlrc_e.EVTHDLRC_INTERNALERROR, queue)))

/-- A sample `APICMDID_CONVERT_RES`: the response identifier is the request
identifier with bit 15 set. -/
def sample_convert_res (cmdid : Nat) : Nat := cmdid ||| 32768


/-! ## The publish pass of the Status Notifier -/

/-- The status-change handler behind a function pointer. -/
def status_chg_cb_of (K : Consts) (E : Collab σ R P) :
    StatChgCb → Int → Int → Sys σ P → Int × Sys σ P
  | StatChgCb.getltime_status_chg_cb => getltime_status_chg_cb K E
  | StatChgCb.getpinset_status_chg_cb => getpinset_status_chg_cb K E
  | StatChgCb.getquality_status_chg_cb => getquality_status_chg_cb K E

/-- Modelled from the spec: one pass of `publish` of the Status Notifier
(`altcom_status.c` is missing) over the subscribers `subs`: "For every current
subscriber, invokes its handler with (new_state, old_state); handlers returning
CLEAR are removed after the call, in the same pass". -/
def publish_pass (K : Consts) (E : Collab Engine R P) (new_stat old_stat : Int) :
    List (Nat × StatChgCb) → Sys Engine P → Sys Engine P
  | [], s => s
  | sub :: rest, s =>
    publish_pass K E new_stat old_stat rest
      (if (status_chg_cb_of K E sub.2 new_stat old_stat s).1 = K.ALTCOM_STATUS_REG_CLR then
        ⟨⟨(status_chg_cb_of K E sub.2 new_stat old_stat s).2.world.registry,
            (status_chg_cb_of K E sub.2 new_stat old_stat s).2.world.notifier.filter
              (fun e => e ≠ sub)⟩,
          (status_chg_cb_of K E sub.2 new_stat old_stat s).2.trace⟩
      else (status_chg_cb_of K E sub.2 new_stat old_stat s).2)

/-- Modelled from the spec: `publish(new_state, old_state)` of the Status
Notifier (`altcom_status.c` is missing), a pass over the subscribers held when
the transition is published. -/
def publish (K : Consts) (E : Collab Engine R P) (new_stat old_stat : Int)
    (s : Sys Engine P) : Sys Engine P :=
  publish_pass K E new_stat old_stat s.world.notifier s

/-- The command of the status-change handler `stat_cb` has a pending
asynchronous operation in the engine `w`: the Registry holds an entry for its
command id and the Notifier holds the handler for that id. -/
def pending (K : Consts) (w : Engine) (stat_cb : StatChgCb) : Prop :=
  (w.registry (stat_cb_id K stat_cb)).isSome ∧ (stat_cb_id K stat_cb, stat_cb) ∈ w.notifier

/-- What a publish pass does to the pending operations of the three commands.
After `publish new_stat old_stat` with `new_stat` below the powered-on
threshold, no entry and no subscription remains for a command that had a
pending operation; after a publish with `new_stat` at or above the threshold
the system is what it was, so that every such entry and subscription is still
there. -/
def publish_clears (K : Consts) (publish : Int → Int → Sys Engine P → Sys Engine P) : Prop :=
  ∀ (new_stat old_stat : Int) (s : Sys Engine P),
    (new_stat < K.ALTCOM_STATUS_POWER_ON →
      ∀ stat_cb : StatChgCb, pending K s.world stat_cb →
        (publish new_stat old_stat s).world.registry (stat_cb_id K stat_cb) = none ∧
        notifier_subscribed (stat_cb_id K stat_cb) (publish new_stat old_stat s).world.notifier
          = false) ∧
    (K.ALTCOM_STATUS_POWER_ON ≤ new_stat →
      publish new_stat old_stat s = s ∧
      ∀ stat_cb : StatChgCb, pending K s.world stat_cb →
        pending K (publish new_stat old_stat s).world stat_cb)

/-- The system after `lte_get_localtime(7)`, `lte_get_pinset(8)` and
`lte_get_quality(9)` have been accepted on the idle engine. -/
def sample_three_pending : Sys Engine Nat :=
  (lte_get_quality sample_consts (engine sample_consts sample_codes (answering 0 0 ⟨0, 77⟩))
    (fun (q r : Nat) => q + r) 9
    (lte_get_pinset sample_consts
      (engine sample_consts sample_codes (answering 0 0 ⟨0, 1, 2, 3, 4, 5, 6⟩)) 8
      (lte_get_localtime sample_consts
        (engine sample_consts sample_codes (answering 0 0 sample_response)) 7
        (start idle)).sys).sys).sys


/-! ## Invariant I5 and the operations on the engine -/

/-- Invariant I5 of the spec: the Status Notifier holds a subscription for a
command id only if the Registry holds a pending operation for that id. -/
def I5 (w : Engine) : Prop :=
  ∀ id : Nat, notifier_subscribed id w.notifier = true → (w.registry id).isSome = true

/-- The operations that change the engine: the asynchronous calls of the three
commands (with what the collaborators outside the engine answer and the
callback), the completion jobs of the three commands run on a response, and
the publication of a status change, which runs the status-change handlers of
the subscribers. -/
inductive Op (Qraw Q : Type) where
  | get_localtime (A : Oracle apicmd_cmddat_getltimeres_s) (callback : Nat)
  | get_pinset (A : Oracle apicmd_cmddat_getpinsetres_s) (callback : Nat)
  | get_quality (A : Oracle (apicmd_cmddat_getqualityres_s Qraw)) (callback : Nat)
  | localtime_response (arg : Nat) (data : apicmd_cmddat_getltimeres_s)
      (ltime : lte_localtime_t)
  | pinset_response (arg : Nat) (data : apicmd_cmddat_getpinsetres_s) (pinset : lte_getpin_t)
  | quality_response (arg : Nat) (data : apicmd_cmddat_getqualityres_s Qraw) (getquality : Q)
  | status (new_stat old_stat : Int)

/-- The engine after one operation has run to its end. -/
def step (K : Consts) (C : Codes) (set_quality : Q → Qraw → Q) : Op Qraw Q → Engine → Engine
  | Op.get_localtime A callback, w =>
    (lte_get_localtime K (engine K C A) callback
      (start w : Sys Engine lte_localtime_t)).sys.world
  | Op.get_pinset A callback, w =>
    (lte_get_pinset K (engine K C A) callback (start w : Sys Engine lte_getpin_t)).sys.world
  | Op.get_quality A callback, w =>
    (lte_get_quality K (engine K C A) set_quality callback (start w : Sys Engine Q)).sys.world
  | Op.localtime_response arg data ltime, w =>
    (getltime_job K (engine K C (answering 0 0 data)) arg data ltime (start w)).world
  | Op.pinset_response arg data pinset, w =>
    (getpinset_job K (engine K C (answering 0 0 data)) arg data pinset (start w)).world
  | Op.quality_response arg data getquality, w =>
    (getquality_job K (engine K C (answering 0 0 data)) set_quality arg data getquality
      (start w)).world
  | Op.status new_stat old_stat, w =>
    (publish K (engine K C (answering 0 0 ()) : Collab Engine Unit Unit) new_stat old_stat
      (start w)).world

/-- The engine after a sequence of operations. -/
def steps (K : Consts) (C : Codes) (set_quality : Q → Qraw → Q) :
    List (Op Qraw Q) → Engine → Engine
  | [], w => w
  | op :: rest, w => steps K C set_quality rest (step K C set_quality op w)

/-- The collaborators `E` on a world that also keeps, in its second component,
the worlds in which the user callback was invoked: the user callback records
the world and then does what it does in `E`. -/
def observing (E : Collab σ R P) : Collab (σ × List σ) R P where
  altcombs_check_poweron_status := fun w =>
    ((E.altcombs_check_poweron_status w.1).1, ((E.altcombs_check_poweron_status w.1).2, w.2))
  altcombs_setup_apicallback := fun id api_cb stat_cb w =>
    ((E.altcombs_setup_apicallback id api_cb stat_cb w.1).1,
      ((E.altcombs_setup_apicallback id api_cb stat_cb w.1).2, w.2))
  altcombs_teardown_apicallback := fun id stat_cb w =>
    (E.altcombs_teardown_apicallback id stat_cb w.1, w.2)
  apicmdgw_cmd_allocbuff := fun id len w =>
    ((E.apicmdgw_cmd_allocbuff id len w.1).1, ((E.apicmdgw_cmd_allocbuff id len w.1).2, w.2))
  apicmdgw_send := fun reqbuff presbuff resbufflen timeout w =>
    ((E.apicmdgw_send reqbuff presbuff resbufflen timeout w.1).1,
      ((E.apicmdgw_send reqbuff presbuff resbufflen timeout w.1).2, w.2))
  altcom_free_cmd := fun buff w => (E.altcom_free_cmd buff w.1, w.2)
  altcomcallbacks_unreg_cb := fun id w => (E.altcomcallbacks_unreg_cb id w.1, w.2)
  altcomcallbacks_get_unreg_cb := fun id w =>
    ((E.altcomcallbacks_get_unreg_cb id w.1).1, ((E.altcomcallbacks_get_unreg_cb id w.1).2, w.2))
  altcomstatus_unreg_statchgcb := fun stat_cb w =>
    (E.altcomstatus_unreg_statchgcb stat_cb w.1, w.2)
  user_callback := fun cb result payload w =>
    (E.user_callback cb result payload w.1, w.2 ++ [w.1])


/-! ## Theorems -/

theorem lte_getlocaltime_impl_eq (K : Consts) (E : Collab σ apicmd_cmddat_getltimeres_s P) :
    lte_getlocaltime_impl K E = impl_core K E (getltime_cmd K) := rfl

theorem lte_getpinset_impl_eq (K : Consts) (E : Collab σ apicmd_cmddat_getpinsetres_s P) :
    lte_getpinset_impl K E = impl_core K E (getpinset_cmd K) := rfl

theorem lte_getquality_impl_eq (K : Consts)
    (E : Collab σ (apicmd_cmddat_getqualityres_s Qraw) P) (f : Q → Qraw → Q) :
    lte_getquality_impl K E f = impl_core K E (getquality_cmd K f) := rfl

/-- Big-step summary of the common implementation: which path is taken, and
the return value, output, world and trace on each path. -/
theorem impl_core_spec (K : Consts) (E : Collab σ R P) (c : Cmd R O) (out : Option O)
    (cb : Nat) (w : σ) (tr : List (Event P)) :
    impl_core K E c out cb ⟨w, tr⟩ =
      if out.isNone ∧ cb = NULL then ⟨-EINVAL, out, ⟨w, tr⟩⟩
      else if power_check E w < 0 then
        ⟨power_check E w, out, ⟨after_power_check E w,
          tr ++ [Event.check_poweron_status (power_check E w)]⟩⟩
      else if cb ≠ NULL ∧ registration E c cb w < 0 then
        ⟨registration E c cb w, out, ⟨before_alloc E c cb w, tr ++ entry_events E c cb w⟩⟩
      else if allocation E c cb w = NULL then
        ⟨-ENOMEM, out, ⟨errout_world E c cb (after_alloc E c cb w),
          tr ++ entry_events E c cb w ++ [Event.cmd_allocbuff c.id REQ_DATA_LEN NULL]
            ++ errout_events c cb⟩⟩
      else if (transmission K E c cb w).ret < 0 then
        ⟨(transmission K E c cb w).ret, out, ⟨errout_world E c cb (after_free K E c cb w),
          tr ++ entry_events E c cb w ++ send_events K E c cb w ++ errout_events c cb⟩⟩
      else if cb ≠ NULL then
        ⟨0, out, ⟨after_free K E c cb w, tr ++ entry_events E c cb w ++ send_events K E c cb w⟩⟩
      else if K.LTE_RESULT_OK = (c.result (transmission K E c cb w).resbuff : Int) then
        ⟨0, out.map (c.parse (transmission K E c cb w).resbuff),
          ⟨after_free K E c cb w, tr ++ entry_events E c cb w ++ send_events K E c cb w⟩⟩
      else
        ⟨-EPROTO, out, ⟨after_free K E c cb w,
          tr ++ entry_events E c cb w ++ send_events K E c cb w⟩⟩ := by
  simp only [impl_core, power_check, after_power_check, registration, before_alloc,
    allocation, after_alloc, transmission, after_send, after_free, entry_events, send_events,
    errout_events, errout_world, altcombs_check_poweron_status, altcombs_setup_apicallback,
    altcombs_teardown_apicallback, apicmdgw_cmd_allocbuff, apicmdgw_send, altcom_free_cmd]
  by_cases hcb : cb = NULL
  · subst hcb
    simp only [beq_self_eq_true, if_true, not_true_eq_false, false_and, if_false, ne_eq]
    split_ifs <;> simp_all [EPROTO]
  · have hb : (cb == NULL) = false := by simpa using hcb
    simp only [hb, hcb, if_false, and_false, ne_eq, not_false_eq_true, true_and,
      Bool.false_eq_true]
    split_ifs <;> simp_all

/-- The synchronous path on which the remote side reports a failure. -/
theorem impl_core_sync_remote_failure (K : Consts) (E : Collab σ R P) (c : Cmd R O) (v : O)
    (s : Sys σ P) (h1 : 0 ≤ power_check E s.world) (h2 : allocation E c NULL s.world ≠ NULL)
    (h3 : 0 ≤ (transmission K E c NULL s.world).ret)
    (h4 : (c.result (transmission K E c NULL s.world).resbuff : Int) ≠ K.LTE_RESULT_OK) :
    (impl_core K E c (some v) NULL s).ret = -EPROTO ∧
    (impl_core K E c (some v) NULL s).out = some v := by
  obtain ⟨w, tr⟩ := s
  rw [impl_core_spec]
  simp only at h1 h2 h3 h4
  simp [not_lt.mpr h1, h2, not_lt.mpr h3, Ne.symm h4]

/-- The synchronous path on which the remote side reports success. -/
theorem impl_core_sync_ok (K : Consts) (E : Collab σ R P) (c : Cmd R O) (v : O)
    (s : Sys σ P) (h1 : 0 ≤ power_check E s.world) (h2 : allocation E c NULL s.world ≠ NULL)
    (h3 : 0 ≤ (transmission K E c NULL s.world).ret)
    (h4 : (c.result (transmission K E c NULL s.world).resbuff : Int) = K.LTE_RESULT_OK) :
    (impl_core K E c (some v) NULL s).ret = 0 ∧
    (impl_core K E c (some v) NULL s).out
      = some (c.parse (transmission K E c NULL s.world).resbuff v) := by
  obtain ⟨w, tr⟩ := s
  rw [impl_core_spec]
  simp only at h1 h2 h3 h4
  simp [not_lt.mpr h1, h2, not_lt.mpr h3, h4.symm]

theorem be_decode_lt (b0 b1 b2 b3 : Nat) : be_decode b0 b1 b2 b3 < 4294967296 := by
  unfold be_decode
  omega

theorem to_uint32_to_int32 (n : Nat) (h : n < 4294967296) : to_uint32 (to_int32 n) = n := by
  unfold to_uint32 to_int32
  split_ifs <;> omega

theorem to_int32_to_uint32 (v : Int) (h1 : -2147483648 ≤ v) (h2 : v < 2147483648) :
    to_int32 (to_uint32 v) = v := by
  unfold to_uint32 to_int32
  split_ifs <;> omega

theorem bswap32_be_decode (b0 b1 b2 b3 : Nat) :
    bswap32 (be_decode b3 b2 b1 b0) = be_decode b0 b1 b2 b3 := by
  unfold bswap32 be_decode
  omega

/-- Whatever the byte order of the host, `ntohl` applied to what the host reads
from four bytes of memory is the big-endian value of these bytes. -/
theorem ntohl_host_load32 (K : Consts) (b0 b1 b2 b3 : Nat) :
    ntohl K (to_uint32 (host_load32 K b0 b1 b2 b3)) = be_decode b0 b1 b2 b3 := by
  unfold ntohl host_load32
  cases K.big_endian
  · simp only [Bool.false_eq_true, if_false]
    rw [to_uint32_to_int32 _ (be_decode_lt _ _ _ _), bswap32_be_decode]
  · simp only [if_true]
    rw [to_uint32_to_int32 _ (be_decode_lt _ _ _ _)]
    exact Nat.mod_eq_of_lt (be_decode_lt _ _ _ _)

theorem frees_append (a b : List (Event P)) : frees (a ++ b) = frees a ++ frees b := by
  induction a with
  | nil => rfl
  | cons e a ih => cases e <;> simp [frees, ih]

theorem allocs_append (a b : List (Event P)) : allocs (a ++ b) = allocs a ++ allocs b := by
  induction a with
  | nil => rfl
  | cons e a ih =>
    cases e <;> simp [allocs, ih]
    split_ifs <;> simp

theorem sends_append (a b : List (Event P)) : sends (a ++ b) = sends a ++ sends b := by
  induction a with
  | nil => rfl
  | cons e a ih => cases e <;> simp [sends, ih]

theorem callbacks_append (a b : List (Event P)) :
    callbacks (a ++ b) = callbacks a ++ callbacks b := by
  induction a with
  | nil => rfl
  | cons e a ih => cases e <;> simp [callbacks, ih]

theorem entry_events_no_buffer (E : Collab σ R P) (c : Cmd R O) (cb : Nat) (w : σ) :
    frees (entry_events E c cb w) = [] ∧ allocs (entry_events E c cb w) = [] ∧
    sends (entry_events E c cb w) = [] ∧ callbacks (entry_events E c cb w) = [] := by
  unfold entry_events
  split_ifs <;> simp [frees, allocs, sends, callbacks]

theorem errout_events_no_buffer (c : Cmd R O) (cb : Nat) :
    frees (errout_events c cb : List (Event P)) = [] ∧
    allocs (errout_events c cb : List (Event P)) = [] ∧
    sends (errout_events c cb : List (Event P)) = [] ∧
    callbacks (errout_events c cb : List (Event P)) = [] := by
  unfold errout_events
  split_ifs <;> simp [frees, allocs, sends, callbacks]

/-- Buffer conservation for the common implementation. -/
theorem impl_core_buffers (K : Consts) (E : Collab σ R P) (c : Cmd R O) (out : Option O)
    (cb : Nat) (w : σ) :
    buffer_conservation (impl_core K E c out cb (start w)).sys.trace
      (allocated E c out cb w) (allocation E c cb w) (send_events K E c cb w) := by
  have he := entry_events_no_buffer E c cb w
  have hx := errout_events_no_buffer (P := P) c cb
  have hf : frees (send_events K E c cb w) = [allocation E c cb w] := by
    simp [send_events, frees]
  have hs : frees ([Event.cmd_allocbuff c.id REQ_DATA_LEN NULL] : List (Event P)) = [] ∧
      allocs ([Event.cmd_allocbuff c.id REQ_DATA_LEN NULL] : List (Event P)) = [] ∧
      sends ([Event.cmd_allocbuff c.id REQ_DATA_LEN NULL] : List (Event P)) = [] := by
    simp [frees, allocs, sends]
  rw [start, impl_core_spec]
  unfold buffer_conservation allocated
  by_cases h0 : out.isNone ∧ cb = NULL
  · rw [if_pos h0]
    exact ⟨rfl, by simp [allocs], fun h => absurd h0 h.1, fun _ => ⟨rfl, rfl, rfl⟩⟩
  rw [if_neg h0]
  by_cases h1 : power_check E w < 0
  · rw [if_pos h1]
    exact ⟨rfl, by simp [allocs], fun h => absurd h1 (not_lt.mpr h.2.1),
      fun _ => ⟨rfl, rfl, rfl⟩⟩
  rw [if_neg h1]
  by_cases h2 : cb ≠ NULL ∧ registration E c cb w < 0
  · rw [if_pos h2]
    simp only [List.nil_append, he]
    refine ⟨trivial, by simp, fun h => ?_, fun _ => ⟨trivial, trivial, trivial⟩⟩
    rcases h.2.2.1 with h | h
    · exact absurd h h2.1
    · exact absurd h2.2 (not_lt.mpr h)
  rw [if_neg h2]
  have h2b : cb = NULL ∨ 0 ≤ registration E c cb w := by
    by_cases hc : cb = NULL
    · exact Or.inl hc
    · right
      by_contra hneg
      exact h2 ⟨hc, by omega⟩
  by_cases h3 : allocation E c cb w = NULL
  · rw [if_pos h3]
    simp only [List.nil_append, frees_append, allocs_append, sends_append, he, hx, hs]
    exact ⟨trivial, by simp, fun h => absurd h3 h.2.2.2, fun _ => ⟨trivial, trivial, trivial⟩⟩
  rw [if_neg h3]
  have ha : allocs (send_events K E c cb w) = [allocation E c cb w] := by
    simp [send_events, allocs, h3]
  have hgiven : ¬ (out.isNone ∧ cb = NULL) ∧ 0 ≤ power_check E w ∧
      (cb = NULL ∨ 0 ≤ registration E c cb w) ∧ allocation E c cb w ≠ NULL :=
    ⟨h0, not_lt.mp h1, h2b, h3⟩
  by_cases h4 : (transmission K E c cb w).ret < 0
  · rw [if_pos h4]
    simp only [List.nil_append, frees_append, allocs_append, he, hx, hf, ha, List.append_nil]
    exact ⟨trivial, by simp, fun _ => ⟨trivial, trivial, _, _, rfl, he.1, hx.1⟩,
      fun hn => absurd hgiven hn⟩
  rw [if_neg h4]
  have hfin : frees (entry_events E c cb w ++ send_events K E c cb w)
        = allocs (entry_events E c cb w ++ send_events K E c cb w) ∧
      (allocs (entry_events E c cb w ++ send_events K E c cb w)).length ≤ 1 ∧
      ((¬ (out.isNone ∧ cb = NULL) ∧ 0 ≤ power_check E w ∧
          (cb = NULL ∨ 0 ≤ registration E c cb w) ∧ allocation E c cb w ≠ NULL) →
        allocs (entry_events E c cb w ++ send_events K E c cb w) = [allocation E c cb w] ∧
        frees (entry_events E c cb w ++ send_events K E c cb w) = [allocation E c cb w] ∧
        ∃ pre post, entry_events E c cb w ++ send_events K E c cb w
            = pre ++ send_events K E c cb w ++ post ∧ frees pre = [] ∧ frees post = []) ∧
      (¬ (¬ (out.isNone ∧ cb = NULL) ∧ 0 ≤ power_check E w ∧
          (cb = NULL ∨ 0 ≤ registration E c cb w) ∧ allocation E c cb w ≠ NULL) →
        allocs (entry_events E c cb w ++ send_events K E c cb w) = [] ∧
        frees (entry_events E c cb w ++ send_events K E c cb w) = [] ∧
        sends (entry_events E c cb w ++ send_events K E c cb w) = []) := by
    simp only [frees_append, allocs_append, he, hf, ha, List.nil_append]
    exact ⟨trivial, by simp, fun _ => ⟨trivial, trivial, entry_events E c cb w, [], by simp,
      he.1, rfl⟩, fun hn => absurd hgiven hn⟩
  split_ifs <;> simpa only [List.nil_append] using hfin

theorem getltime_job_eq (K : Consts)
    (E : Collab σ apicmd_cmddat_getltimeres_s lte_localtime_t) :
    getltime_job K E = job_core E (getltime_cmd K) := rfl

theorem getpinset_job_eq (K : Consts)
    (E : Collab σ apicmd_cmddat_getpinsetres_s lte_getpin_t) :
    getpinset_job K E = job_core E (getpinset_cmd K) := rfl

theorem getquality_job_eq (K : Consts) (E : Collab σ (apicmd_cmddat_getqualityres_s Qraw) Q)
    (f : Q → Qraw → Q) :
    getquality_job K E f = job_core E (getquality_cmd K f) := rfl

theorem getltime_status_chg_cb_eq (K : Consts) (E : Collab σ R P) :
    getltime_status_chg_cb K E = status_chg_cb_core K E K.APICMDID_GET_LTIME := rfl

theorem getpinset_status_chg_cb_eq (K : Consts) (E : Collab σ R P) :
    getpinset_status_chg_cb K E = status_chg_cb_core K E K.APICMDID_GET_PINSET := rfl

theorem getquality_status_chg_cb_eq (K : Consts) (E : Collab σ R P) :
    getquality_status_chg_cb K E = status_chg_cb_core K E K.APICMDID_GET_QUALITY := rfl

/-- The trace and the world of the common completion job. -/
theorem job_core_spec (E : Collab σ R P) (c : Cmd R P) (arg : Nat) (data : R) (uninit : P)
    (w : σ) (tr : List (Event P)) :
    job_core E c arg data uninit ⟨w, tr⟩ =
      ⟨E.altcomstatus_unreg_statchgcb c.stat_cb (E.altcom_free_cmd arg
          (if (E.altcomcallbacks_get_unreg_cb c.id w).1.1 = 0 ∧
              (E.altcomcallbacks_get_unreg_cb c.id w).1.2 ≠ NULL then
            E.user_callback (E.altcomcallbacks_get_unreg_cb c.id w).1.2 (c.result data : Int)
              (c.parse data uninit) (E.altcomcallbacks_get_unreg_cb c.id w).2
          else (E.altcomcallbacks_get_unreg_cb c.id w).2)),
        tr ++ Event.get_unreg_cb c.id (E.altcomcallbacks_get_unreg_cb c.id w).1.1
            (E.altcomcallbacks_get_unreg_cb c.id w).1.2 ::
          ((if (E.altcomcallbacks_get_unreg_cb c.id w).1.1 = 0 ∧
              (E.altcomcallbacks_get_unreg_cb c.id w).1.2 ≠ NULL then
            [Event.callback (E.altcomcallbacks_get_unreg_cb c.id w).1.2 (c.result data : Int)
              (c.parse data uninit)]
          else []) ++ [Event.free_cmd arg, Event.unreg_statchgcb c.stat_cb])⟩ := by
  simp only [job_core, altcomcallbacks_get_unreg_cb, call_callback, altcom_free_cmd,
    altcomstatus_unreg_statchgcb]
  split_ifs <;> simp

/-- The asynchronous path on which the registration is refused. -/
theorem impl_core_async_busy (K : Consts) (E : Collab σ R P) (c : Cmd R O) (out : Option O)
    (cb : Nat) (w : σ) (tr : List (Event P)) (hcb : cb ≠ NULL) (h1 : 0 ≤ power_check E w)
    (h2 : registration E c cb w < 0) :
    impl_core K E c out cb ⟨w, tr⟩ =
      ⟨registration E c cb w, out,
        ⟨(E.altcombs_setup_apicallback c.id cb c.stat_cb (after_power_check E w)).2,
          tr ++ [Event.check_poweron_status (power_check E w),
            Event.setup_apicallback c.id cb c.stat_cb (registration E c cb w)]⟩⟩ := by
  rw [impl_core_spec, if_neg (fun h => hcb h.2), if_neg (not_lt.mpr h1), if_pos ⟨hcb, h2⟩]
  simp [before_alloc, entry_events, hcb]

/-- The asynchronous path on which the allocation fails. -/
theorem impl_core_async_nomem (K : Consts) (E : Collab σ R P) (c : Cmd R O) (out : Option O)
    (cb : Nat) (w : σ) (tr : List (Event P)) (hcb : cb ≠ NULL) (h1 : 0 ≤ power_check E w)
    (h2 : 0 ≤ registration E c cb w) (h3 : allocation E c cb w = NULL) :
    impl_core K E c out cb ⟨w, tr⟩ =
      ⟨-ENOMEM, out,
        ⟨E.altcombs_teardown_apicallback c.id c.stat_cb (after_alloc E c cb w),
          tr ++ [Event.check_poweron_status (power_check E w),
            Event.setup_apicallback c.id cb c.stat_cb (registration E c cb w),
            Event.cmd_allocbuff c.id REQ_DATA_LEN NULL,
            Event.teardown_apicallback c.id c.stat_cb]⟩⟩ := by
  rw [impl_core_spec, if_neg (fun h => hcb h.2), if_neg (not_lt.mpr h1),
    if_neg (fun h => absurd h.2 (not_lt.mpr h2)), if_pos h3]
  simp [errout_world, errout_events, entry_events, hcb]

/-- The asynchronous path on which the send fails. -/
theorem impl_core_async_send_failed (K : Consts) (E : Collab σ R P) (c : Cmd R O)
    (out : Option O) (cb : Nat) (w : σ) (tr : List (Event P)) (hcb : cb ≠ NULL)
    (h1 : 0 ≤ power_check E w) (h2 : 0 ≤ registration E c cb w)
    (h3 : allocation E c cb w ≠ NULL) (h4 : (transmission K E c cb w).ret < 0) :
    impl_core K E c out cb ⟨w, tr⟩ =
      ⟨(transmission K E c cb w).ret, out,
        ⟨E.altcombs_teardown_apicallback c.id c.stat_cb (after_free K E c cb w),
          tr ++ [Event.check_poweron_status (power_check E w),
            Event.setup_apicallback c.id cb c.stat_cb (registration E c cb w),
            Event.cmd_allocbuff c.id REQ_DATA_LEN (allocation E c cb w),
            Event.send (allocation E c cb w) false c.resbufflen K.SYS_TIMEO_FEVR
              (transmission K E c cb w).ret,
            Event.free_cmd (allocation E c cb w),
            Event.teardown_apicallback c.id c.stat_cb]⟩⟩ := by
  have hb : (cb == NULL) = false := by simpa using hcb
  rw [impl_core_spec, if_neg (fun h => hcb h.2), if_neg (not_lt.mpr h1),
    if_neg (fun h => absurd h.2 (not_lt.mpr h2)), if_neg h3, if_pos h4]
  simp [errout_world, errout_events, entry_events, send_events, hcb, hb]

/-- The asynchronous path on which the request is handed to the gateway. -/
theorem impl_core_async_ok (K : Consts) (E : Collab σ R P) (c : Cmd R O)
    (out : Option O) (cb : Nat) (w : σ) (tr : List (Event P)) (hcb : cb ≠ NULL)
    (h1 : 0 ≤ power_check E w) (h2 : 0 ≤ registration E c cb w)
    (h3 : allocation E c cb w ≠ NULL) (h4 : 0 ≤ (transmission K E c cb w).ret) :
    impl_core K E c out cb ⟨w, tr⟩ =
      ⟨0, out,
        ⟨after_free K E c cb w,
          tr ++ [Event.check_poweron_status (power_check E w),
            Event.setup_apicallback c.id cb c.stat_cb (registration E c cb w),
            Event.cmd_allocbuff c.id REQ_DATA_LEN (allocation E c cb w),
            Event.send (allocation E c cb w) false c.resbufflen K.SYS_TIMEO_FEVR
              (transmission K E c cb w).ret,
            Event.free_cmd (allocation E c cb w)]⟩⟩ := by
  have hb : (cb == NULL) = false := by simpa using hcb
  rw [impl_core_spec, if_neg (fun h => hcb h.2), if_neg (not_lt.mpr h1),
    if_neg (fun h => absurd h.2 (not_lt.mpr h2)), if_neg h3, if_neg (not_lt.mpr h4),
    if_pos hcb]
  simp [entry_events, send_events, hcb, hb]

/-- What the collaborators over the engine answer to an asynchronous call. -/
theorem engine_answers (K : Consts) (C : Codes) (O : Oracle R) (c : Cmd R O1) (cb : Nat)
    (w : Engine) (hcb : cb ≠ NULL) :
    power_check (engine K C O : Collab Engine R P) w = O.poweron ∧
    registration (engine K C O : Collab Engine R P) c cb w
      = (if (w.registry c.id).isSome then C.already_pending else 0) ∧
    before_alloc (engine K C O : Collab Engine R P) c cb w
      = (if (w.registry c.id).isSome then w
        else ⟨fun k => if k = c.id then some cb else w.registry k,
          notifier_subscribe c.id c.stat_cb w.notifier⟩) ∧
    allocation (engine K C O : Collab Engine R P) c cb w = O.allocbuff ∧
    after_alloc (engine K C O : Collab Engine R P) c cb w
      = before_alloc (engine K C O : Collab Engine R P) c cb w ∧
    transmission K (engine K C O : Collab Engine R P) c cb w = O.send ∧
    after_free K (engine K C O : Collab Engine R P) c cb w
      = before_alloc (engine K C O : Collab Engine R P) c cb w := by
  have hneg := C.already_pending_neg
  refine ⟨rfl, ?_, ?_, rfl, rfl, rfl, rfl⟩
  · simp only [registration, engine, registry_register, after_power_check]
    split_ifs <;> simp_all
  · simp only [before_alloc, engine, registry_register, after_power_check, if_neg hcb]
    split_ifs <;> simp_all

/-- On the engine, an asynchronous call that finds an entry for its command id
returns the already-pending code after the power check and the registration
attempt, and leaves the engine as it was. -/
theorem engine_async_busy (K : Consts) (C : Codes) (O : Oracle R) (c : Cmd R O1)
    (out : Option O1) (cb : Nat) (s : Sys Engine P) (hcb : cb ≠ NULL)
    (hp : 0 ≤ O.poweron) (hr : (s.world.registry c.id).isSome) :
    impl_core K (engine K C O) c out cb s =
      ⟨C.already_pending, out, ⟨s.world,
        s.trace ++ [Event.check_poweron_status O.poweron,
          Event.setup_apicallback c.id cb c.stat_cb C.already_pending]⟩⟩ := by
  obtain ⟨w, tr⟩ := s
  obtain ⟨e1, e2, e3, -⟩ := engine_answers (P := P) K C O c cb w hcb
  have hr2 : (w.registry c.id).isSome = true := hr
  have h2 : registration (engine K C O : Collab Engine R P) c cb w < 0 := by
    rw [e2, if_pos hr2]; exact C.already_pending_neg
  rw [impl_core_async_busy K _ c out cb w tr hcb (by rw [e1]; exact hp) h2]
  have e3b := e3
  simp only [before_alloc, if_neg hcb, if_pos hr2] at e3b
  rw [e3b, e1, e2, if_pos hr2]

/-- On the engine, an asynchronous call that finds no entry for its command id
and whose collaborators succeed returns 0 and leaves its callback registered and
its status-change handler subscribed. -/
theorem engine_async_ok (K : Consts) (C : Codes) (O : Oracle R) (c : Cmd R O1)
    (out : Option O1) (cb : Nat) (s : Sys Engine P) (hcb : cb ≠ NULL)
    (hp : 0 ≤ O.poweron) (hr : s.world.registry c.id = none) (ha : O.allocbuff ≠ NULL)
    (hs : 0 ≤ O.send.ret) :
    (impl_core K (engine K C O) c out cb s).ret = 0 ∧
    (impl_core K (engine K C O) c out cb s).sys.world =
      ⟨fun k => if k = c.id then some cb else s.world.registry k,
        notifier_subscribe c.id c.stat_cb s.world.notifier⟩ ∧
    callbacks (impl_core K (engine K C O) c out cb s).sys.trace = callbacks s.trace := by
  obtain ⟨w, tr⟩ := s
  obtain ⟨e1, e2, e3, e4, e5, e6, e7⟩ := engine_answers (P := P) K C O c cb w hcb
  have hr2 : ¬ (w.registry c.id).isSome = true := by simp only at hr; simp [hr]
  rw [if_neg hr2] at e2 e3
  rw [impl_core_async_ok K _ c out cb w tr hcb (by rw [e1]; exact hp) (by rw [e2])
    (by rw [e4]; exact ha) (by rw [e6]; exact hs)]
  refine ⟨rfl, ?_, ?_⟩
  · show after_free K (engine K C O) c cb w = _
    rw [e7, e3]
  · simp [callbacks_append, callbacks]

/-- On the engine, an asynchronous call that returns 0 found no entry for its
command id and leaves its callback registered and its handler subscribed. -/
theorem engine_async_accepted (K : Consts) (C : Codes) (O : Oracle R) (c : Cmd R O1)
    (out : Option O1) (cb : Nat) (s : Sys Engine P) (hcb : cb ≠ NULL)
    (h0 : (impl_core K (engine K C O) c out cb s).ret = 0) :
    s.world.registry c.id = none ∧
    (impl_core K (engine K C O) c out cb s).sys.world =
      ⟨fun k => if k = c.id then some cb else s.world.registry k,
        notifier_subscribe c.id c.stat_cb s.world.notifier⟩ ∧
    callbacks (impl_core K (engine K C O) c out cb s).sys.trace = callbacks s.trace := by
  obtain ⟨e1, e2, e3, e4, e5, e6, e7⟩ := engine_answers (P := P) K C O c cb s.world hcb
  have hneg := C.already_pending_neg
  by_cases hp : O.poweron < 0
  · exfalso
    obtain ⟨w, tr⟩ := s
    rw [impl_core_spec, if_neg (fun h => hcb h.2), if_pos (by rw [e1]; exact hp)] at h0
    simp only [e1] at h0
    omega
  by_cases hr : (s.world.registry c.id).isSome
  · exfalso
    rw [engine_async_busy K C O c out cb s hcb (not_lt.mp hp) hr] at h0
    simp only at h0
    omega
  have hr2 : s.world.registry c.id = none := by
    cases h : s.world.registry c.id with
    | none => rfl
    | some x => simp [h] at hr
  have hr3 : ¬ (s.world.registry c.id).isSome = true := by simp [hr2]
  rw [if_neg hr3] at e2
  by_cases ha : O.allocbuff = NULL
  · exfalso
    obtain ⟨w, tr⟩ := s
    rw [impl_core_async_nomem K _ c out cb w tr hcb (by rw [e1]; exact not_lt.mp hp)
      (by rw [e2]) (by rw [e4]; exact ha)] at h0
    simp [ENOMEM] at h0
  by_cases hs : O.send.ret < 0
  · exfalso
    obtain ⟨w, tr⟩ := s
    rw [impl_core_async_send_failed K _ c out cb w tr hcb (by rw [e1]; exact not_lt.mp hp)
      (by rw [e2]) (by rw [e4]; exact ha) (by rw [e6]; exact hs)] at h0
    simp only [e6] at h0
    omega
  exact ⟨hr2, (engine_async_ok K C O c out cb s hcb (not_lt.mp hp) hr2 ha (not_lt.mp hs)).2⟩

/-- On the engine, an asynchronous call that is registered and then fails in
the allocation or in the send returns the failure and leaves no entry and no
subscription for its command id. -/
theorem engine_async_failed (K : Consts) (C : Codes) (O : Oracle R) (c : Cmd R O1)
    (out : Option O1) (cb : Nat) (s : Sys Engine P) (hcb : cb ≠ NULL)
    (hp : 0 ≤ O.poweron) (hr : s.world.registry c.id = none)
    (hf : O.allocbuff = NULL ∨ O.send.ret < 0) :
    (impl_core K (engine K C O) c out cb s).ret < 0 ∧
    (impl_core K (engine K C O) c out cb s).sys.world.registry = s.world.registry ∧
    (impl_core K (engine K C O) c out cb s).sys.world.notifier
      = notifier_unsubscribe c.id s.world.notifier ∧
    callbacks (impl_core K (engine K C O) c out cb s).sys.trace = callbacks s.trace := by
  obtain ⟨w, tr⟩ := s
  obtain ⟨e1, e2, e3, e4, e5, e6, e7⟩ := engine_answers (P := P) K C O c cb w hcb
  have hr3 : ¬ (w.registry c.id).isSome = true := by simp only at hr; simp [hr]
  rw [if_neg hr3] at e2 e3
  have hreg : (fun k => if k = c.id then none
      else (if k = c.id then some cb else w.registry k)) = w.registry := by
    funext k
    by_cases hk : k = c.id
    · simp only at hr; simp [hk, hr]
    · simp [hk]
  have hnot : notifier_unsubscribe c.id (notifier_subscribe c.id c.stat_cb w.notifier)
      = notifier_unsubscribe c.id w.notifier := by
    simp [notifier_unsubscribe, notifier_subscribe, List.filter_cons, List.filter_filter]
  by_cases ha : O.allocbuff = NULL
  · rw [impl_core_async_nomem K _ c out cb w tr hcb (by rw [e1]; exact hp)
      (by rw [e2]) (by rw [e4]; exact ha)]
    simp only [e5, e3]
    refine ⟨by simp [ENOMEM], ?_, ?_, by simp [callbacks_append, callbacks]⟩
    · exact hreg
    · exact hnot
  · have hs : O.send.ret < 0 := by
      rcases hf with h | h
      · exact absurd h ha
      · exact h
    rw [impl_core_async_send_failed K _ c out cb w tr hcb (by rw [e1]; exact hp)
      (by rw [e2]) (by rw [e4]; exact ha) (by rw [e6]; exact hs)]
    simp only [e7, e3, e6]
    refine ⟨hs, ?_, ?_, by simp [callbacks_append, callbacks]⟩
    · exact hreg
    · exact hnot

/-- On the engine, the completion job leaves no entry for its command id and
invokes the callback that was pending, if any, once. -/
theorem engine_job (K : Consts) (C : Codes) (A : Oracle R) (c : Cmd R P) (arg : Nat)
    (data : R) (uninit : P) (s : Sys Engine P) :
    (job_core (engine K C A) c arg data uninit s).world.registry c.id = none ∧
    (s.world.registry c.id = none →
      callbacks (job_core (engine K C A) c arg data uninit s).trace = callbacks s.trace) ∧
    (∀ cb, s.world.registry c.id = some cb →
      callbacks (job_core (engine K C A) c arg data uninit s).trace = callbacks s.trace ∨
      callbacks (job_core (engine K C A) c arg data uninit s).trace
        = callbacks s.trace ++ [(cb, (c.result data : Int), c.parse data uninit)]) := by
  obtain ⟨w, tr⟩ := s
  rw [job_core_spec]
  simp only [engine, registry_take]
  cases h : w.registry c.id with
  | none =>
    have hnf := C.not_found_ne
    simp [h, callbacks_append, callbacks, hnf]
  | some cb =>
    simp only [h, callbacks_append, true_and, ite_true, reduceCtorEq, false_implies,
      Option.some.injEq, forall_eq']
    by_cases hc : cb = NULL
    · simp [hc, callbacks]
    · simp [hc, callbacks]

/-- On the engine, the status-change handler invokes no callback, and for a
status below the powered-on threshold it leaves no entry for its command id. -/
theorem engine_status (K : Consts) (C : Codes) (A : Oracle R) (id : Nat)
    (new_stat old_stat : Int) (s : Sys Engine P) :
    callbacks (status_chg_cb_core K (engine K C A : Collab Engine R P) id new_stat old_stat
      s).2.trace = callbacks s.trace ∧
    (s.world.registry id = none →
      (status_chg_cb_core K (engine K C A : Collab Engine R P) id new_stat old_stat
        s).2.world.registry id = none) ∧
    (new_stat < K.ALTCOM_STATUS_POWER_ON →
      (status_chg_cb_core K (engine K C A : Collab Engine R P) id new_stat old_stat s).1
        = K.ALTCOM_STATUS_REG_CLR ∧
      (status_chg_cb_core K (engine K C A : Collab Engine R P) id new_stat old_stat
        s).2.world.registry id = none) := by
  unfold status_chg_cb_core
  by_cases h : new_stat < K.ALTCOM_STATUS_POWER_ON
  · simp [h, altcomcallbacks_unreg_cb, engine, registry_unregister, callbacks_append, callbacks]
  · simp [h]

/-- A run of steps from a system with no entry for the command invokes no
callback. -/
theorem run_idle (K : Consts) (C : Codes) (A : Oracle R) (c : Cmd R P)
    (steps : List (Step R P)) :
    ∀ s : Sys Engine P, s.world.registry c.id = none →
      callbacks (run (job_core (engine K C A) c)
        (status_chg_cb_core K (engine K C A) c.id) steps s).trace = callbacks s.trace := by
  induction steps with
  | nil => intro s _; rfl
  | cons st rest ih =>
    intro s hs
    cases st with
    | response arg data uninit =>
      have hj := engine_job K C A c arg data uninit s
      simp only [run]
      rw [ih _ hj.1, hj.2.1 hs]
    | status new_stat old_stat =>
      have ht := engine_status (R := R) K C A c.id new_stat old_stat s
      simp only [run]
      rw [ih _ (ht.2.1 hs), ht.1]

/-- A run of steps from a system in which `cb` is pending invokes no callback
or invokes `cb` once. -/
theorem run_pending (K : Consts) (C : Codes) (A : Oracle R) (c : Cmd R P)
    (steps : List (Step R P)) :
    ∀ (s : Sys Engine P) (cb : Nat), s.world.registry c.id = some cb →
      callbacks (run (job_core (engine K C A) c)
          (status_chg_cb_core K (engine K C A) c.id) steps s).trace = callbacks s.trace ∨
      ∃ result payload, callbacks (run (job_core (engine K C A) c)
          (status_chg_cb_core K (engine K C A) c.id) steps s).trace
        = callbacks s.trace ++ [(cb, result, payload)] := by
  induction steps with
  | nil => intro s cb _; exact Or.inl rfl
  | cons st rest ih =>
    intro s cb hs
    cases st with
    | response arg data uninit =>
      have hj := engine_job K C A c arg data uninit s
      simp only [run]
      rw [run_idle K C A c rest _ hj.1]
      rcases hj.2.2 cb hs with h | h
      · exact Or.inl h
      · exact Or.inr ⟨_, _, h⟩
    | status new_stat old_stat =>
      have ht := engine_status (R := R) K C A c.id new_stat old_stat s
      simp only [run]
      by_cases hn : new_stat < K.ALTCOM_STATUS_POWER_ON
      · rw [run_idle K C A c rest _ (ht.2.2 hn).2, ht.1]
        exact Or.inl rfl
      · have hsame : (status_chg_cb_core K (engine K C A : Collab Engine R P) c.id new_stat
            old_stat s).2 = s := by
          simp [status_chg_cb_core, hn]
        rw [hsame]
        exact ih s cb hs

theorem run_append (job : Nat → R → P → Sys σ P → Sys σ P)
    (status_chg_cb : Int → Int → Sys σ P → Int × Sys σ P) (a b : List (Step R P)) :
    ∀ s : Sys σ P, run job status_chg_cb (a ++ b) s
      = run job status_chg_cb b (run job status_chg_cb a s) := by
  induction a with
  | nil => intro s; rfl
  | cons st rest ih =>
    intro s
    cases st with
    | response arg data uninit =>
      show run job status_chg_cb (rest ++ b) (job arg data uninit s) = _
      rw [ih]; rfl
    | status new_stat old_stat =>
      show run job status_chg_cb (rest ++ b) (status_chg_cb new_stat old_stat s).2 = _
      rw [ih]; rfl

/-- After a run of steps that ends with a status below the powered-on
threshold there is no entry for the command. -/
theorem run_drop_idle (K : Consts) (C : Codes) (A : Oracle R) (c : Cmd R P)
    (before : List (Step R P)) (new_stat old_stat : Int)
    (hn : new_stat < K.ALTCOM_STATUS_POWER_ON) (s : Sys Engine P) :
    (run (job_core (engine K C A) c) (status_chg_cb_core K (engine K C A) c.id)
      (before ++ [Step.status new_stat old_stat]) s).world.registry c.id = none := by
  rw [run_append]
  simp only [run]
  exact ((engine_status (R := R) K C A c.id new_stat old_stat _).2.2 hn).2

theorem teardown_on_failure_core (K : Consts) (E : Collab σ R P) (c : Cmd R O)
    (out : Option O) (cb : Nat) (w : σ) :
    teardown_on_failure K E c cb w (impl_core K E c out cb (start w)) := by
  intro hcb h1 h2
  refine ⟨fun h3 => ?_, fun h3 h4 => ?_⟩
  · rw [start, impl_core_async_nomem K E c out cb w [] hcb h1 h2 h3]
    exact ⟨rfl, rfl, rfl⟩
  · rw [start, impl_core_async_send_failed K E c out cb w [] hcb h1 h2 h3 h4]
    exact ⟨rfl, rfl, rfl⟩

theorem notifier_unsubscribe_not_subscribed (id : Nat) (n : Notifier) :
    notifier_subscribed id (notifier_unsubscribe id n) = false := by
  simp [notifier_subscribed, notifier_unsubscribe]

theorem nothing_survives_core (K : Consts) (C : Codes) (c : Cmd R O) (out : Option O) :
    nothing_survives c.id
      (fun A cb (s : Sys Engine P) => impl_core K (engine K C A) c out cb s) := by
  intro A cb s hcb hp hr hf
  obtain ⟨h1, h2, h3, -⟩ := engine_async_failed K C A c out cb s hcb hp hr hf
  refine ⟨h1, h2, ?_, ?_⟩
  · show (impl_core K (engine K C A) c out cb s).sys.world.registry c.id = none
    rw [h2]; exact hr
  · show notifier_subscribed c.id (impl_core K (engine K C A) c out cb s).sys.world.notifier
      = false
    rw [h3]; exact notifier_unsubscribe_not_subscribed _ _

theorem status_policy_core (K : Consts) (E : Collab σ R P) (id : Nat)
    (new_stat old_stat old_stat2 : Int) (s : Sys σ P) :
    status_policy K E id new_stat s (status_chg_cb_core K E id new_stat old_stat s)
      (status_chg_cb_core K E id new_stat old_stat2 s) := by
  unfold status_policy status_chg_cb_core
  refine ⟨fun h => ?_, fun h => ?_, rfl⟩
  · rw [if_pos h]; rfl
  · rw [if_neg (not_lt.mpr h)]

theorem status_policy_engine_core (K : Consts) (C : Codes) (A : Oracle R) (id : Nat)
    (new_stat old_stat : Int) (s : Sys Engine P) :
    status_policy_engine K id new_stat s
      (status_chg_cb_core K (engine K C A : Collab Engine R P) id new_stat old_stat s) := by
  unfold status_policy_engine status_chg_cb_core
  refine ⟨fun h => ?_, fun h => ?_⟩
  · rw [if_pos h]
    refine ⟨?_, ?_, rfl⟩
    · simp [altcomcallbacks_unreg_cb, engine, registry_unregister]
    · intro k hk
      simp [altcomcallbacks_unreg_cb, engine, registry_unregister, hk]
  · rw [if_neg (not_lt.mpr h)]

theorem mutual_exclusion_core (K : Consts) (C : Codes) (c : Cmd R P) (Aj : Oracle R) :
    mutual_exclusion K C c.id c.stat_cb
      (fun A cb (s : Sys Engine P) => impl_core K (engine K C A) c none cb s)
      (job_core (engine K C Aj) c) (status_chg_cb_core K (engine K C Aj) c.id) := by
  refine ⟨?_, ?_⟩
  · intro A1 cb1 s0 hcb1 h0
    obtain ⟨-, hw, -⟩ := engine_async_accepted K C A1 c none cb1 s0 hcb1 h0
    have hpend : (impl_core K (engine K C A1) c none cb1 s0).sys.world.registry c.id
        = some cb1 := by
      rw [hw]; simp
    refine ⟨?_, ?_⟩
    · intro A2 cb2 hcb2 hp2
      exact engine_async_busy K C A2 c none cb2 _ hcb2 hp2 (by rw [hpend]; rfl)
    · intro A3 cb3 hcb3 hp3 ha3 hs3
      refine ⟨?_, ?_⟩
      · intro arg data uninit
        exact (engine_async_ok K C A3 c none cb3 _ hcb3 hp3
          (engine_job K C Aj c arg data uninit _).1 ha3 hs3).1
      · intro new_stat old_stat hn
        exact (engine_async_ok K C A3 c none cb3 _ hcb3 hp3
          ((engine_status (R := R) K C Aj c.id new_stat old_stat _).2.2 hn).2 ha3 hs3).1
  · intro A1 cb1 s0 hcb1 hr hp hf
    obtain ⟨h1, h2, -⟩ := engine_async_failed K C A1 c none cb1 s0 hcb1 hp hr hf
    refine ⟨h1, ?_⟩
    intro A3 cb3 hcb3 hp3 ha3 hs3
    exact (engine_async_ok K C A3 c none cb3 _ hcb3 hp3 (by rw [h2]; exact hr) ha3 hs3).1

theorem cancellation_drops_core (K : Consts) (C : Codes) (c : Cmd R P) (Aj : Oracle R) :
    cancellation_drops K c.id
      (fun A cb (s : Sys Engine P) => impl_core K (engine K C A) c none cb s)
      (job_core (engine K C Aj) c) (status_chg_cb_core K (engine K C Aj) c.id) := by
  intro A cb w new_stat old_stat hcb h0 hn
  obtain ⟨-, hw, hc⟩ := engine_async_accepted K C A c none cb (start w) hcb h0
  have ht := engine_status (R := R) K C Aj c.id new_stat old_stat
    (impl_core K (engine K C A) c none cb (start w : Sys Engine P)).sys
  have hc0 : callbacks (status_chg_cb_core K (engine K C Aj : Collab Engine R P) c.id new_stat
      old_stat (impl_core K (engine K C A) c none cb (start w : Sys Engine P)).sys).2.trace
      = [] := by
    rw [ht.1, hc]; rfl
  refine ⟨?_, (ht.2.2 hn).1, (ht.2.2 hn).2, hc0, ?_⟩
  · show (impl_core K (engine K C A) c none cb (start w)).sys.world.registry c.id = some cb
    rw [hw]; simp
  · intro steps
    show callbacks (run (job_core (engine K C Aj) c) (status_chg_cb_core K (engine K C Aj) c.id)
      steps _).trace = []
    rw [run_idle K C Aj c steps _ (ht.2.2 hn).2]
    exact hc0

theorem at_most_once_core (K : Consts) (C : Codes) (c : Cmd R P) (Aj : Oracle R) :
    at_most_once K
      (fun A cb (s : Sys Engine P) => impl_core K (engine K C A) c none cb s)
      (job_core (engine K C Aj) c) (status_chg_cb_core K (engine K C Aj) c.id) := by
  intro A cb w hcb h0 steps
  obtain ⟨-, hw, hc⟩ := engine_async_accepted K C A c none cb (start w) hcb h0
  have hpend : (impl_core K (engine K C A) c none cb (start w : Sys Engine P)).sys.world.registry
      c.id = some cb := by
    rw [hw]; simp
  have hc0 : callbacks (impl_core K (engine K C A) c none cb
      (start w : Sys Engine P)).sys.trace = [] := by
    rw [hc]; rfl
  have hrun := run_pending K C Aj c steps _ cb hpend
  rw [hc0] at hrun
  refine ⟨?_, ?_, ?_⟩
  · rcases hrun with h | ⟨r, p, h⟩
    · show (callbacks (run _ _ steps _).trace).length ≤ 1
      rw [h]; simp
    · show (callbacks (run _ _ steps _).trace).length ≤ 1
      rw [h]; simp
  · intro x hx
    rcases hrun with h | ⟨r, p, h⟩
    · have hx2 : x ∈ callbacks (run (job_core (engine K C Aj) c)
          (status_chg_cb_core K (engine K C Aj) c.id) steps
          (impl_core K (engine K C A) c none cb (start w)).sys).trace := hx
      rw [h] at hx2
      simp at hx2
    · have hx2 : x ∈ callbacks (run (job_core (engine K C Aj) c)
          (status_chg_cb_core K (engine K C Aj) c.id) steps
          (impl_core K (engine K C A) c none cb (start w)).sys).trace := hx
      rw [h] at hx2
      simp at hx2
      rw [hx2]
  · intro before after new_stat old_stat hsteps hn
    have hsplit : steps = (before ++ [Step.status new_stat old_stat]) ++ after := by
      rw [hsteps]; simp
    show callbacks (run (job_core (engine K C Aj) c)
        (status_chg_cb_core K (engine K C Aj) c.id) steps _).trace
      = callbacks (run (job_core (engine K C Aj) c)
        (status_chg_cb_core K (engine K C Aj) c.id) (before ++ [Step.status new_stat old_stat])
        _).trace
    rw [hsplit, run_append]
    exact run_idle K C Aj c after _ (run_drop_idle K C Aj c before new_stat old_stat hn _)

/-- C1: for get local time, get PIN set and get quality, the implementation called
with a null result pointer and a null callback returns `-EINVAL` whatever the
collaborators and the world are (also when the power check would fail), calls
no collaborator (the trace is unchanged), leaves the world unchanged and writes
no output. -/
theorem C1_null_arguments_einval (K : Consts)
    (E1 : Collab σ apicmd_cmddat_getltimeres_s P)
    (E2 : Collab σ apicmd_cmddat_getpinsetres_s P)
    (E3 : Collab σ (apicmd_cmddat_getqualityres_s Qraw) P)
    (set_quality : Q → Qraw → Q) (s : Sys σ P) :
    lte_getlocaltime_impl K E1 none NULL s = ⟨-EINVAL, none, s⟩ ∧
    lte_getpinset_impl K E2 none NULL s = ⟨-EINVAL, none, s⟩ ∧
    lte_getquality_impl K E3 set_quality none NULL s = ⟨-EINVAL, none, s⟩ := by
  refine ⟨?_, ?_, ?_⟩
  · simp [lte_getlocaltime_impl]
  · simp [lte_getpinset_impl]
  · simp [lte_getquality_impl]

/-- C3: a synchronous call (null callback, non-null output pointer) of get
quality, get local time or get PIN set for which the power check passes, the
request buffer is allocated and `apicmdgw_send` returns a non-negative value,
and whose response has a result field other than `LTE_RESULT_OK`, returns
`-EPROTO` and leaves the output structure as it was before the call, whatever
the parser would have written. -/
theorem C3_sync_remote_failure_eproto (K : Consts)
    (E1 : Collab σ apicmd_cmddat_getltimeres_s P)
    (E2 : Collab σ apicmd_cmddat_getpinsetres_s P)
    (E3 : Collab σ (apicmd_cmddat_getqualityres_s Qraw) P)
    (set_quality : Q → Qraw → Q) (s : Sys σ P)
    (localtime : lte_localtime_t) (pinset : lte_getpin_t) (quality : Q) :
    (0 ≤ power_check E3 s.world →
      allocation E3 (getquality_cmd K set_quality) NULL s.world ≠ NULL →
      0 ≤ (transmission K E3 (getquality_cmd K set_quality) NULL s.world).ret →
      ((transmission K E3 (getquality_cmd K set_quality) NULL s.world).resbuff.result : Int)
        ≠ K.LTE_RESULT_OK →
      (lte_get_quality_sync K E3 set_quality (some quality) s).ret = -EPROTO ∧
      (lte_get_quality_sync K E3 set_quality (some quality) s).out = some quality) ∧
    (0 ≤ power_check E1 s.world →
      allocation E1 (getltime_cmd K) NULL s.world ≠ NULL →
      0 ≤ (transmission K E1 (getltime_cmd K) NULL s.world).ret →
      ((transmission K E1 (getltime_cmd K) NULL s.world).resbuff.result : Int)
        ≠ K.LTE_RESULT_OK →
      (lte_get_localtime_sync K E1 (some localtime) s).ret = -EPROTO ∧
      (lte_get_localtime_sync K E1 (some localtime) s).out = some localtime) ∧
    (0 ≤ power_check E2 s.world →
      allocation E2 (getpinset_cmd K) NULL s.world ≠ NULL →
      0 ≤ (transmission K E2 (getpinset_cmd K) NULL s.world).ret →
      ((transmission K E2 (getpinset_cmd K) NULL s.world).resbuff.result : Int)
        ≠ K.LTE_RESULT_OK →
      (lte_get_pinset_sync K E2 (some pinset) s).ret = -EPROTO ∧
      (lte_get_pinset_sync K E2 (some pinset) s).out = some pinset) := by
  refine ⟨?_, ?_, ?_⟩
  · intro h1 h2 h3 h4
    rw [lte_get_quality_sync, lte_getquality_impl_eq]
    exact impl_core_sync_remote_failure K E3 _ quality s h1 h2 h3 h4
  · intro h1 h2 h3 h4
    rw [lte_get_localtime_sync, lte_getlocaltime_impl_eq]
    exact impl_core_sync_remote_failure K E1 _ localtime s h1 h2 h3 h4
  · intro h1 h2 h3 h4
    rw [lte_get_pinset_sync, lte_getpinset_impl_eq]
    exact impl_core_sync_remote_failure K E2 _ pinset s h1 h2 h3 h4

/-- Witness of C3: on the engine, with a powered-on device, for responses whose
result field is 1 (not `LTE_RESULT_OK = 0`), the three synchronous calls return
`-EPROTO` and leave the output as it was. -/
theorem C3_sync_remote_failure_eproto_witness :
    ((lte_get_quality_sync sample_consts
        (engine sample_consts sample_codes (answering 0 10 ⟨1, 77⟩))
        (fun (q r : Nat) => q + r) (some 5) (start idle : Sys Engine Nat)).ret = -EPROTO ∧
      (lte_get_quality_sync sample_consts
        (engine sample_consts sample_codes (answering 0 10 ⟨1, 77⟩))
        (fun (q r : Nat) => q + r) (some 5) (start idle : Sys Engine Nat)).out = some 5) ∧
    ((lte_get_localtime_sync sample_consts
        (engine sample_consts sample_codes (answering 0 11 ⟨1, sample_ltime⟩))
        (some ⟨1, 2, 3, 4, 5, 6, 7⟩) (start idle : Sys Engine Nat)).ret = -EPROTO ∧
      (lte_get_localtime_sync sample_consts
        (engine sample_consts sample_codes (answering 0 11 ⟨1, sample_ltime⟩))
        (some ⟨1, 2, 3, 4, 5, 6, 7⟩) (start idle : Sys Engine Nat)).out
        = some ⟨1, 2, 3, 4, 5, 6, 7⟩) ∧
    ((lte_get_pinset_sync sample_consts
        (engine sample_consts sample_codes (answering 0 7 ⟨1, 1, 2, 3, 4, 5, 6⟩))
        (some ⟨9, 9, 9, 9, 9, 9⟩) (start idle : Sys Engine Nat)).ret = -EPROTO ∧
      (lte_get_pinset_sync sample_consts
        (engine sample_consts sample_codes (answering 0 7 ⟨1, 1, 2, 3, 4, 5, 6⟩))
        (some ⟨9, 9, 9, 9, 9, 9⟩) (start idle : Sys Engine Nat)).out
        = some ⟨9, 9, 9, 9, 9, 9⟩) :=
  ⟨(C3_sync_remote_failure_eproto sample_consts
      (engine sample_consts sample_codes (answering 0 11 ⟨1, sample_ltime⟩))
      (engine sample_consts sample_codes (answering 0 7 ⟨1, 1, 2, 3, 4, 5, 6⟩))
      (engine sample_consts sample_codes (answering 0 10 ⟨1, 77⟩))
      (fun (q r : Nat) => q + r) (start idle) ⟨1, 2, 3, 4, 5, 6, 7⟩ ⟨9, 9, 9, 9, 9, 9⟩ 5).1
      (by decide) (by decide) (by decide) (by decide),
    (C3_sync_remote_failure_eproto sample_consts
      (engine sample_consts sample_codes (answering 0 11 ⟨1, sample_ltime⟩))
      (engine sample_consts sample_codes (answering 0 7 ⟨1, 1, 2, 3, 4, 5, 6⟩))
      (engine sample_consts sample_codes (answering 0 10 ⟨1, 77⟩))
      (fun (q r : Nat) => q + r) (start idle) ⟨1, 2, 3, 4, 5, 6, 7⟩ ⟨9, 9, 9, 9, 9, 9⟩ 5).2.1
      (by decide) (by decide) (by decide) (by decide),
    (C3_sync_remote_failure_eproto sample_consts
      (engine sample_consts sample_codes (answering 0 11 ⟨1, sample_ltime⟩))
      (engine sample_consts sample_codes (answering 0 7 ⟨1, 1, 2, 3, 4, 5, 6⟩))
      (engine sample_consts sample_codes (answering 0 10 ⟨1, 77⟩))
      (fun (q r : Nat) => q + r) (start idle) ⟨1, 2, 3, 4, 5, 6, 7⟩ ⟨9, 9, 9, 9, 9, 9⟩ 5).2.2
      (by decide) (by decide) (by decide) (by decide)⟩

/-- C4: a synchronous get-local-time call for which the power check, the
allocation and the send succeed and whose response has the result field
`LTE_RESULT_OK` returns 0, and the output has `year, mon, mday, hour, min, sec`
equal to the `year, month, day, hour, minutes, seconds` of the response and
`tz_sec` equal to the 32-bit value of the timezone field decoded from network
byte order: when the four bytes of the field in memory are `b0 b1 b2 b3`,
`tz_sec` is their big-endian value read as a two's complement number, so that
the bytes that encode an offset `v`, negative or not, give `tz_sec = v`. -/
theorem C4_sync_localtime_ok (K : Consts) (E : Collab σ apicmd_cmddat_getltimeres_s P)
    (s : Sys σ P) (localtime : lte_localtime_t)
    (h1 : 0 ≤ power_check E s.world)
    (h2 : allocation E (getltime_cmd K) NULL s.world ≠ NULL)
    (h3 : 0 ≤ (transmission K E (getltime_cmd K) NULL s.world).ret)
    (h4 : ((transmission K E (getltime_cmd K) NULL s.world).resbuff.result : Int)
      = K.LTE_RESULT_OK) :
    (lte_get_localtime_sync K E (some localtime) s).ret = 0 ∧
    ∃ lt : lte_localtime_t,
      (lte_get_localtime_sync K E (some localtime) s).out = some lt ∧
      lt.year = (transmission K E (getltime_cmd K) NULL s.world).resbuff.ltime.year ∧
      lt.mon = (transmission K E (getltime_cmd K) NULL s.world).resbuff.ltime.month ∧
      lt.mday = (transmission K E (getltime_cmd K) NULL s.world).resbuff.ltime.day ∧
      lt.hour = (transmission K E (getltime_cmd K) NULL s.world).resbuff.ltime.hour ∧
      lt.min = (transmission K E (getltime_cmd K) NULL s.world).resbuff.ltime.minutes ∧
      lt.sec = (transmission K E (getltime_cmd K) NULL s.world).resbuff.ltime.seconds ∧
      lt.tz_sec = to_int32 (ntohl K (to_uint32
        (transmission K E (getltime_cmd K) NULL s.world).resbuff.ltime.timezone)) ∧
      ∀ b0 b1 b2 b3 : Nat,
        (transmission K E (getltime_cmd K) NULL s.world).resbuff.ltime.timezone
          = host_load32 K b0 b1 b2 b3 →
        lt.tz_sec = to_int32 (be_decode b0 b1 b2 b3) ∧
        ∀ v : Int, -2147483648 ≤ v → v < 2147483648 →
          be_decode b0 b1 b2 b3 = to_uint32 v → lt.tz_sec = v := by
  have h := impl_core_sync_ok K E (getltime_cmd K) localtime s h1 h2 h3 h4
  rw [lte_get_localtime_sync, lte_getlocaltime_impl_eq]
  refine ⟨h.1, _, h.2, rfl, rfl, rfl, rfl, rfl, rfl, rfl, ?_⟩
  intro b0 b1 b2 b3 hb
  have ht : ((getltime_cmd K).parse (transmission K E (getltime_cmd K) NULL s.world).resbuff
      localtime).tz_sec = to_int32 (be_decode b0 b1 b2 b3) := by
    show to_int32 (ntohl K (to_uint32 _)) = _
    rw [hb, ntohl_host_load32]
  refine ⟨ht, ?_⟩
  intro v hv1 hv2 hv
  rw [ht, hv, to_int32_to_uint32 v hv1 hv2]

/-- Witness of C4 (scenario A of the spec): year 24, month 6, day 1, hour 10,
minutes 30, seconds 0 and the timezone bytes `00 00 7E 90` give a call that
returns 0 with `tz_sec = 32400`; the bytes `FF FF B9 B0` give `tz_sec = -18000`. -/
theorem C4_sync_localtime_ok_witness :
    ((lte_get_localtime_sync sample_consts
        (engine sample_consts sample_codes (answering 0 11 ⟨0, sample_ltime⟩))
        (some ⟨1, 2, 3, 4, 5, 6, 7⟩) (start idle : Sys Engine Nat)).ret = 0 ∧
      ∃ lt : lte_localtime_t,
        (lte_get_localtime_sync sample_consts
          (engine sample_consts sample_codes (answering 0 11 ⟨0, sample_ltime⟩))
          (some ⟨1, 2, 3, 4, 5, 6, 7⟩) (start idle : Sys Engine Nat)).out = some lt ∧
        lt.tz_sec = 32400) ∧
    (lte_get_localtime_sync sample_consts
      (engine sample_consts sample_codes (answering 0 11 ⟨0, sample_ltime⟩))
      (some ⟨1, 2, 3, 4, 5, 6, 7⟩) (start idle : Sys Engine Nat)).out
      = some ⟨24, 6, 1, 10, 30, 0, 32400⟩ ∧
    sample_ltime.timezone = host_load32 sample_consts 0 0 126 144 ∧
    (lte_get_localtime_sync sample_consts
      (engine sample_consts sample_codes
        (answering 0 11 ⟨0, ⟨24, 6, 1, 10, 30, 0, host_load32 sample_consts 255 255 185 176⟩⟩))
      (some ⟨1, 2, 3, 4, 5, 6, 7⟩) (start idle : Sys Engine Nat)).out
      = some ⟨24, 6, 1, 10, 30, 0, -18000⟩ :=
  ⟨match C4_sync_localtime_ok sample_consts
        (engine sample_consts sample_codes (answering 0 11 ⟨0, sample_ltime⟩))
        (start idle : Sys Engine Nat) ⟨1, 2, 3, 4, 5, 6, 7⟩
        (by decide) (by decide) (by decide) (by decide) with
    | ⟨h0, lt, hout, _, _, _, _, _, _, _, hb⟩ =>
      ⟨h0, lt, hout, ((hb 0 0 126 144 (by decide)).2 32400 (by decide) (by decide) (by decide))⟩,
    by decide, by decide, by decide⟩

/-- C5: for every call, synchronous or asynchronous, of each of the three
implementations and every behaviour of the collaborators, the buffers freed
with `altcom_free_cmd` are the buffers successfully allocated, and there is at
most one.  When the call is given a request buffer, that buffer is freed once,
right after `apicmdgw_send` returns, whatever send returned; when the
allocation fails or the call returns before it (invalid argument, not powered
on, registration failure), nothing is freed and nothing is sent. -/
theorem C5_request_buffer_freed_once (K : Consts)
    (E1 : Collab σ apicmd_cmddat_getltimeres_s P)
    (E2 : Collab σ apicmd_cmddat_getpinsetres_s P)
    (E3 : Collab σ (apicmd_cmddat_getqualityres_s Qraw) P)
    (set_quality : Q → Qraw → Q) (localtime : Option lte_localtime_t)
    (pinset : Option lte_getpin_t) (quality : Option Q) (callback : Nat) (w : σ) :
    buffer_conservation (lte_getlocaltime_impl K E1 localtime callback (start w)).sys.trace
      (allocated E1 (getltime_cmd K) localtime callback w)
      (allocation E1 (getltime_cmd K) callback w)
      (send_events K E1 (getltime_cmd K) callback w) ∧
    buffer_conservation (lte_getpinset_impl K E2 pinset callback (start w)).sys.trace
      (allocated E2 (getpinset_cmd K) pinset callback w)
      (allocation E2 (getpinset_cmd K) callback w)
      (send_events K E2 (getpinset_cmd K) callback w) ∧
    buffer_conservation
      (lte_getquality_impl K E3 set_quality quality callback (start w)).sys.trace
      (allocated E3 (getquality_cmd K set_quality) quality callback w)
      (allocation E3 (getquality_cmd K set_quality) callback w)
      (send_events K E3 (getquality_cmd K set_quality) callback w) := by
  rw [lte_getlocaltime_impl_eq, lte_getpinset_impl_eq, lte_getquality_impl_eq]
  exact ⟨impl_core_buffers K E1 _ localtime callback w,
    impl_core_buffers K E2 _ pinset callback w,
    impl_core_buffers K E3 _ quality callback w⟩

/-- Witness of C5: an asynchronous get-local-time call whose send fails with -5
allocates the buffer 4096 and frees it once; a call with two null arguments
allocates and frees nothing. -/
theorem C5_request_buffer_freed_once_witness :
    (allocs (lte_getlocaltime_impl sample_consts
        (engine sample_consts sample_codes (answering (-5) 0 ⟨0, sample_ltime⟩))
        none 7 (start idle : Sys Engine Nat)).sys.trace = [4096] ∧
      frees (lte_getlocaltime_impl sample_consts
        (engine sample_consts sample_codes (answering (-5) 0 ⟨0, sample_ltime⟩))
        none 7 (start idle : Sys Engine Nat)).sys.trace = [4096]) ∧
    (allocs (lte_getpinset_impl sample_consts
        (engine sample_consts sample_codes (answering 0 7 ⟨0, 1, 2, 3, 4, 5, 6⟩))
        none 0 (start idle : Sys Engine Nat)).sys.trace = [] ∧
      frees (lte_getpinset_impl sample_consts
        (engine sample_consts sample_codes (answering 0 7 ⟨0, 1, 2, 3, 4, 5, 6⟩))
        none 0 (start idle : Sys Engine Nat)).sys.trace = []) :=
  ⟨match (C5_request_buffer_freed_once sample_consts
        (engine sample_consts sample_codes (answering (-5) 0 ⟨0, sample_ltime⟩))
        (engine sample_consts sample_codes (answering 0 7 ⟨0, 1, 2, 3, 4, 5, 6⟩))
        (engine sample_consts sample_codes (answering 0 10 ⟨0, 77⟩))
        (fun (q r : Nat) => q + r) none none none 7 idle).1.2.2.1
        ⟨by decide, by decide, by decide, by decide⟩ with
    | ⟨ha, hf, _⟩ => ⟨ha, hf⟩,
  match (C5_request_buffer_freed_once sample_consts
        (engine sample_consts sample_codes (answering (-5) 0 ⟨0, sample_ltime⟩))
        (engine sample_consts sample_codes (answering 0 7 ⟨0, 1, 2, 3, 4, 5, 6⟩))
        (engine sample_consts sample_codes (answering 0 10 ⟨0, 77⟩))
        (fun (q r : Nat) => q + r) none none none 0 idle).2.1.2.2.2
        (fun h => h.1 ⟨rfl, rfl⟩) with
    | ⟨ha, hf, _⟩ => ⟨ha, hf⟩⟩

/-- C6: each of the three completion jobs, for every inbound buffer and every
behaviour of the collaborators, makes exactly these calls in this order: first
`altcomcallbacks_get_unreg_cb` for its own command id; then the user callback,
once, with the result field of the buffer and the parsed payload, if that call
returned 0 and a non-null handler, and no callback at all otherwise; then
`altcom_free_cmd` on the inbound buffer, once; then
`altcomstatus_unreg_statchgcb` for its own status-change handler, once. -/
theorem C6_completion_job_trace (K : Consts)
    (E1 : Collab σ apicmd_cmddat_getltimeres_s lte_localtime_t)
    (E2 : Collab σ apicmd_cmddat_getpinsetres_s lte_getpin_t)
    (E3 : Collab σ (apicmd_cmddat_getqualityres_s Qraw) Q)
    (set_quality : Q → Qraw → Q) (arg : Nat) (w : σ)
    (d1 : apicmd_cmddat_getltimeres_s) (ltime : lte_localtime_t)
    (d2 : apicmd_cmddat_getpinsetres_s) (pinset : lte_getpin_t)
    (d3 : apicmd_cmddat_getqualityres_s Qraw) (getquality : Q) :
    (getltime_job K E1 arg d1 ltime (start w)).trace =
      Event.get_unreg_cb K.APICMDID_GET_LTIME
          (E1.altcomcallbacks_get_unreg_cb K.APICMDID_GET_LTIME w).1.1
          (E1.altcomcallbacks_get_unreg_cb K.APICMDID_GET_LTIME w).1.2 ::
        ((if (E1.altcomcallbacks_get_unreg_cb K.APICMDID_GET_LTIME w).1.1 = 0 ∧
            (E1.altcomcallbacks_get_unreg_cb K.APICMDID_GET_LTIME w).1.2 ≠ NULL then
          [Event.callback (E1.altcomcallbacks_get_unreg_cb K.APICMDID_GET_LTIME w).1.2
            (d1.result : Int) (getltime_parse_response K d1 ltime)]
        else []) ++
        [Event.free_cmd arg, Event.unreg_statchgcb StatChgCb.getltime_status_chg_cb]) ∧
    (getpinset_job K E2 arg d2 pinset (start w)).trace =
      Event.get_unreg_cb K.APICMDID_GET_PINSET
          (E2.altcomcallbacks_get_unreg_cb K.APICMDID_GET_PINSET w).1.1
          (E2.altcomcallbacks_get_unreg_cb K.APICMDID_GET_PINSET w).1.2 ::
        ((if (E2.altcomcallbacks_get_unreg_cb K.APICMDID_GET_PINSET w).1.1 = 0 ∧
            (E2.altcomcallbacks_get_unreg_cb K.APICMDID_GET_PINSET w).1.2 ≠ NULL then
          [Event.callback (E2.altcomcallbacks_get_unreg_cb K.APICMDID_GET_PINSET w).1.2
            (d2.result : Int) (getpinset_parse_response d2 pinset)]
        else []) ++
        [Event.free_cmd arg, Event.unreg_statchgcb StatChgCb.getpinset_status_chg_cb]) ∧
    (getquality_job K E3 set_quality arg d3 getquality (start w)).trace =
      Event.get_unreg_cb K.APICMDID_GET_QUALITY
          (E3.altcomcallbacks_get_unreg_cb K.APICMDID_GET_QUALITY w).1.1
          (E3.altcomcallbacks_get_unreg_cb K.APICMDID_GET_QUALITY w).1.2 ::
        ((if (E3.altcomcallbacks_get_unreg_cb K.APICMDID_GET_QUALITY w).1.1 = 0 ∧
            (E3.altcomcallbacks_get_unreg_cb K.APICMDID_GET_QUALITY w).1.2 ≠ NULL then
          [Event.callback (E3.altcomcallbacks_get_unreg_cb K.APICMDID_GET_QUALITY w).1.2
            (d3.result : Int) (set_quality getquality d3.quality)]
        else []) ++
        [Event.free_cmd arg, Event.unreg_statchgcb StatChgCb.getquality_status_chg_cb]) := by
  rw [getltime_job_eq, getpinset_job_eq, getquality_job_eq]
  simp only [start, job_core_spec, List.nil_append]
  exact ⟨rfl, rfl, rfl⟩

/-- C7: in asynchronous mode, after the registration succeeded, each of the
three implementations returns `-ENOMEM` when the allocation of the request
buffer fails and returns `e` when `apicmdgw_send` returns a negative `e`; in
both cases `altcombs_teardown_apicallback` is called exactly once, for the
command id and the status-change handler of the call, as the last call before
the return.  On the Registry and Notifier of the spec, no entry and no
subscription of the failed call survive it. -/
theorem C7_async_failure_teardown (K : Consts) (C : Codes)
    (E1 : Collab σ apicmd_cmddat_getltimeres_s P)
    (E2 : Collab σ apicmd_cmddat_getpinsetres_s P)
    (E3 : Collab σ (apicmd_cmddat_getqualityres_s Qraw) P)
    (set_quality : Q → Qraw → Q) (localtime : Option lte_localtime_t)
    (pinset : Option lte_getpin_t) (quality : Option Q) (callback : Nat) (w : σ) :
    (teardown_on_failure K E1 (getltime_cmd K) callback w
        (lte_getlocaltime_impl K E1 localtime callback (start w)) ∧
      teardown_on_failure K E2 (getpinset_cmd K) callback w
        (lte_getpinset_impl K E2 pinset callback (start w)) ∧
      teardown_on_failure K E3 (getquality_cmd K set_quality) callback w
        (lte_getquality_impl K E3 set_quality quality callback (start w))) ∧
    (nothing_survives K.APICMDID_GET_LTIME
        (fun A cb (s : Sys Engine P) => lte_getlocaltime_impl K (engine K C A) localtime cb s) ∧
      nothing_survives K.APICMDID_GET_PINSET
        (fun A cb (s : Sys Engine P) => lte_getpinset_impl K (engine K C A) pinset cb s) ∧
      nothing_survives K.APICMDID_GET_QUALITY
        (fun A cb (s : Sys Engine P) =>
          lte_getquality_impl K (engine K C A) set_quality quality cb s)) := by
  rw [lte_getlocaltime_impl_eq, lte_getpinset_impl_eq, lte_getquality_impl_eq]
  exact ⟨⟨teardown_on_failure_core K E1 _ localtime callback w,
      teardown_on_failure_core K E2 _ pinset callback w,
      teardown_on_failure_core K E3 _ quality callback w⟩,
    nothing_survives_core K C (getltime_cmd K) localtime,
    nothing_survives_core K C (getpinset_cmd K) pinset,
    nothing_survives_core K C (getquality_cmd K set_quality) quality⟩

/-- C8: each of the three status-change handlers, for all statuses `new_stat`
and `old_stat`: below `ALTCOM_STATUS_POWER_ON` it calls
`altcomcallbacks_unreg_cb` for its own command id, and nothing else, and
returns `ALTCOM_STATUS_REG_CLR`; otherwise it returns `ALTCOM_STATUS_REG_KEEP`
and calls nothing; the result does not depend on `old_stat`.  On the Registry
of the spec only the entry of its own command id is removed. -/
theorem C8_status_change_handler (K : Consts) (C : Codes) (A : Oracle R) (E : Collab σ R P)
    (new_stat old_stat old_stat2 : Int) (s : Sys σ P) (t : Sys Engine P) :
    (status_policy K E K.APICMDID_GET_LTIME new_stat s
        (getltime_status_chg_cb K E new_stat old_stat s)
        (getltime_status_chg_cb K E new_stat old_stat2 s) ∧
      status_policy K E K.APICMDID_GET_PINSET new_stat s
        (getpinset_status_chg_cb K E new_stat old_stat s)
        (getpinset_status_chg_cb K E new_stat old_stat2 s) ∧
      status_policy K E K.APICMDID_GET_QUALITY new_stat s
        (getquality_status_chg_cb K E new_stat old_stat s)
        (getquality_status_chg_cb K E new_stat old_stat2 s)) ∧
    (status_policy_engine K K.APICMDID_GET_LTIME new_stat t
        (getltime_status_chg_cb K (engine K C A : Collab Engine R P) new_stat old_stat t) ∧
      status_policy_engine K K.APICMDID_GET_PINSET new_stat t
        (getpinset_status_chg_cb K (engine K C A : Collab Engine R P) new_stat old_stat t) ∧
      status_policy_engine K K.APICMDID_GET_QUALITY new_stat t
        (getquality_status_chg_cb K (engine K C A : Collab Engine R P) new_stat old_stat
          t)) := by
  rw [getltime_status_chg_cb_eq, getpinset_status_chg_cb_eq, getquality_status_chg_cb_eq]
  rw [getltime_status_chg_cb_eq, getpinset_status_chg_cb_eq, getquality_status_chg_cb_eq]
  exact ⟨⟨status_policy_core K E _ new_stat old_stat old_stat2 s,
      status_policy_core K E _ new_stat old_stat old_stat2 s,
      status_policy_core K E _ new_stat old_stat old_stat2 s⟩,
    status_policy_engine_core K C A _ new_stat old_stat t,
    status_policy_engine_core K C A _ new_stat old_stat t,
    status_policy_engine_core K C A _ new_stat old_stat t⟩

/-- C2: with the Callback Registry of the spec (register fails when an entry
for the command id exists), for each of the three commands: an asynchronous
call made while an accepted asynchronous call is pending returns the
already-pending code of the registry after the power check and the registration
attempt only (no allocation, no send, no teardown) and leaves the registry
entry and the subscription of the first call as they were; and once the first
operation has ended (its completion job ran, or its status-change handler ran
for a status below the threshold, or its own allocation or send failed), an
asynchronous call whose power check, allocation and send succeed is accepted
and returns 0. -/
theorem C2_async_mutual_exclusion (K : Consts) (C : Codes)
    (A1 : Oracle apicmd_cmddat_getltimeres_s) (A2 : Oracle apicmd_cmddat_getpinsetres_s)
    (A3 : Oracle (apicmd_cmddat_getqualityres_s Qraw)) (set_quality : Q → Qraw → Q) :
    mutual_exclusion K C K.APICMDID_GET_LTIME StatChgCb.getltime_status_chg_cb
      (fun A cb s => lte_get_localtime K (engine K C A) cb s)
      (getltime_job K (engine K C A1)) (getltime_status_chg_cb K (engine K C A1)) ∧
    mutual_exclusion K C K.APICMDID_GET_PINSET StatChgCb.getpinset_status_chg_cb
      (fun A cb s => lte_get_pinset K (engine K C A) cb s)
      (getpinset_job K (engine K C A2)) (getpinset_status_chg_cb K (engine K C A2)) ∧
    mutual_exclusion K C K.APICMDID_GET_QUALITY StatChgCb.getquality_status_chg_cb
      (fun A cb s => lte_get_quality K (engine K C A) set_quality cb s)
      (getquality_job K (engine K C A3) set_quality)
      (getquality_status_chg_cb K (engine K C A3)) :=
  ⟨mutual_exclusion_core K C (getltime_cmd K) A1,
    mutual_exclusion_core K C (getpinset_cmd K) A2,
    mutual_exclusion_core K C (getquality_cmd K set_quality) A3⟩

/-- Witness of C2: on the idle engine `lte_get_localtime(7)` is accepted; a
second call `lte_get_localtime(8)` returns the already-pending code -115; after
the completion job for a response has run, `lte_get_localtime(8)` returns 0. -/
theorem C2_async_mutual_exclusion_witness :
    (lte_get_localtime sample_consts sample_engine 7 (start idle)).ret = 0 ∧
    (lte_get_localtime sample_consts sample_engine 8
      (lte_get_localtime sample_consts sample_engine 7 (start idle)).sys).ret = -115 ∧
    (lte_get_localtime sample_consts sample_engine 8
      (getltime_job sample_consts sample_engine 4097 sample_response ⟨0, 0, 0, 0, 0, 0, 0⟩
        (lte_get_localtime sample_consts sample_engine 7 (start idle)).sys)).ret = 0 :=
  ⟨by decide,
    congrArg Outcome.ret
      (((C2_async_mutual_exclusion sample_consts sample_codes
        (answering 0 0 sample_response) (answering 0 0 ⟨0, 1, 2, 3, 4, 5, 6⟩)
        (answering 0 0 ⟨0, 77⟩) (fun (q r : Nat) => q + r)).1.1
        (answering 0 0 sample_response) 7 (start idle) (by decide) (by decide)).1
        (answering 0 0 sample_response) 8 (by decide) (by decide)),
    (((C2_async_mutual_exclusion sample_consts sample_codes
        (answering 0 0 sample_response) (answering 0 0 ⟨0, 1, 2, 3, 4, 5, 6⟩)
        (answering 0 0 ⟨0, 77⟩) (fun (q r : Nat) => q + r)).1.1
        (answering 0 0 sample_response) 7 (start idle) (by decide) (by decide)).2
        (answering 0 0 sample_response) 8 (by decide) (by decide) (by decide) (by decide)).1
        4097 sample_response ⟨0, 0, 0, 0, 0, 0, 0⟩⟩

/-- Witness of C7: on the engine, `lte_get_localtime(7)` whose send returns -5
returns -5 with the teardown as its last call, and leaves no entry and no
subscription for the command; with an empty buffer pool it returns `-ENOMEM`. -/
theorem C7_async_failure_teardown_witness :
    ((lte_getlocaltime_impl sample_consts
        (engine sample_consts sample_codes (answering (-5) 0 sample_response))
        none 7 (start idle : Sys Engine Nat)).ret = -5 ∧
      (lte_getlocaltime_impl sample_consts
        (engine sample_consts sample_codes (answering (-5) 0 sample_response))
        none 7 (start idle : Sys Engine Nat)).sys.trace
        = [Event.check_poweron_status 0,
          Event.setup_apicallback 11 7 StatChgCb.getltime_status_chg_cb 0,
          Event.cmd_allocbuff 11 0 4096, Event.send 4096 false 11 (-1) (-5),
          Event.free_cmd 4096,
          Event.teardown_apicallback 11 StatChgCb.getltime_status_chg_cb]) ∧
    ((lte_getlocaltime_impl sample_consts
        (engine sample_consts sample_codes (answering (-5) 0 sample_response))
        none 7 (start idle : Sys Engine Nat)).sys.world.registry 11 = none ∧
      notifier_subscribed 11 (lte_getlocaltime_impl sample_consts
        (engine sample_consts sample_codes (answering (-5) 0 sample_response))
        none 7 (start idle : Sys Engine Nat)).sys.world.notifier = false) ∧
    (lte_getpinset_impl sample_consts
      (engine sample_consts sample_codes ⟨0, 0, ⟨0, 0, ⟨0, 1, 2, 3, 4, 5, 6⟩⟩⟩)
      none 7 (start idle : Sys Engine Nat)).ret = -12 :=
  ⟨match ((C7_async_failure_teardown sample_consts sample_codes
        (engine sample_consts sample_codes (answering (-5) 0 sample_response))
        (engine sample_consts sample_codes ⟨0, 0, ⟨0, 0, ⟨0, 1, 2, 3, 4, 5, 6⟩⟩⟩)
        (engine sample_consts sample_codes (answering 0 0 ⟨0, 77⟩))
        (fun (q r : Nat) => q + r) none none none 7 idle).1.1
        (by decide) (by decide) (by decide)).2 (by decide) (by decide) with
    | ⟨hret, htrace, _⟩ => ⟨hret, htrace⟩,
  match (C7_async_failure_teardown sample_consts sample_codes
        (engine sample_consts sample_codes (answering (-5) 0 sample_response))
        (engine sample_consts sample_codes ⟨0, 0, ⟨0, 0, ⟨0, 1, 2, 3, 4, 5, 6⟩⟩⟩)
        (engine sample_consts sample_codes (answering 0 0 ⟨0, 77⟩))
        (fun (q r : Nat) => q + r) none none none 7 idle).2.1
        (answering (-5) 0 sample_response) 7 (start idle) (by decide) (by decide) rfl
        (Or.inr (by decide)) with
    | ⟨_, _, hreg, hsub⟩ => ⟨hreg, hsub⟩,
  (((C7_async_failure_teardown sample_consts sample_codes
        (engine sample_consts sample_codes (answering (-5) 0 sample_response))
        (engine sample_consts sample_codes ⟨0, 0, ⟨0, 0, ⟨0, 1, 2, 3, 4, 5, 6⟩⟩⟩)
        (engine sample_consts sample_codes (answering 0 0 ⟨0, 77⟩))
        (fun (q r : Nat) => q + r) none none none 7 idle).1.2.1
        (by decide) (by decide) (by decide)).1 (by decide)).1⟩

/-- Witness of C8: with the threshold 3, the handler of get local time run for
the status 2 on the pending operation of `sample_pending` answers
`ALTCOM_STATUS_REG_CLR = 1` and removes the entry of command 11; run for the
status 3 it answers `ALTCOM_STATUS_REG_KEEP = 0` and changes nothing. -/
theorem C8_status_change_handler_witness :
    (getltime_status_chg_cb sample_consts sample_engine 2 3 sample_pending).1 = 1 ∧
    (getltime_status_chg_cb sample_consts sample_engine 2 3 sample_pending).2.world.registry 11
      = none ∧
    sample_pending.world.registry 11 = some 7 ∧
    getltime_status_chg_cb sample_consts sample_engine 3 2 sample_pending
      = (0, sample_pending) :=
  ⟨congrArg Prod.fst
      ((C8_status_change_handler sample_consts sample_codes (answering 0 0 sample_response)
        sample_engine 2 3 3 sample_pending sample_pending).1.1.1 (by decide)),
    ((C8_status_change_handler sample_consts sample_codes (answering 0 0 sample_response)
        sample_engine 2 3 3 sample_pending sample_pending).2.1.1 (by decide)).1,
    by decide,
    (C8_status_change_handler sample_consts sample_codes (answering 0 0 sample_response)
        sample_engine 3 2 2 sample_pending sample_pending).1.1.2.1 (by decide)⟩

/-- C9, counterexample: `lte_get_localtime(7)` is accepted on the idle engine,
so that the operation is pending; the status then drops to 2, below the
threshold 3, and the handler answers `ALTCOM_STATUS_REG_CLR`; a response
arrives later and the completion job runs.  No callback is invoked, neither
by the handler nor by the job: the callback 7 is dropped, not invoked with an
error indication. -/
theorem C9_status_drop_counterexample :
    (lte_get_localtime sample_consts sample_engine 7 (start idle)).ret = 0 ∧
    sample_pending.world.registry 11 = some 7 ∧
    (getltime_status_chg_cb sample_consts sample_engine 2 3 sample_pending).1 = 1 ∧
    callbacks (getltime_status_chg_cb sample_consts sample_engine 2 3 sample_pending).2.trace
      = [] ∧
    callbacks (getltime_job sample_consts sample_engine 4097 sample_response
      ⟨0, 0, 0, 0, 0, 0, 0⟩
      (getltime_status_chg_cb sample_consts sample_engine 2 3 sample_pending).2).trace
      = [] := by
  decide

/-- C9, amended: when a status below the powered-on threshold cancels a pending
asynchronous operation of one of the three commands, the status-change handler
removes the operation from the Registry and invokes no callback, and whatever
responses and status changes follow, the callback of the operation is not
invoked: it is dropped without an error indication, and so never invoked
twice. -/
theorem C9_status_drop_discards_callback (K : Consts) (C : Codes)
    (A1 : Oracle apicmd_cmddat_getltimeres_s) (A2 : Oracle apicmd_cmddat_getpinsetres_s)
    (A3 : Oracle (apicmd_cmddat_getqualityres_s Qraw)) (set_quality : Q → Qraw → Q) :
    cancellation_drops K K.APICMDID_GET_LTIME
      (fun A cb s => lte_get_localtime K (engine K C A) cb s)
      (getltime_job K (engine K C A1)) (getltime_status_chg_cb K (engine K C A1)) ∧
    cancellation_drops K K.APICMDID_GET_PINSET
      (fun A cb s => lte_get_pinset K (engine K C A) cb s)
      (getpinset_job K (engine K C A2)) (getpinset_status_chg_cb K (engine K C A2)) ∧
    cancellation_drops K K.APICMDID_GET_QUALITY
      (fun A cb s => lte_get_quality K (engine K C A) set_quality cb s)
      (getquality_job K (engine K C A3) set_quality)
      (getquality_status_chg_cb K (engine K C A3)) :=
  ⟨cancellation_drops_core K C (getltime_cmd K) A1,
    cancellation_drops_core K C (getpinset_cmd K) A2,
    cancellation_drops_core K C (getquality_cmd K set_quality) A3⟩

/-- Witness of C9 as amended: after `lte_get_localtime(7)` on the idle engine
and a drop of the status to 2, a late response followed by a second drop
invokes no callback. -/
theorem C9_status_drop_discards_callback_witness :
    callbacks (run (getltime_job sample_consts sample_engine)
      (getltime_status_chg_cb sample_consts sample_engine)
      [Step.response 4097 sample_response ⟨0, 0, 0, 0, 0, 0, 0⟩, Step.status 1 2]
      (getltime_status_chg_cb sample_consts sample_engine 2 3
        (lte_get_localtime sample_consts sample_engine 7 (start idle)).sys).2).trace = [] :=
  ((C9_status_drop_discards_callback sample_consts sample_codes
      (answering 0 0 sample_response) (answering 0 0 ⟨0, 1, 2, 3, 4, 5, 6⟩)
      (answering 0 0 ⟨0, 77⟩) (fun (q r : Nat) => q + r)).1
      (answering 0 0 sample_response) 7 idle 2 3 (by decide) (by decide) (by decide)).2.2.2.2
    [Step.response 4097 sample_response ⟨0, 0, 0, 0, 0, 0, 0⟩, Step.status 1 2]

/-- C10: for each of the three commands, after one accepted asynchronous call
with callback `cb`, for every finite sequence of completion-job runs and
status-change-handler runs, in any order and with any repetition, with no new
registration in between: at most one callback is invoked in total, it is
`cb`, and no callback is invoked after a status below the powered-on
threshold has been processed. -/
theorem C10_callback_at_most_once (K : Consts) (C : Codes)
    (A1 : Oracle apicmd_cmddat_getltimeres_s) (A2 : Oracle apicmd_cmddat_getpinsetres_s)
    (A3 : Oracle (apicmd_cmddat_getqualityres_s Qraw)) (set_quality : Q → Qraw → Q) :
    at_most_once K (fun A cb s => lte_get_quality K (engine K C A) set_quality cb s)
      (getquality_job K (engine K C A3) set_quality)
      (getquality_status_chg_cb K (engine K C A3)) ∧
    at_most_once K (fun A cb s => lte_get_localtime K (engine K C A) cb s)
      (getltime_job K (engine K C A1)) (getltime_status_chg_cb K (engine K C A1)) ∧
    at_most_once K (fun A cb s => lte_get_pinset K (engine K C A) cb s)
      (getpinset_job K (engine K C A2)) (getpinset_status_chg_cb K (engine K C A2)) :=
  ⟨at_most_once_core K C (getquality_cmd K set_quality) A3,
    at_most_once_core K C (getltime_cmd K) A1,
    at_most_once_core K C (getpinset_cmd K) A2⟩

/-- Witness of C10: after `lte_get_localtime(7)` on the idle engine, two
responses, a status drop and a third response invoke the callback 7 once, for
the first response. -/
theorem C10_callback_at_most_once_witness :
    (callbacks (run (getltime_job sample_consts sample_engine)
      (getltime_status_chg_cb sample_consts sample_engine)
      [Step.response 4097 sample_response ⟨0, 0, 0, 0, 0, 0, 0⟩,
        Step.response 4098 sample_response ⟨0, 0, 0, 0, 0, 0, 0⟩, Step.status 2 3,
        Step.response 4099 sample_response ⟨0, 0, 0, 0, 0, 0, 0⟩]
      (lte_get_localtime sample_consts sample_engine 7 (start idle)).sys).trace).length ≤ 1 ∧
    callbacks (run (getltime_job sample_consts sample_engine)
      (getltime_status_chg_cb sample_consts sample_engine)
      [Step.response 4097 sample_response ⟨0, 0, 0, 0, 0, 0, 0⟩,
        Step.response 4098 sample_response ⟨0, 0, 0, 0, 0, 0, 0⟩, Step.status 2 3,
        Step.response 4099 sample_response ⟨0, 0, 0, 0, 0, 0, 0⟩]
      (lte_get_localtime sample_consts sample_engine 7 (start idle)).sys).trace
      = [(7, 0, ⟨24, 6, 1, 10, 30, 0, 32400⟩)] :=
  ⟨((C10_callback_at_most_once sample_consts sample_codes
      (answering 0 0 sample_response) (answering 0 0 ⟨0, 1, 2, 3, 4, 5, 6⟩)
      (answering 0 0 ⟨0, 77⟩) (fun (q r : Nat) => q + r)).2.1
      (answering 0 0 sample_response) 7 idle (by decide) (by decide)
      [Step.response 4097 sample_response ⟨0, 0, 0, 0, 0, 0, 0⟩,
        Step.response 4098 sample_response ⟨0, 0, 0, 0, 0, 0, 0⟩, Step.status 2 3,
        Step.response 4099 sample_response ⟨0, 0, 0, 0, 0, 0, 0⟩]).1,
    by decide⟩

/-- Witness of C6: on the pending operation of `sample_pending` the job of get
local time takes the handler 7, invokes it once with the result 0 and the
parsed time, frees the inbound buffer 4097 and unregisters its status-change
handler; on the idle engine, where the take fails with -2, it invokes nothing
and still frees the buffer and unregisters the handler. -/
theorem C6_completion_job_trace_witness :
    (getltime_job sample_consts sample_engine 4097 sample_response ⟨0, 0, 0, 0, 0, 0, 0⟩
      (start sample_pending.world)).trace
      = [Event.get_unreg_cb 11 0 7, Event.callback 7 0 ⟨24, 6, 1, 10, 30, 0, 32400⟩,
        Event.free_cmd 4097, Event.unreg_statchgcb StatChgCb.getltime_status_chg_cb] ∧
    (getltime_job sample_consts sample_engine 4097 sample_response ⟨0, 0, 0, 0, 0, 0, 0⟩
      (start idle)).trace
      = [Event.get_unreg_cb 11 (-2) 0,
        Event.free_cmd 4097, Event.unreg_statchgcb StatChgCb.getltime_status_chg_cb] :=
  ⟨(C6_completion_job_trace sample_consts sample_engine
      (engine sample_consts sample_codes (answering 0 0 ⟨0, 1, 2, 3, 4, 5, 6⟩))
      (engine sample_consts sample_codes (answering 0 0 ⟨0, 77⟩))
      (fun (q r : Nat) => q + r) 4097 sample_pending.world sample_response
      ⟨0, 0, 0, 0, 0, 0, 0⟩ ⟨0, 1, 2, 3, 4, 5, 6⟩ ⟨0, 0, 0, 0, 0, 0⟩ ⟨0, 77⟩ 0).1.trans
      rfl,
    (C6_completion_job_trace sample_consts sample_engine
      (engine sample_consts sample_codes (answering 0 0 ⟨0, 1, 2, 3, 4, 5, 6⟩))
      (engine sample_consts sample_codes (answering 0 0 ⟨0, 77⟩))
      (fun (q r : Nat) => q + r) 4097 idle sample_response
      ⟨0, 0, 0, 0, 0, 0, 0⟩ ⟨0, 1, 2, 3, 4, 5, 6⟩ ⟨0, 0, 0, 0, 0, 0⟩ ⟨0, 77⟩ 0).1.trans
      rfl⟩

/-- Case analysis on the path the common implementation takes: a property that
holds of the outcome of each of the eight paths holds of the outcome of the
call. -/
theorem impl_core_cases (K : Consts) (E : Collab σ R P) (c : Cmd R O) (out : Option O)
    (cb : Nat) (w : σ) (tr : List (Event P)) (motive : Outcome σ P O → Prop)
    (h_invalid : (out.isNone ∧ cb = NULL) → motive ⟨-EINVAL, out, ⟨w, tr⟩⟩)
    (h_power : ¬ (out.isNone ∧ cb = NULL) → power_check E w < 0 →
      motive ⟨power_check E w, out, ⟨after_power_check E w,
        tr ++ [Event.check_poweron_status (power_check E w)]⟩⟩)
    (h_busy : cb ≠ NULL → 0 ≤ power_check E w → registration E c cb w < 0 →
      motive ⟨registration E c cb w, out,
        ⟨before_alloc E c cb w, tr ++ entry_events E c cb w⟩⟩)
    (h_nomem : ¬ (out.isNone ∧ cb = NULL) → 0 ≤ power_check E w →
      (cb = NULL ∨ 0 ≤ registration E c cb w) → allocation E c cb w = NULL →
      motive ⟨-ENOMEM, out, ⟨errout_world E c cb (after_alloc E c cb w),
        tr ++ entry_events E c cb w ++ [Event.cmd_allocbuff c.id REQ_DATA_LEN NULL]
          ++ errout_events c cb⟩⟩)
    (h_send : allocated E c out cb w → (transmission K E c cb w).ret < 0 →
      motive ⟨(transmission K E c cb w).ret, out,
        ⟨errout_world E c cb (after_free K E c cb w),
          tr ++ entry_events E c cb w ++ send_events K E c cb w ++ errout_events c cb⟩⟩)
    (h_async : allocated E c out cb w → 0 ≤ (transmission K E c cb w).ret → cb ≠ NULL →
      motive ⟨0, out, ⟨after_free K E c cb w,
        tr ++ entry_events E c cb w ++ send_events K E c cb w⟩⟩)
    (h_ok : allocated E c out cb w → 0 ≤ (transmission K E c cb w).ret → cb = NULL →
      K.LTE_RESULT_OK = (c.result (transmission K E c cb w).resbuff : Int) →
      motive ⟨0, out.map (c.parse (transmission K E c cb w).resbuff),
        ⟨after_free K E c cb w, tr ++ entry_events E c cb w ++ send_events K E c cb w⟩⟩)
    (h_eproto : allocated E c out cb w → 0 ≤ (transmission K E c cb w).ret → cb = NULL →
      K.LTE_RESULT_OK ≠ (c.result (transmission K E c cb w).resbuff : Int) →
      motive ⟨-EPROTO, out,
        ⟨after_free K E c cb w, tr ++ entry_events E c cb w ++ send_events K E c cb w⟩⟩) :
    motive (impl_core K E c out cb ⟨w, tr⟩) := by
  rw [impl_core_spec]
  by_cases h0 : out.isNone ∧ cb = NULL
  · rw [if_pos h0]; exact h_invalid h0
  rw [if_neg h0]
  by_cases h1 : power_check E w < 0
  · rw [if_pos h1]; exact h_power h0 h1
  rw [if_neg h1]
  by_cases h2 : cb ≠ NULL ∧ registration E c cb w < 0
  · rw [if_pos h2]; exact h_busy h2.1 (not_lt.mp h1) h2.2
  rw [if_neg h2]
  have h2b : cb = NULL ∨ 0 ≤ registration E c cb w := by
    by_cases hc : cb = NULL
    · exact Or.inl hc
    · right
      by_contra hneg
      exact h2 ⟨hc, by omega⟩
  by_cases h3 : allocation E c cb w = NULL
  · rw [if_pos h3]; exact h_nomem h0 (not_lt.mp h1) h2b h3
  rw [if_neg h3]
  have hal : allocated E c out cb w := ⟨h0, not_lt.mp h1, h2b, h3⟩
  by_cases h4 : (transmission K E c cb w).ret < 0
  · rw [if_pos h4]; exact h_send hal h4
  rw [if_neg h4]
  by_cases h5 : cb ≠ NULL
  · rw [if_pos h5]; exact h_async hal (not_lt.mp h4) h5
  rw [if_neg h5]
  have h5b : cb = NULL := not_not.mp h5
  by_cases h6 : K.LTE_RESULT_OK = (c.result (transmission K E c cb w).resbuff : Int)
  · rw [if_pos h6]; exact h_ok hal (not_lt.mp h4) h5b h6
  · rw [if_neg h6]; exact h_eproto hal (not_lt.mp h4) h5b h6

theorem registry_calls_append (a b : List (Event P)) :
    registry_calls (a ++ b) = registry_calls a ++ registry_calls b := by
  induction a with
  | nil => rfl
  | cons e a ih => cases e <;> simp [registry_calls, ih]

theorem send_events_reads (K : Consts) (E : Collab σ R P) (c : Cmd R O) (cb : Nat) (w : σ) :
    sends (send_events K E c cb w) = [allocation E c cb w] ∧
    registry_calls (send_events K E c cb w) = [] ∧
    callbacks (send_events K E c cb w) = [] := by
  simp [send_events, sends, registry_calls, callbacks]


/-- Which calls of `apicmdgw_send` the common implementation makes. -/
theorem impl_core_sends (K : Consts) (E : Collab σ R P) (c : Cmd R O) (out : Option O)
    (cb : Nat) (w : σ) :
    (allocated E c out cb w →
      sends (impl_core K E c out cb (start w)).sys.trace = [allocation E c cb w]) ∧
    (¬ allocated E c out cb w → sends (impl_core K E c out cb (start w)).sys.trace = []) := by
  have he := entry_events_no_buffer E c cb w
  have hx := errout_events_no_buffer (P := P) c cb
  have hs := send_events_reads K E c cb w
  rw [start]
  apply impl_core_cases K E c out cb w []
    (motive := fun o => (allocated E c out cb w → sends o.sys.trace = [allocation E c cb w]) ∧
      (¬ allocated E c out cb w → sends o.sys.trace = []))
  · intro h0
    exact ⟨fun h => absurd h0 h.1, fun _ => rfl⟩
  · intro _ h1
    exact ⟨fun h => absurd h1 (not_lt.mpr h.2.1), fun _ => rfl⟩
  · intro hcb _ h2
    refine ⟨fun h => ?_, fun _ => by simp [he]⟩
    rcases h.2.2.1 with h | h
    · exact absurd h hcb
    · exact absurd h2 (not_lt.mpr h)
  · intro _ _ _ h3
    exact ⟨fun h => absurd h3 h.2.2.2, fun _ => by simp [sends_append, he, hx, sends]⟩
  · intro hal _
    exact ⟨fun _ => by simp [sends_append, he, hx, hs], fun h => absurd hal h⟩
  · intro hal _ _
    exact ⟨fun _ => by simp [sends_append, he, hs], fun h => absurd hal h⟩
  · intro hal _ _ _
    exact ⟨fun _ => by simp [sends_append, he, hs], fun h => absurd hal h⟩
  · intro hal _ _ _
    exact ⟨fun _ => by simp [sends_append, he, hs], fun h => absurd hal h⟩

/-- The return value of the common implementation on its eight paths. -/
theorem impl_core_ret (K : Consts) (E : Collab σ R P) (c : Cmd R O) (out : Option O)
    (cb : Nat) (w : σ) (tr : List (Event P)) :
    ((out.isNone ∧ cb = NULL) → (impl_core K E c out cb ⟨w, tr⟩).ret = -EINVAL) ∧
    (¬ (out.isNone ∧ cb = NULL) → power_check E w < 0 →
      (impl_core K E c out cb ⟨w, tr⟩).ret = power_check E w) ∧
    (cb ≠ NULL → 0 ≤ power_check E w → registration E c cb w < 0 →
      (impl_core K E c out cb ⟨w, tr⟩).ret = registration E c cb w) ∧
    (¬ (out.isNone ∧ cb = NULL) → 0 ≤ power_check E w →
      (cb = NULL ∨ 0 ≤ registration E c cb w) → allocation E c cb w = NULL →
      (impl_core K E c out cb ⟨w, tr⟩).ret = -ENOMEM) ∧
    (allocated E c out cb w → (transmission K E c cb w).ret < 0 →
      (impl_core K E c out cb ⟨w, tr⟩).ret = (transmission K E c cb w).ret) ∧
    (allocated E c out cb w → 0 ≤ (transmission K E c cb w).ret → cb ≠ NULL →
      (impl_core K E c out cb ⟨w, tr⟩).ret = 0) ∧
    (allocated E c out cb w → 0 ≤ (transmission K E c cb w).ret → cb = NULL →
      K.LTE_RESULT_OK = (c.result (transmission K E c cb w).resbuff : Int) →
      (impl_core K E c out cb ⟨w, tr⟩).ret = 0) ∧
    (allocated E c out cb w → 0 ≤ (transmission K E c cb w).ret → cb = NULL →
      K.LTE_RESULT_OK ≠ (c.result (transmission K E c cb w).resbuff : Int) →
      (impl_core K E c out cb ⟨w, tr⟩).ret = -EPROTO) := by
  rw [impl_core_spec]
  refine ⟨?_, ?_, ?_, ?_, ?_, ?_, ?_, ?_⟩
  · intro h0
    rw [if_pos h0]
  · intro h0 h1
    rw [if_neg h0, if_pos h1]
  · intro hcb h1 h2
    rw [if_neg (fun h => hcb h.2), if_neg (not_lt.mpr h1), if_pos ⟨hcb, h2⟩]
  · intro h0 h1 h2 h3
    rw [if_neg h0, if_neg (not_lt.mpr h1), if_neg, if_pos h3]
    intro h
    rcases h2 with h2 | h2
    · exact h.1 h2
    · exact absurd h.2 (not_lt.mpr h2)
  · intro hal h4
    rw [if_neg hal.1, if_neg (not_lt.mpr hal.2.1), if_neg, if_neg hal.2.2.2, if_pos h4]
    intro h
    rcases hal.2.2.1 with h2 | h2
    · exact h.1 h2
    · exact absurd h.2 (not_lt.mpr h2)
  · intro hal h4 hcb
    rw [if_neg hal.1, if_neg (not_lt.mpr hal.2.1), if_neg, if_neg hal.2.2.2,
      if_neg (not_lt.mpr h4), if_pos hcb]
    intro h
    rcases hal.2.2.1 with h2 | h2
    · exact h.1 h2
    · exact absurd h.2 (not_lt.mpr h2)
  · intro hal h4 hcb h6
    rw [if_neg hal.1, if_neg (not_lt.mpr hal.2.1), if_neg (fun h => h.1 hcb),
      if_neg hal.2.2.2, if_neg (not_lt.mpr h4), if_neg (not_not.mpr hcb), if_pos h6]
  · intro hal h4 hcb h6
    rw [if_neg hal.1, if_neg (not_lt.mpr hal.2.1), if_neg (fun h => h.1 hcb),
      if_neg hal.2.2.2, if_neg (not_lt.mpr h4), if_neg (not_not.mpr hcb), if_neg h6]

theorem transmits_iff_accepted_core (K : Consts) (E : Collab σ R P) (c : Cmd R O)
    (out : Option O) (cb : Nat) (w : σ) :
    transmits_iff_accepted E c out cb w (impl_core K E c out cb (start w)) := by
  obtain ⟨hs1, hs2⟩ := impl_core_sends K E c out cb w
  obtain ⟨-, r2, r3, r4, -⟩ := impl_core_ret K E c out cb w []
  have hsplit : sends (impl_core K E c out cb (start w)).sys.trace = [allocation E c cb w] ∨
      sends (impl_core K E c out cb (start w)).sys.trace = [] := by
    by_cases hal : allocated E c out cb w
    · exact Or.inl (hs1 hal)
    · exact Or.inr (hs2 hal)
  refine ⟨?_, ⟨fun h => ?_, hs1⟩, ⟨fun h => ?_, hs2⟩, ?_, ?_, ?_⟩
  · rcases hsplit with h | h <;> rw [h] <;> simp
  · by_contra hal
    rw [hs2 hal] at h
    simp at h
  · intro hal
    rw [hs1 hal] at h
    simp at h
  · intro h0 h1
    exact ⟨r2 h0 h1, hs2 (fun hal => absurd h1 (not_lt.mpr hal.2.1))⟩
  · intro hcb h1 h2
    refine ⟨r3 hcb h1 h2, hs2 (fun hal => ?_)⟩
    rcases hal.2.2.1 with h | h
    · exact hcb h
    · exact absurd h2 (not_lt.mpr h)
  · intro h0 h1 h2 h3
    exact ⟨r4 h0 h1 h2 h3, hs2 (fun hal => hal.2.2.2 h3)⟩

theorem zero_or_negative_core (K : Consts) (E : Collab σ R P) (c : Cmd R O)
    (out : Option O) (cb : Nat) (w : σ) :
    zero_or_negative K E c out cb w (impl_core K E c out cb (start w)) := by
  obtain ⟨hs1, -⟩ := impl_core_sends K E c out cb w
  have key : (impl_core K E c out cb (start w)).ret < 0 ∨
      ((impl_core K E c out cb (start w)).ret = 0 ∧ allocated E c out cb w ∧
        0 ≤ (transmission K E c cb w).ret ∧
        (cb = NULL → (c.result (transmission K E c cb w).resbuff : Int) = K.LTE_RESULT_OK)) := by
    rw [start]
    apply impl_core_cases K E c out cb w []
      (motive := fun o => o.ret < 0 ∨ (o.ret = 0 ∧ allocated E c out cb w ∧
        0 ≤ (transmission K E c cb w).ret ∧
        (cb = NULL → (c.result (transmission K E c cb w).resbuff : Int) = K.LTE_RESULT_OK)))
    · intro _; left; simp [EINVAL]
    · intro _ h1; left; exact h1
    · intro _ _ h2; left; exact h2
    · intro _ _ _ _; left; simp [ENOMEM]
    · intro _ h4; left; exact h4
    · intro hal h4 hcb; right; exact ⟨rfl, hal, h4, fun h => absurd h hcb⟩
    · intro hal h4 _ h6; right; exact ⟨rfl, hal, h4, fun _ => h6.symm⟩
    · intro _ _ _ _; left; simp [EPROTO]
  refine ⟨?_, ?_⟩
  · rcases key with h | h
    · exact Or.inr h
    · exact Or.inl h.1
  · intro h0
    rcases key with h | h
    · omega
    · exact ⟨h.2.1, hs1 h.2.1, h.2.2.1, h.2.2.2⟩


/-- C12: for each of the three implementations, `apicmdgw_send` is called at
most once per call, and it is called if and only if the arguments are valid
(not both null), `altcombs_check_poweron_status` returned a non-negative
value, the call is synchronous or `altcombs_setup_apicallback` returned a
non-negative value, and the request buffer was allocated.  When the power check
or the registration fails the call returns the negative code of that
collaborator unchanged, and when the allocation fails it returns `-ENOMEM`,
each time without a transmission. -/
theorem C12_send_iff_accepted (K : Consts)
    (E1 : Collab σ apicmd_cmddat_getltimeres_s P)
    (E2 : Collab σ apicmd_cmddat_getpinsetres_s P)
    (E3 : Collab σ (apicmd_cmddat_getqualityres_s Qraw) P)
    (set_quality : Q → Qraw → Q) (localtime : Option lte_localtime_t)
    (pinset : Option lte_getpin_t) (quality : Option Q) (callback : Nat) (w : σ) :
    transmits_iff_accepted E1 (getltime_cmd K) localtime callback w
      (lte_getlocaltime_impl K E1 localtime callback (start w)) ∧
    transmits_iff_accepted E2 (getpinset_cmd K) pinset callback w
      (lte_getpinset_impl K E2 pinset callback (start w)) ∧
    transmits_iff_accepted E3 (getquality_cmd K set_quality) quality callback w
      (lte_getquality_impl K E3 set_quality quality callback (start w)) := by
  rw [lte_getlocaltime_impl_eq, lte_getpinset_impl_eq, lte_getquality_impl_eq]
  exact ⟨transmits_iff_accepted_core K E1 _ localtime callback w,
    transmits_iff_accepted_core K E2 _ pinset callback w,
    transmits_iff_accepted_core K E3 _ quality callback w⟩

/-- Witness of C12: on the idle engine with a powered-on device, the
asynchronous call `lte_getlocaltime_impl(NULL, 7)` sends the buffer 4096 once;
with a device that is not powered on (the power check returns -19) the
synchronous get-PIN-set call returns -19 and sends nothing; with an empty
buffer pool the asynchronous get-quality call returns `-ENOMEM` and sends
nothing. -/
theorem C12_send_iff_accepted_witness :
    sends (lte_getlocaltime_impl sample_consts
      (engine sample_consts sample_codes (answering 0 0 sample_response))
      none 7 (start idle : Sys Engine Nat)).sys.trace = [4096] ∧
    ((lte_getpinset_impl sample_consts
        (engine sample_consts sample_codes ⟨-19, 4096, ⟨0, 7, ⟨0, 1, 2, 3, 4, 5, 6⟩⟩⟩)
        (some ⟨9, 9, 9, 9, 9, 9⟩) 0 (start idle : Sys Engine Nat)).ret = -19 ∧
      sends (lte_getpinset_impl sample_consts
        (engine sample_consts sample_codes ⟨-19, 4096, ⟨0, 7, ⟨0, 1, 2, 3, 4, 5, 6⟩⟩⟩)
        (some ⟨9, 9, 9, 9, 9, 9⟩) 0 (start idle : Sys Engine Nat)).sys.trace = []) ∧
    ((lte_getquality_impl sample_consts
        (engine sample_consts sample_codes ⟨0, 0, ⟨0, 0, ⟨0, 77⟩⟩⟩)
        (fun (q r : Nat) => q + r) none 7 (start idle : Sys Engine Nat)).ret = -12 ∧
      sends (lte_getquality_impl sample_consts
        (engine sample_consts sample_codes ⟨0, 0, ⟨0, 0, ⟨0, 77⟩⟩⟩)
        (fun (q r : Nat) => q + r) none 7 (start idle : Sys Engine Nat)).sys.trace = []) :=
  ⟨(C12_send_iff_accepted sample_consts
      (engine sample_consts sample_codes (answering 0 0 sample_response))
      (engine sample_consts sample_codes ⟨-19, 4096, ⟨0, 7, ⟨0, 1, 2, 3, 4, 5, 6⟩⟩⟩)
      (engine sample_consts sample_codes ⟨0, 0, ⟨0, 0, ⟨0, 77⟩⟩⟩)
      (fun (q r : Nat) => q + r) none (some ⟨9, 9, 9, 9, 9, 9⟩) none 7 idle).1.2.1.mpr
      ⟨by decide, by decide, by decide, by decide⟩,
    (C12_send_iff_accepted sample_consts
      (engine sample_consts sample_codes (answering 0 0 sample_response))
      (engine sample_consts sample_codes ⟨-19, 4096, ⟨0, 7, ⟨0, 1, 2, 3, 4, 5, 6⟩⟩⟩)
      (engine sample_consts sample_codes ⟨0, 0, ⟨0, 0, ⟨0, 77⟩⟩⟩)
      (fun (q r : Nat) => q + r) none (some ⟨9, 9, 9, 9, 9, 9⟩) none 0 idle).2.1.2.2.2.1
      (by decide) (by decide),
    (C12_send_iff_accepted sample_consts
      (engine sample_consts sample_codes (answering 0 0 sample_response))
      (engine sample_consts sample_codes ⟨-19, 4096, ⟨0, 7, ⟨0, 1, 2, 3, 4, 5, 6⟩⟩⟩)
      (engine sample_consts sample_codes ⟨0, 0, ⟨0, 0, ⟨0, 77⟩⟩⟩)
      (fun (q r : Nat) => q + r) none (some ⟨9, 9, 9, 9, 9, 9⟩) none 7 idle).2.2.2.2.2.2.2
      (by decide) (by decide) (Or.inr (by decide)) (by decide)⟩

/-- C14: for every argument and every behaviour of the collaborators (also when
`apicmdgw_send` returns a positive byte count), each of the six public entry
points `lte_get_localtime[_sync]`, `lte_get_pinset[_sync]`,
`lte_get_quality[_sync]` returns 0 or a negative value, never a positive one;
and it returns 0 only if the request was handed to `apicmdgw_send`, send did
not return a negative value and, for a synchronous call, the result field of
the response is `LTE_RESULT_OK`. -/
theorem C14_return_zero_or_negative (K : Consts)
    (E1 : Collab σ apicmd_cmddat_getltimeres_s P)
    (E2 : Collab σ apicmd_cmddat_getpinsetres_s P)
    (E3 : Collab σ (apicmd_cmddat_getqualityres_s Qraw) P)
    (set_quality : Q → Qraw → Q) (localtime : Option lte_localtime_t)
    (pinset : Option lte_getpin_t) (quality : Option Q) (callback : Nat) (w : σ) :
    (zero_or_negative K E1 (getltime_cmd K) localtime NULL w
        (lte_get_localtime_sync K E1 localtime (start w)) ∧
      zero_or_negative K E1 (getltime_cmd K) none callback w
        (lte_get_localtime K E1 callback (start w))) ∧
    (zero_or_negative K E2 (getpinset_cmd K) pinset NULL w
        (lte_get_pinset_sync K E2 pinset (start w)) ∧
      zero_or_negative K E2 (getpinset_cmd K) none callback w
        (lte_get_pinset K E2 callback (start w))) ∧
    (zero_or_negative K E3 (getquality_cmd K set_quality) quality NULL w
        (lte_get_quality_sync K E3 set_quality quality (start w)) ∧
      zero_or_negative K E3 (getquality_cmd K set_quality) none callback w
        (lte_get_quality K E3 set_quality callback (start w))) := by
  unfold lte_get_localtime_sync lte_get_localtime lte_get_pinset_sync lte_get_pinset
    lte_get_quality_sync lte_get_quality
  rw [lte_getlocaltime_impl_eq, lte_getpinset_impl_eq, lte_getquality_impl_eq]
  exact ⟨⟨zero_or_negative_core K E1 _ localtime NULL w,
      zero_or_negative_core K E1 _ none callback w⟩,
    ⟨zero_or_negative_core K E2 _ pinset NULL w,
      zero_or_negative_core K E2 _ none callback w⟩,
    ⟨zero_or_negative_core K E3 _ quality NULL w,
      zero_or_negative_core K E3 _ none callback w⟩⟩

/-- Witness of C14: on the idle engine, with a gateway that returns the
positive byte count 11, `lte_get_localtime_sync` and `lte_get_localtime(7)`
return 0, and the request buffer 4096 was handed to `apicmdgw_send`. -/
theorem C14_return_zero_or_negative_witness :
    ((lte_get_localtime_sync sample_consts
        (engine sample_consts sample_codes (answering 11 11 sample_response))
        (some ⟨1, 2, 3, 4, 5, 6, 7⟩) (start idle : Sys Engine Nat)).ret = 0 ∧
      sends (lte_get_localtime_sync sample_consts
        (engine sample_consts sample_codes (answering 11 11 sample_response))
        (some ⟨1, 2, 3, 4, 5, 6, 7⟩) (start idle : Sys Engine Nat)).sys.trace = [4096]) ∧
    ((lte_get_localtime sample_consts
        (engine sample_consts sample_codes (answering 11 11 sample_response))
        7 (start idle : Sys Engine Nat)).ret = 0 ∧
      sends (lte_get_localtime sample_consts
        (engine sample_consts sample_codes (answering 11 11 sample_response))
        7 (start idle : Sys Engine Nat)).sys.trace = [4096]) :=
  ⟨⟨by decide,
      ((C14_return_zero_or_negative sample_consts
        (engine sample_consts sample_codes (answering 11 11 sample_response))
        (engine sample_consts sample_codes (answering 11 7 ⟨0, 1, 2, 3, 4, 5, 6⟩))
        (engine sample_consts sample_codes (answering 11 10 ⟨0, 77⟩))
        (fun (q r : Nat) => q + r) (some ⟨1, 2, 3, 4, 5, 6, 7⟩) none none 7 idle).1.1.2
        (by decide)).2.1⟩,
    ⟨by decide,
      ((C14_return_zero_or_negative sample_consts
        (engine sample_consts sample_codes (answering 11 11 sample_response))
        (engine sample_consts sample_codes (answering 11 7 ⟨0, 1, 2, 3, 4, 5, 6⟩))
        (engine sample_consts sample_codes (answering 11 10 ⟨0, 77⟩))
        (fun (q r : Nat) => q + r) (some ⟨1, 2, 3, 4, 5, 6, 7⟩) none none 7 idle).1.2.2
        (by decide)).2.1⟩⟩


/-- The common implementation invokes no user callback, and a synchronous call
calls neither `altcombs_setup_apicallback` nor `altcombs_teardown_apicallback`. -/
theorem impl_core_quiet (K : Consts) (E : Collab σ R P) (c : Cmd R O) (out : Option O)
    (cb : Nat) (w : σ) :
    callbacks (impl_core K E c out cb (start w)).sys.trace = [] ∧
    (cb = NULL → registry_calls (impl_core K E c out cb (start w)).sys.trace = []) := by
  have he := entry_events_no_buffer E c cb w
  have hx := errout_events_no_buffer (P := P) c cb
  have hs := send_events_reads K E c cb w
  have he2 : cb = NULL → registry_calls (entry_events E c cb w) = [] := by
    intro h; simp [entry_events, h, registry_calls]
  have hx2 : cb = NULL → registry_calls (errout_events c cb : List (Event P)) = [] := by
    intro h; simp [errout_events, h, registry_calls]
  rw [start]
  apply impl_core_cases K E c out cb w []
    (motive := fun o => callbacks o.sys.trace = [] ∧ (cb = NULL → registry_calls o.sys.trace = []))
  · intro _; exact ⟨rfl, fun _ => rfl⟩
  · intro _ _; exact ⟨rfl, fun _ => rfl⟩
  · intro hcb _ _
    exact ⟨by simp [he], fun h => absurd h hcb⟩
  · intro _ _ _ _
    refine ⟨by simp [callbacks_append, he, hx, callbacks], fun h => ?_⟩
    simp [registry_calls_append, he2 h, hx2 h, registry_calls]
  · intro _ _
    refine ⟨by simp [callbacks_append, he, hx, hs], fun h => ?_⟩
    simp [registry_calls_append, he2 h, hx2 h, hs]
  · intro _ _ hcb
    exact ⟨by simp [callbacks_append, he, hs], fun h => absurd h hcb⟩
  · intro _ _ _ _
    refine ⟨by simp [callbacks_append, he, hs], fun h => ?_⟩
    simp [registry_calls_append, he2 h, hs]
  · intro _ _ _ _
    refine ⟨by simp [callbacks_append, he, hs], fun h => ?_⟩
    simp [registry_calls_append, he2 h, hs]

theorem async_mode_core (K : Consts) (E : Collab σ R P) (c : Cmd R O) (out : Option O)
    (cb : Nat) (w : σ) :
    async_mode K E c out cb w (impl_core K E c out cb (start w)) := by
  obtain ⟨hq1, hq2⟩ := impl_core_quiet K E c out cb w
  refine ⟨hq1, hq2, ?_⟩
  intro hcb h1
  refine ⟨?_, ?_⟩
  · have hent : Event.setup_apicallback c.id cb c.stat_cb (registration E c cb w)
        ∈ entry_events E c cb w := by
      simp [entry_events, hcb]
    rw [start]
    apply impl_core_cases K E c out cb w []
      (motive := fun o => Event.setup_apicallback c.id cb c.stat_cb (registration E c cb w)
        ∈ o.sys.trace)
    · intro h0; exact absurd h0.2 hcb
    · intro _ h; exact absurd h (not_lt.mpr h1)
    · intro _ _ _; simpa using hent
    · intro _ _ _ _
      simp only [List.nil_append, List.mem_append]
      exact Or.inl (Or.inl hent)
    · intro _ _
      simp only [List.nil_append, List.mem_append]
      exact Or.inl (Or.inl hent)
    · intro _ _ _
      simp only [List.nil_append, List.mem_append]
      exact Or.inl hent
    · intro _ _ h _; exact absurd h hcb
    · intro _ _ h _; exact absurd h hcb
  · intro h2 h3 h4
    rw [start, impl_core_async_ok K E c out cb w [] hcb h1 h2 h3 h4]
    rfl

theorem notifier_subscribe_mem (id : Nat) (h : StatChgCb) (n : Notifier) :
    (id, h) ∈ notifier_subscribe id h n ∧
    notifier_subscribed id (notifier_subscribe id h n) = true := by
  simp [notifier_subscribe, notifier_subscribed]

theorem registration_stays_core (K : Consts) (C : Codes) (c : Cmd R O) (out : Option O) :
    registration_stays c.id c.stat_cb
      (fun A cb (s : Sys Engine P) => impl_core K (engine K C A) c out cb s) := by
  intro A cb s hcb hp hr ha hs
  obtain ⟨h1, h2, -⟩ := engine_async_ok K C A c out cb s hcb hp hr ha hs
  refine ⟨h1, ?_, ?_, ?_⟩
  · show (impl_core K (engine K C A) c out cb s).sys.world.registry c.id = some cb
    rw [h2]; simp
  · show (c.id, c.stat_cb) ∈ (impl_core K (engine K C A) c out cb s).sys.world.notifier
    rw [h2]; exact (notifier_subscribe_mem _ _ _).1
  · show notifier_subscribed c.id (impl_core K (engine K C A) c out cb s).sys.world.notifier
      = true
    rw [h2]; exact (notifier_subscribe_mem _ _ _).2

theorem sync_leaves_engine_core (K : Consts) (C : Codes) (c : Cmd R O) :
    sync_leaves_engine
      (fun A out (s : Sys Engine P) => impl_core K (engine K C A) c out NULL s) := by
  intro A out s
  obtain ⟨w, tr⟩ := s
  show (impl_core K (engine K C A) c out NULL ⟨w, tr⟩).sys.world = w
  apply impl_core_cases K (engine K C A) c out NULL w tr (motive := fun o => o.sys.world = w)
  · intro _; rfl
  · intro _ _; rfl
  · intro h _ _; exact absurd rfl h
  · intro _ _ _ _; rfl
  · intro _ _; rfl
  · intro _ _ h; exact absurd rfl h
  · intro _ _ _ _; rfl
  · intro _ _ _ _; rfl


/-- C13: for each of the three implementations, the asynchronous mode is
selected exactly when the callback argument is non-null, also when an output
pointer is supplied with it: with a null callback the registration is never
called, with a non-null callback it is called as soon as the power check has
passed.  In that mode, when the power check, the registration, the allocation
and the send succeed, the call returns exactly 0 (also when `apicmdgw_send`
returned a positive value), passes a null response buffer to `apicmdgw_send`,
invokes no user callback, writes nothing through the output pointer and calls
no teardown; on the Registry and Notifier of the spec the registration and the
subscription are in place after the call. -/
theorem C13_async_mode (K : Consts) (C : Codes)
    (E1 : Collab σ apicmd_cmddat_getltimeres_s P)
    (E2 : Collab σ apicmd_cmddat_getpinsetres_s P)
    (E3 : Collab σ (apicmd_cmddat_getqualityres_s Qraw) P)
    (set_quality : Q → Qraw → Q) (localtime : Option lte_localtime_t)
    (pinset : Option lte_getpin_t) (quality : Option Q) (callback : Nat) (w : σ) :
    (async_mode K E2 (getpinset_cmd K) pinset callback w
        (lte_getpinset_impl K E2 pinset callback (start w)) ∧
      async_mode K E1 (getltime_cmd K) localtime callback w
        (lte_getlocaltime_impl K E1 localtime callback (start w)) ∧
      async_mode K E3 (getquality_cmd K set_quality) quality callback w
        (lte_getquality_impl K E3 set_quality quality callback (start w))) ∧
    (registration_stays K.APICMDID_GET_PINSET StatChgCb.getpinset_status_chg_cb
        (fun A cb (s : Sys Engine P) => lte_getpinset_impl K (engine K C A) pinset cb s) ∧
      registration_stays K.APICMDID_GET_LTIME StatChgCb.getltime_status_chg_cb
        (fun A cb (s : Sys Engine P) => lte_getlocaltime_impl K (engine K C A) localtime cb s) ∧
      registration_stays K.APICMDID_GET_QUALITY StatChgCb.getquality_status_chg_cb
        (fun A cb (s : Sys Engine P) =>
          lte_getquality_impl K (engine K C A) set_quality quality cb s)) := by
  rw [lte_getlocaltime_impl_eq, lte_getpinset_impl_eq, lte_getquality_impl_eq]
  exact ⟨⟨async_mode_core K E2 _ pinset callback w,
      async_mode_core K E1 _ localtime callback w,
      async_mode_core K E3 _ quality callback w⟩,
    registration_stays_core K C (getpinset_cmd K) pinset,
    registration_stays_core K C (getltime_cmd K) localtime,
    registration_stays_core K C (getquality_cmd K set_quality) quality⟩

/-- Witness of C13: on the idle engine, with a gateway that returns the
positive value 11, `lte_getpinset_impl` called with an output pointer and the
callback 7 returns 0, leaves the output as it was, makes exactly the calls
power check, registration, allocation, send with a null response buffer, free,
and leaves the callback 7 registered for command 12. -/
theorem C13_async_mode_witness :
    lte_getpinset_impl sample_consts
        (engine sample_consts sample_codes (answering 11 7 ⟨0, 1, 2, 3, 4, 5, 6⟩))
        (some ⟨9, 9, 9, 9, 9, 9⟩) 7 (start idle : Sys Engine Nat)
      = ⟨0, some ⟨9, 9, 9, 9, 9, 9⟩,
        ⟨⟨fun k => if k = 12 then some 7 else none,
            [(12, StatChgCb.getpinset_status_chg_cb)]⟩,
          [Event.check_poweron_status 0,
            Event.setup_apicallback 12 7 StatChgCb.getpinset_status_chg_cb 0,
            Event.cmd_allocbuff 12 0 4096, Event.send 4096 false 7 (-1) 11,
            Event.free_cmd 4096]⟩⟩ ∧
    (lte_getpinset_impl sample_consts
        (engine sample_consts sample_codes (answering 11 7 ⟨0, 1, 2, 3, 4, 5, 6⟩))
        (some ⟨9, 9, 9, 9, 9, 9⟩) 7 (start idle : Sys Engine Nat)).sys.world.registry 12
      = some 7 :=
  ⟨(((C13_async_mode sample_consts sample_codes
      (engine sample_consts sample_codes (answering 11 11 sample_response))
      (engine sample_consts sample_codes (answering 11 7 ⟨0, 1, 2, 3, 4, 5, 6⟩))
      (engine sample_consts sample_codes (answering 11 10 ⟨0, 77⟩))
      (fun (q r : Nat) => q + r) none (some ⟨9, 9, 9, 9, 9, 9⟩) none 7 idle).1.1.2.2
      (by decide) (by decide)).2 (by decide) (by decide) (by decide)).trans rfl,
    ((C13_async_mode sample_consts sample_codes
      (engine sample_consts sample_codes (answering 11 11 sample_response))
      (engine sample_consts sample_codes (answering 11 7 ⟨0, 1, 2, 3, 4, 5, 6⟩))
      (engine sample_consts sample_codes (answering 11 10 ⟨0, 77⟩))
      (fun (q r : Nat) => q + r) none (some ⟨9, 9, 9, 9, 9, 9⟩) none 7 idle).2.1
      (answering 11 7 ⟨0, 1, 2, 3, 4, 5, 6⟩) 7 (start idle) (by decide) (by decide) rfl
      (by decide) (by decide)).2.1⟩

/-- C15: a synchronous call (null callback) of each of the three
implementations calls neither `altcombs_setup_apicallback` nor
`altcombs_teardown_apicallback`, on any path and whatever the collaborators
answer; on the Registry and Notifier of the spec it therefore leaves the
engine as it is, also when an asynchronous operation of the same command is
pending. -/
theorem C15_sync_leaves_registry (K : Consts) (C : Codes)
    (E1 : Collab σ apicmd_cmddat_getltimeres_s P)
    (E2 : Collab σ apicmd_cmddat_getpinsetres_s P)
    (E3 : Collab σ (apicmd_cmddat_getqualityres_s Qraw) P)
    (set_quality : Q → Qraw → Q) (localtime : Option lte_localtime_t)
    (pinset : Option lte_getpin_t) (quality : Option Q) (w : σ) :
    (registry_calls (lte_get_localtime_sync K E1 localtime (start w)).sys.trace = [] ∧
      registry_calls (lte_get_pinset_sync K E2 pinset (start w)).sys.trace = [] ∧
      registry_calls (lte_get_quality_sync K E3 set_quality quality (start w)).sys.trace
        = []) ∧
    (sync_leaves_engine
        (fun A out (s : Sys Engine P) => lte_get_localtime_sync K (engine K C A) out s) ∧
      sync_leaves_engine
        (fun A out (s : Sys Engine P) => lte_get_pinset_sync K (engine K C A) out s) ∧
      sync_leaves_engine
        (fun A (out : Option Q) (s : Sys Engine P) =>
          lte_get_quality_sync K (engine K C A) set_quality out s)) := by
  unfold lte_get_localtime_sync lte_get_pinset_sync lte_get_quality_sync
  rw [lte_getlocaltime_impl_eq, lte_getpinset_impl_eq, lte_getquality_impl_eq]
  exact ⟨⟨(impl_core_quiet K E1 _ localtime NULL w).2 rfl,
      (impl_core_quiet K E2 _ pinset NULL w).2 rfl,
      (impl_core_quiet K E3 _ quality NULL w).2 rfl⟩,
    sync_leaves_engine_core K C (getltime_cmd K),
    sync_leaves_engine_core K C (getpinset_cmd K),
    sync_leaves_engine_core K C (getquality_cmd K set_quality)⟩

/-- Witness of C15: while `lte_get_localtime(7)` is pending, a synchronous
`lte_get_localtime_sync` that succeeds leaves the engine as it was, with the
callback 7 still registered for command 11; and a synchronous call whose send
fails with -5 does the same. -/
theorem C15_sync_leaves_registry_witness :
    ((lte_get_localtime_sync sample_consts sample_engine (some ⟨1, 2, 3, 4, 5, 6, 7⟩)
        sample_pending).ret = 0 ∧
      (lte_get_localtime_sync sample_consts sample_engine (some ⟨1, 2, 3, 4, 5, 6, 7⟩)
        sample_pending).sys.world = sample_pending.world ∧
      sample_pending.world.registry 11 = some 7) ∧
    (lte_get_localtime_sync sample_consts
        (engine sample_consts sample_codes (answering (-5) 0 sample_response))
        (some ⟨1, 2, 3, 4, 5, 6, 7⟩) sample_pending).sys.world = sample_pending.world :=
  ⟨⟨by decide,
      (C15_sync_leaves_registry sample_consts sample_codes sample_engine
        (engine sample_consts sample_codes (answering 0 7 ⟨0, 1, 2, 3, 4, 5, 6⟩))
        (engine sample_consts sample_codes (answering 0 10 ⟨0, 77⟩))
        (fun (q r : Nat) => q + r) none none none idle).2.1
        (answering 0 0 sample_response) (some ⟨1, 2, 3, 4, 5, 6, 7⟩) sample_pending,
      by decide⟩,
    (C15_sync_leaves_registry sample_consts sample_codes sample_engine
        (engine sample_consts sample_codes (answering 0 7 ⟨0, 1, 2, 3, 4, 5, 6⟩))
        (engine sample_consts sample_codes (answering 0 10 ⟨0, 77⟩))
        (fun (q r : Nat) => q + r) none none none idle).2.1
        (answering (-5) 0 sample_response) (some ⟨1, 2, 3, 4, 5, 6, 7⟩) sample_pending⟩


/-- The synchronous path on which the send fails. -/
theorem impl_core_sync_send_failed (K : Consts) (E : Collab σ R P) (c : Cmd R O)
    (out : Option O) (w : σ) (tr : List (Event P)) (h0 : out.isSome)
    (h1 : 0 ≤ power_check E w) (h3 : allocation E c NULL w ≠ NULL)
    (h4 : (transmission K E c NULL w).ret < 0) :
    impl_core K E c out NULL ⟨w, tr⟩ =
      ⟨(transmission K E c NULL w).ret, out,
        ⟨after_free K E c NULL w,
          tr ++ [Event.check_poweron_status (power_check E w),
            Event.cmd_allocbuff c.id REQ_DATA_LEN (allocation E c NULL w),
            Event.send (allocation E c NULL w) true c.resbufflen K.SYS_TIMEO_FEVR
              (transmission K E c NULL w).ret,
            Event.free_cmd (allocation E c NULL w)]⟩⟩ := by
  have hn : ¬ (out.isNone ∧ NULL = NULL) := by
    intro h
    cases out with
    | none => simp at h0
    | some v => simp at h
  rw [impl_core_spec, if_neg hn, if_neg (not_lt.mpr h1), if_neg (fun h => h.1 rfl),
    if_neg h3, if_pos h4]
  simp [errout_world, errout_events, entry_events, send_events]

theorem with_send_answers (K : Consts) (f : SendRes R → SendRes R) (E : Collab σ R P)
    (c : Cmd R O) (cb : Nat) (w : σ) :
    power_check (with_send f E) w = power_check E w ∧
    registration (with_send f E) c cb w = registration E c cb w ∧
    allocation (with_send f E) c cb w = allocation E c cb w ∧
    transmission K (with_send f E) c cb w = f (transmission K E c cb w) ∧
    after_free K (with_send f E) c cb w = after_free K E c cb w :=
  ⟨rfl, rfl, rfl, rfl, rfl⟩

theorem sync_transport_failure_core (K : Consts) (c : Cmd R O) :
    sync_transport_failure K c (fun (E : Collab σ R P) => impl_core K E c) := by
  intro E v w h1 h3 h4
  have hE := impl_core_sync_send_failed K E c (some v) w [] rfl h1 h3 h4
  refine ⟨?_, ?_, ?_, ?_⟩
  · show (impl_core K E c (some v) NULL (start w)).ret = _
    rw [start, hE]
  · show (impl_core K E c (some v) NULL (start w)).out = _
    rw [start, hE]
  · intro hne
    show (impl_core K E c (some v) NULL (start w)).ret ≠ _
    rw [start, hE]
    exact hne
  · intro f hf
    obtain ⟨e1, -, e3, e4, e5⟩ := with_send_answers K f E c NULL w
    have h4f : (transmission K (with_send f E) c NULL w).ret < 0 := by
      rw [e4, hf]; exact h4
    show impl_core K (with_send f E) c (some v) NULL (start w)
      = impl_core K E c (some v) NULL (start w)
    rw [start, hE, impl_core_sync_send_failed K (with_send f E) c (some v) w [] rfl
      (by rw [e1]; exact h1) (by rw [e3]; exact h3) h4f]
    rw [e1, e3, e4, e5, hf]

theorem sync_outcome_from_buffer_core (K : Consts) (c : Cmd R O) :
    sync_outcome_from_buffer K c (fun (E : Collab σ R P) => impl_core K E c) := by
  have key : ∀ (E : Collab σ R P) (v : O) (w : σ),
      0 ≤ power_check E w → allocation E c NULL w ≠ NULL →
      0 ≤ (transmission K E c NULL w).ret →
      (impl_core K E c (some v) NULL (start w)).ret
        = (if K.LTE_RESULT_OK = (c.result (transmission K E c NULL w).resbuff : Int) then 0
          else -EPROTO) ∧
      (impl_core K E c (some v) NULL (start w)).out
        = (if K.LTE_RESULT_OK = (c.result (transmission K E c NULL w).resbuff : Int) then
            some (c.parse (transmission K E c NULL w).resbuff v)
          else some v) := by
    intro E v w h1 h3 h4
    by_cases h6 : K.LTE_RESULT_OK = (c.result (transmission K E c NULL w).resbuff : Int)
    · rw [if_pos h6, if_pos h6]
      exact impl_core_sync_ok K E c v (start w) h1 h3 h4 h6.symm
    · rw [if_neg h6, if_neg h6]
      exact impl_core_sync_remote_failure K E c v (start w) h1 h3 h4 (fun h => h6 h.symm)
  intro E v w h1 h3 h4
  refine ⟨(key E v w h1 h3 h4).1, (key E v w h1 h3 h4).2, ?_⟩
  intro f hbuf hret
  obtain ⟨e1, -, e3, e4, -⟩ := with_send_answers K f E c NULL w
  have hk := key (with_send f E) v w (by rw [e1]; exact h1) (by rw [e3]; exact h3)
    (by rw [e4]; exact hret _ h4)
  rw [e4, hbuf] at hk
  exact ⟨hk.1.trans (key E v w h1 h3 h4).1.symm, hk.2.trans (key E v w h1 h3 h4).2.symm⟩


/-- C16: in each of the three completion jobs, when the take returned 0 with a
non-null handler, the one callback invocation has as first argument the result
field of the inbound frame converted to `int32_t`, whatever its value (a
failure code reaches the callback as it is, through the same invocation as a
success, neither mapped to `-EPROTO` nor suppressed), and as second argument
the payload that the parser of the command produces from the same frame,
whatever the result code. -/
theorem C16_callback_arguments (K : Consts)
    (E1 : Collab σ apicmd_cmddat_getltimeres_s lte_localtime_t)
    (E2 : Collab σ apicmd_cmddat_getpinsetres_s lte_getpin_t)
    (E3 : Collab σ (apicmd_cmddat_getqualityres_s Qraw) Q)
    (set_quality : Q → Qraw → Q) (arg : Nat) (w : σ)
    (d1 : apicmd_cmddat_getltimeres_s) (ltime : lte_localtime_t)
    (d2 : apicmd_cmddat_getpinsetres_s) (pinset : lte_getpin_t)
    (d3 : apicmd_cmddat_getqualityres_s Qraw) (getquality : Q) :
    ((E3.altcomcallbacks_get_unreg_cb K.APICMDID_GET_QUALITY w).1.1 = 0 →
      (E3.altcomcallbacks_get_unreg_cb K.APICMDID_GET_QUALITY w).1.2 ≠ NULL →
      callbacks (getquality_job K E3 set_quality arg d3 getquality (start w)).trace
        = [((E3.altcomcallbacks_get_unreg_cb K.APICMDID_GET_QUALITY w).1.2,
            (d3.result : Int), set_quality getquality d3.quality)]) ∧
    ((E2.altcomcallbacks_get_unreg_cb K.APICMDID_GET_PINSET w).1.1 = 0 →
      (E2.altcomcallbacks_get_unreg_cb K.APICMDID_GET_PINSET w).1.2 ≠ NULL →
      callbacks (getpinset_job K E2 arg d2 pinset (start w)).trace
        = [((E2.altcomcallbacks_get_unreg_cb K.APICMDID_GET_PINSET w).1.2,
            (d2.result : Int), getpinset_parse_response d2 pinset)]) ∧
    ((E1.altcomcallbacks_get_unreg_cb K.APICMDID_GET_LTIME w).1.1 = 0 →
      (E1.altcomcallbacks_get_unreg_cb K.APICMDID_GET_LTIME w).1.2 ≠ NULL →
      callbacks (getltime_job K E1 arg d1 ltime (start w)).trace
        = [((E1.altcomcallbacks_get_unreg_cb K.APICMDID_GET_LTIME w).1.2,
            (d1.result : Int), getltime_parse_response K d1 ltime)]) := by
  rw [getltime_job_eq, getpinset_job_eq, getquality_job_eq]
  simp only [start, job_core_spec, List.nil_append]
  refine ⟨?_, ?_, ?_⟩
  · intro h1 h2
    have h : (E3.altcomcallbacks_get_unreg_cb (getquality_cmd K set_quality).id w).1.1 = 0 ∧
        (E3.altcomcallbacks_get_unreg_cb (getquality_cmd K set_quality).id w).1.2 ≠ NULL :=
      ⟨h1, h2⟩
    rw [if_pos h]
    rfl
  · intro h1 h2
    have h : (E2.altcomcallbacks_get_unreg_cb (getpinset_cmd K).id w).1.1 = 0 ∧
        (E2.altcomcallbacks_get_unreg_cb (getpinset_cmd K).id w).1.2 ≠ NULL := ⟨h1, h2⟩
    rw [if_pos h]
    rfl
  · intro h1 h2
    have h : (E1.altcomcallbacks_get_unreg_cb (getltime_cmd K).id w).1.1 = 0 ∧
        (E1.altcomcallbacks_get_unreg_cb (getltime_cmd K).id w).1.2 ≠ NULL := ⟨h1, h2⟩
    rw [if_pos h]
    rfl

/-- Witness of C16: on a pending get-quality operation with handler 7, a frame
with the failure code 1 and a frame with the success code 0 both give one
invocation of the handler, with 1 and with 0 as first argument and with the
payload parsed from the frame as second argument. -/
theorem C16_callback_arguments_witness :
    callbacks (getquality_job sample_consts
      (engine sample_consts sample_codes (answering 0 0 ⟨0, 77⟩))
      (fun (q r : Nat) => q + r) 4097 ⟨1, 77⟩ 5
      (start ⟨fun k => if k = 13 then some 7 else none, []⟩)).trace = [(7, 1, 82)] ∧
    callbacks (getquality_job sample_consts
      (engine sample_consts sample_codes (answering 0 0 ⟨0, 77⟩))
      (fun (q r : Nat) => q + r) 4097 ⟨0, 77⟩ 5
      (start ⟨fun k => if k = 13 then some 7 else none, []⟩)).trace = [(7, 0, 82)] :=
  ⟨(C16_callback_arguments sample_consts sample_engine
      (engine sample_consts sample_codes (answering 0 0 ⟨0, 1, 2, 3, 4, 5, 6⟩))
      (engine sample_consts sample_codes (answering 0 0 ⟨0, 77⟩))
      (fun (q r : Nat) => q + r) 4097 ⟨fun k => if k = 13 then some 7 else none, []⟩
      sample_response ⟨0, 0, 0, 0, 0, 0, 0⟩ ⟨0, 1, 2, 3, 4, 5, 6⟩ ⟨0, 0, 0, 0, 0, 0⟩
      ⟨1, 77⟩ 5).1 (by decide) (by decide),
    (C16_callback_arguments sample_consts sample_engine
      (engine sample_consts sample_codes (answering 0 0 ⟨0, 1, 2, 3, 4, 5, 6⟩))
      (engine sample_consts sample_codes (answering 0 0 ⟨0, 77⟩))
      (fun (q r : Nat) => q + r) 4097 ⟨fun k => if k = 13 then some 7 else none, []⟩
      sample_response ⟨0, 0, 0, 0, 0, 0, 0⟩ ⟨0, 1, 2, 3, 4, 5, 6⟩ ⟨0, 0, 0, 0, 0, 0⟩
      ⟨0, 77⟩ 5).1 (by decide) (by decide)⟩

/-- C18: a synchronous call of each of the three implementations whose send
fails (the gateway reports a timeout or a transport failure by a negative
value) returns the negative value of `apicmdgw_send` unchanged, which is not
the `-EPROTO` of a remote failure unless the gateway itself returned that
value; the received length and the result field of the response buffer are
not consulted, and the output is left as it was. -/
theorem C18_sync_transport_failure (K : Consts) (set_quality : Q → Qraw → Q) :
    sync_transport_failure K (getltime_cmd K)
      (fun (E : Collab σ apicmd_cmddat_getltimeres_s P) => lte_getlocaltime_impl K E) ∧
    sync_transport_failure K (getquality_cmd K set_quality)
      (fun (E : Collab σ (apicmd_cmddat_getqualityres_s Qraw) P) =>
        lte_getquality_impl K E set_quality) ∧
    sync_transport_failure K (getpinset_cmd K)
      (fun (E : Collab σ apicmd_cmddat_getpinsetres_s P) => lte_getpinset_impl K E) :=
  ⟨sync_transport_failure_core K (getltime_cmd K),
    sync_transport_failure_core K (getquality_cmd K set_quality),
    sync_transport_failure_core K (getpinset_cmd K)⟩

/-- Witness of C18: with a gateway that times out with -110,
`lte_getlocaltime_impl` called synchronously returns -110, which is not
`-EPROTO`, and leaves the output as it was, also when the response buffer
holds a result field other than `LTE_RESULT_OK`. -/
theorem C18_sync_transport_failure_witness :
    (lte_getlocaltime_impl sample_consts
      (engine sample_consts sample_codes (answering (-110) 0 ⟨1, sample_ltime⟩))
      (some ⟨1, 2, 3, 4, 5, 6, 7⟩) NULL (start idle : Sys Engine Nat)).ret = -110 ∧
    (lte_getlocaltime_impl sample_consts
      (engine sample_consts sample_codes (answering (-110) 0 ⟨1, sample_ltime⟩))
      (some ⟨1, 2, 3, 4, 5, 6, 7⟩) NULL (start idle : Sys Engine Nat)).out
      = some ⟨1, 2, 3, 4, 5, 6, 7⟩ ∧
    (lte_getlocaltime_impl sample_consts
      (engine sample_consts sample_codes (answering (-110) 0 ⟨1, sample_ltime⟩))
      (some ⟨1, 2, 3, 4, 5, 6, 7⟩) NULL (start idle : Sys Engine Nat)).ret ≠ -EPROTO :=
  match (C18_sync_transport_failure sample_consts (fun (q r : Nat) => q + r)).1
      (engine sample_consts sample_codes (answering (-110) 0 ⟨1, sample_ltime⟩))
      ⟨1, 2, 3, 4, 5, 6, 7⟩ idle (by decide) (by decide) (by decide) with
  | ⟨hret, hout, hne, _⟩ => ⟨hret, hout, hne (by decide)⟩

/-- C20: in synchronous mode, once `apicmdgw_send` has returned a non-negative
value, the return value and the output of each of the three implementations
are given by the contents of the local response buffer alone: 0 and the parsed
buffer when its result field is `LTE_RESULT_OK`, `-EPROTO` and the old output
otherwise.  Two runs that differ only in the received length that send reports
(0 or less than the response structure included) or in the non-negative value
that send returns give the same return value and the same output: the call
does not check that a complete response was received. -/
theorem C20_sync_outcome_from_buffer (K : Consts) (set_quality : Q → Qraw → Q) :
    sync_outcome_from_buffer K (getltime_cmd K)
      (fun (E : Collab σ apicmd_cmddat_getltimeres_s P) => lte_getlocaltime_impl K E) ∧
    sync_outcome_from_buffer K (getpinset_cmd K)
      (fun (E : Collab σ apicmd_cmddat_getpinsetres_s P) => lte_getpinset_impl K E) ∧
    sync_outcome_from_buffer K (getquality_cmd K set_quality)
      (fun (E : Collab σ (apicmd_cmddat_getqualityres_s Qraw) P) =>
        lte_getquality_impl K E set_quality) :=
  ⟨sync_outcome_from_buffer_core K (getltime_cmd K),
    sync_outcome_from_buffer_core K (getpinset_cmd K),
    sync_outcome_from_buffer_core K (getquality_cmd K set_quality)⟩

/-- Witness of C20: with a gateway that returns 0 and reports a received length
of 0 while the response buffer holds the result code 0 and the sample time,
the synchronous `lte_getlocaltime_impl` returns 0 and writes the parsed time;
with a gateway that returns 11 and reports the length 11 for the same buffer
the return value and the output are the same. -/
theorem C20_sync_outcome_from_buffer_witness :
    ((lte_getlocaltime_impl sample_consts
        (engine sample_consts sample_codes (answering 0 0 sample_response))
        (some ⟨1, 2, 3, 4, 5, 6, 7⟩) NULL (start idle : Sys Engine Nat)).ret = 0 ∧
      (lte_getlocaltime_impl sample_consts
        (engine sample_consts sample_codes (answering 0 0 sample_response))
        (some ⟨1, 2, 3, 4, 5, 6, 7⟩) NULL (start idle : Sys Engine Nat)).out
        = some ⟨24, 6, 1, 10, 30, 0, 32400⟩) ∧
    ((lte_getlocaltime_impl sample_consts
        (with_send (fun r => ⟨11, 11, r.resbuff⟩)
          (engine sample_consts sample_codes (answering 0 0 sample_response)))
        (some ⟨1, 2, 3, 4, 5, 6, 7⟩) NULL (start idle : Sys Engine Nat)).ret
        = (lte_getlocaltime_impl sample_consts
          (engine sample_consts sample_codes (answering 0 0 sample_response))
          (some ⟨1, 2, 3, 4, 5, 6, 7⟩) NULL (start idle : Sys Engine Nat)).ret ∧
      (lte_getlocaltime_impl sample_consts
        (with_send (fun r => ⟨11, 11, r.resbuff⟩)
          (engine sample_consts sample_codes (answering 0 0 sample_response)))
        (some ⟨1, 2, 3, 4, 5, 6, 7⟩) NULL (start idle : Sys Engine Nat)).out
        = (lte_getlocaltime_impl sample_consts
          (engine sample_consts sample_codes (answering 0 0 sample_response))
          (some ⟨1, 2, 3, 4, 5, 6, 7⟩) NULL (start idle : Sys Engine Nat)).out) :=
  match (C20_sync_outcome_from_buffer sample_consts (fun (q r : Nat) => q + r)).1
      (engine sample_consts sample_codes (answering 0 0 sample_response))
      ⟨1, 2, 3, 4, 5, 6, 7⟩ idle (by decide) (by decide) (by decide) with
  | ⟨hret, hout, hf⟩ =>
    ⟨⟨hret.trans (by decide), hout.trans (by decide)⟩,
      hf (fun r => ⟨11, 11, r.resbuff⟩) (fun _ => rfl) (fun _ _ => show (0 : Int) ≤ 11 by decide)⟩


theorem dispatches_core (resid : Nat) (job : JobFn) :
    dispatches resid job (fun T do_runjob evt (evlen : Nat) t => do_runjob evt resid job t) := by
  refine ⟨fun _ _ _ _ _ => rfl, fun malformed evt evlen queue => ⟨?_, ?_, ?_⟩⟩
  · intro hm hid
    simp [apicmdhdlrbs_do_runjob, hm, hid]
  · intro hm hid
    simp [apicmdhdlrbs_do_runjob, hm, hid]
  · intro hm
    simp [apicmdhdlrbs_do_runjob, hm]

/-- C17, counterexample: the frame at 4097 with the response identifier of get
local time, handed to `apicmdhdlr_getltime` with the length 0, too short to
hold the response structure of 11 bytes, yields `EVTHDLRC_STARTHANDLE` and
schedules the completion job, not `EVTHDLRC_INTERNALERROR`.  And no
`apicmdhdlrbs_do_runjob` whatever makes the handler yield
`EVTHDLRC_STARTHANDLE` for a frame with a sufficient length and
`EVTHDLRC_INTERNALERROR` for the same frame with the length 0. -/
theorem C17_short_frame_counterexample :
    apicmdhdlr_getltime sample_consts sample_convert_res
        (apicmdhdlrbs_do_runjob (fun _ => false)) ⟨4097, 32779⟩ 0 []
      = (evthdlrc_e.EVTHDLRC_STARTHANDLE, [(JobFn.getltime_job, ⟨4097, 32779⟩)]) ∧
    ¬ ∃ (T : Type) (do_runjob : Frame → Nat → JobFn → T → evthdlrc_e × T) (t : T),
      (apicmdhdlr_getltime sample_consts sample_convert_res do_runjob ⟨4097, 32779⟩ 11 t).1
        = evthdlrc_e.EVTHDLRC_STARTHANDLE ∧
      (apicmdhdlr_getltime sample_consts sample_convert_res do_runjob ⟨4097, 32779⟩ 0 t).1
        = evthdlrc_e.EVTHDLRC_INTERNALERROR := by
  refine ⟨by decide, ?_⟩
  rintro ⟨T, do_runjob, t, h1, h2⟩
  simp only [apicmdhdlr_getltime] at h1 h2
  rw [h1] at h2
  exact absurd h2 (by decide)

/-- C17, amended: the result of each of the three response handlers is the
result of `apicmdhdlrbs_do_runjob` for the frame, the response identifier
derived from the request identifier of the command and the completion job of
the command; the length `evlen` is not consulted.  With the dispatcher of the
spec, a frame with that response identifier yields `EVTHDLRC_STARTHANDLE` and
schedules the completion job of the command with the frame, a frame with any
other identifier yields `EVTHDLRC_UNSUPPORTEDEVENT` and schedules nothing, and
`EVTHDLRC_INTERNALERROR` is yielded for the frames the dispatcher judges
malformed, whatever `evlen` is. -/
theorem C17_response_handlers (K : Consts) (APICMDID_CONVERT_RES : Nat → Nat) :
    dispatches (APICMDID_CONVERT_RES K.APICMDID_GET_LTIME) JobFn.getltime_job
      (fun T do_runjob => apicmdhdlr_getltime (T := T) K APICMDID_CONVERT_RES do_runjob) ∧
    dispatches (APICMDID_CONVERT_RES K.APICMDID_GET_PINSET) JobFn.getpinset_job
      (fun T do_runjob => apicmdhdlr_getpinset (T := T) K APICMDID_CONVERT_RES do_runjob) ∧
    dispatches (APICMDID_CONVERT_RES K.APICMDID_GET_QUALITY) JobFn.getquality_job
      (fun T do_runjob => apicmdhdlr_getquality (T := T) K APICMDID_CONVERT_RES do_runjob) :=
  ⟨dispatches_core _ _, dispatches_core _ _, dispatches_core _ _⟩

/-- Witness of C17 as amended: with the dispatcher of the spec, the frame at
4097 with the response identifier 32779 of get local time is scheduled for
`getltime_job` with the length 11 and with the length 0 alike, and a frame with
the identifier 32780 is unsupported by `apicmdhdlr_getltime`. -/
theorem C17_response_handlers_witness :
    apicmdhdlr_getltime sample_consts sample_convert_res
        (apicmdhdlrbs_do_runjob (fun e => e.addr == 0)) ⟨4097, 32779⟩ 11 []
      = (evthdlrc_e.EVTHDLRC_STARTHANDLE, [(JobFn.getltime_job, ⟨4097, 32779⟩)]) ∧
    apicmdhdlr_getltime sample_consts sample_convert_res
        (apicmdhdlrbs_do_runjob (fun e => e.addr == 0)) ⟨4097, 32779⟩ 0 []
      = (evthdlrc_e.EVTHDLRC_STARTHANDLE, [(JobFn.getltime_job, ⟨4097, 32779⟩)]) ∧
    apicmdhdlr_getltime sample_consts sample_convert_res
        (apicmdhdlrbs_do_runjob (fun e => e.addr == 0)) ⟨4097, 32780⟩ 11 []
      = (evthdlrc_e.EVTHDLRC_UNSUPPORTEDEVENT, []) :=
  ⟨((C17_response_handlers sample_consts sample_convert_res).1.2
      (fun e => e.addr == 0) ⟨4097, 32779⟩ 11 []).1 (by decide) (by decide),
    ((C17_response_handlers sample_consts sample_convert_res).1.2
      (fun e => e.addr == 0) ⟨4097, 32779⟩ 0 []).1 (by decide) (by decide),
    ((C17_response_handlers sample_consts sample_convert_res).1.2
      (fun e => e.addr == 0) ⟨4097, 32780⟩ 11 []).2.1 (by decide) (by decide)⟩


/-- On the engine, what the handler behind a function pointer does. -/
theorem status_chg_cb_of_engine (K : Consts) (C : Codes) (A : Oracle R) (h : StatChgCb)
    (new_stat old_stat : Int) (s : Sys Engine P) :
    (new_stat < K.ALTCOM_STATUS_POWER_ON →
      status_chg_cb_of K (engine K C A : Collab Engine R P) h new_stat old_stat s
        = (K.ALTCOM_STATUS_REG_CLR,
          ⟨⟨registry_unregister (stat_cb_id K h) s.world.registry, s.world.notifier⟩,
            s.trace ++ [Event.unreg_cb (stat_cb_id K h)]⟩)) ∧
    (K.ALTCOM_STATUS_POWER_ON ≤ new_stat →
      status_chg_cb_of K (engine K C A : Collab Engine R P) h new_stat old_stat s
        = (K.ALTCOM_STATUS_REG_KEEP, s)) := by
  refine ⟨fun hn => ?_, fun hn => ?_⟩
  · cases h <;>
      simp [status_chg_cb_of, getltime_status_chg_cb, getpinset_status_chg_cb,
        getquality_status_chg_cb, hn, altcomcallbacks_unreg_cb, engine, stat_cb_id]
  · cases h <;>
      simp [status_chg_cb_of, getltime_status_chg_cb, getpinset_status_chg_cb,
        getquality_status_chg_cb, not_lt.mpr hn]

/-- A publish pass below the threshold: the subscribers of the pass are gone
from the Notifier, nothing is added to it, the entries of their commands are
gone from the Registry, and an entry that was absent stays absent. -/
theorem publish_pass_below (K : Consts) (C : Codes) (A : Oracle R) (new_stat old_stat : Int)
    (hn : new_stat < K.ALTCOM_STATUS_POWER_ON) (subs : List (Nat × StatChgCb)) :
    ∀ s : Sys Engine P,
      (∀ e ∈ (publish_pass K (engine K C A : Collab Engine R P) new_stat old_stat subs
          s).world.notifier, e ∈ s.world.notifier ∧ e ∉ subs) ∧
      (∀ k, s.world.registry k = none →
        (publish_pass K (engine K C A : Collab Engine R P) new_stat old_stat subs
          s).world.registry k = none) ∧
      (∀ sub ∈ subs,
        (publish_pass K (engine K C A : Collab Engine R P) new_stat old_stat subs
          s).world.registry (stat_cb_id K sub.2) = none) := by
  induction subs with
  | nil =>
    intro s
    exact ⟨fun e he => ⟨he, by simp⟩, fun _ h => h, fun sub hsub => by simp at hsub⟩
  | cons sub rest ih =>
    intro s
    have hE := (status_chg_cb_of_engine (P := P) K C A sub.2 new_stat old_stat s).1 hn
    simp only [publish_pass, hE, if_true]
    obtain ⟨i1, i2, i3⟩ := ih ⟨⟨registry_unregister (stat_cb_id K sub.2) s.world.registry,
      s.world.notifier.filter (fun e => e ≠ sub)⟩,
      s.trace ++ [Event.unreg_cb (stat_cb_id K sub.2)]⟩
    refine ⟨?_, ?_, ?_⟩
    · intro e he
      obtain ⟨h1, h2⟩ := i1 e he
      simp only [List.mem_filter, decide_eq_true_eq] at h1
      refine ⟨h1.1, ?_⟩
      simp only [List.mem_cons, not_or]
      exact ⟨h1.2, h2⟩
    · intro k hk
      apply i2
      simp only [registry_unregister]
      split_ifs
      · rfl
      · exact hk
    · intro x hx
      simp only [List.mem_cons] at hx
      rcases hx with hx | hx
      · subst hx
        apply i2
        simp [registry_unregister]
      · exact i3 x hx

/-- A publish pass at or above the threshold, with distinct verdicts, changes
nothing. -/
theorem publish_pass_above (K : Consts) (C : Codes) (A : Oracle R) (new_stat old_stat : Int)
    (hne : K.ALTCOM_STATUS_REG_CLR ≠ K.ALTCOM_STATUS_REG_KEEP)
    (hn : K.ALTCOM_STATUS_POWER_ON ≤ new_stat) (subs : List (Nat × StatChgCb)) :
    ∀ s : Sys Engine P,
      publish_pass K (engine K C A : Collab Engine R P) new_stat old_stat subs s = s := by
  induction subs with
  | nil => intro s; rfl
  | cons sub rest ih =>
    intro s
    have hE := (status_chg_cb_of_engine (P := P) K C A sub.2 new_stat old_stat s).2 hn
    simp only [publish_pass, hE, if_neg (Ne.symm hne)]
    exact ih s

theorem publish_clears_core (K : Consts) (C : Codes) (A : Oracle R)
    (hne : K.ALTCOM_STATUS_REG_CLR ≠ K.ALTCOM_STATUS_REG_KEEP) :
    publish_clears K (publish K (engine K C A : Collab Engine R P)) := by
  intro new_stat old_stat s
  refine ⟨fun hn stat_cb hp => ?_, fun hn => ?_⟩
  · obtain ⟨p1, -, p3⟩ := publish_pass_below (P := P) K C A new_stat old_stat hn
      s.world.notifier s
    refine ⟨p3 _ hp.2, ?_⟩
    have hnil : (publish K (engine K C A : Collab Engine R P) new_stat old_stat
        s).world.notifier = [] := by
      apply List.eq_nil_iff_forall_not_mem.mpr
      intro e he
      exact (p1 e he).2 (p1 e he).1
    rw [hnil]
    rfl
  · have hsame : publish K (engine K C A : Collab Engine R P) new_stat old_stat s = s :=
      publish_pass_above K C A new_stat old_stat hne hn _ s
    refine ⟨hsame, fun stat_cb hp => ?_⟩
    rw [hsame]
    exact hp


theorem accepted_is_pending (K : Consts) (C : Codes) (c : Cmd R O) (out : Option O)
    (hc : stat_cb_id K c.stat_cb = c.id) (A : Oracle R) (cb : Nat) (s : Sys Engine P)
    (hcb : cb ≠ NULL) (h0 : (impl_core K (engine K C A) c out cb s).ret = 0) :
    pending K (impl_core K (engine K C A) c out cb s).sys.world c.stat_cb := by
  obtain ⟨-, hw, -⟩ := engine_async_accepted K C A c out cb s hcb h0
  unfold pending
  rw [hw, hc]
  exact ⟨by simp, (notifier_subscribe_mem _ _ _).1⟩

/-- C11: with the Status Notifier of the spec (publish calls the handler of
every subscriber and removes those that return CLEAR) and distinct verdicts
`ALTCOM_STATUS_REG_CLR` and `ALTCOM_STATUS_REG_KEEP`: after a publish with a
new status below the powered-on threshold, neither a registry entry nor a
status subscription remains for any of the three commands that had a pending
asynchronous operation at the transition; after a publish with a new status at
or above the threshold the system is unchanged, so every such entry and
subscription is still present.  An accepted asynchronous call of each of the
three commands makes its operation pending. -/
theorem C11_publish_clears_pending (K : Consts) (C : Codes) (A : Oracle R)
    (set_quality : Q → Qraw → Q)
    (hne : K.ALTCOM_STATUS_REG_CLR ≠ K.ALTCOM_STATUS_REG_KEEP) :
    publish_clears K (publish K (engine K C A : Collab Engine R P)) ∧
    (∀ (A1 : Oracle apicmd_cmddat_getpinsetres_s) (cb : Nat) (s : Sys Engine P), cb ≠ NULL →
      (lte_get_pinset K (engine K C A1) cb s).ret = 0 →
      pending K (lte_get_pinset K (engine K C A1) cb s).sys.world
        StatChgCb.getpinset_status_chg_cb) ∧
    (∀ (A1 : Oracle apicmd_cmddat_getltimeres_s) (cb : Nat) (s : Sys Engine P), cb ≠ NULL →
      (lte_get_localtime K (engine K C A1) cb s).ret = 0 →
      pending K (lte_get_localtime K (engine K C A1) cb s).sys.world
        StatChgCb.getltime_status_chg_cb) ∧
    (∀ (A1 : Oracle (apicmd_cmddat_getqualityres_s Qraw)) (cb : Nat) (s : Sys Engine P),
      cb ≠ NULL → (lte_get_quality K (engine K C A1) set_quality cb s).ret = 0 →
      pending K (lte_get_quality K (engine K C A1) set_quality cb s).sys.world
        StatChgCb.getquality_status_chg_cb) :=
  ⟨publish_clears_core K C A hne,
    fun A1 cb s hcb h0 => accepted_is_pending K C (getpinset_cmd K) none rfl A1 cb s hcb h0,
    fun A1 cb s hcb h0 => accepted_is_pending K C (getltime_cmd K) none rfl A1 cb s hcb h0,
    fun A1 cb s hcb h0 =>
      accepted_is_pending K C (getquality_cmd K set_quality) none rfl A1 cb s hcb h0⟩

/-- Witness of C11: with the three operations of `sample_three_pending`
pending, a publish of the status 2, below the threshold 3, leaves no entry and
no subscription for the commands 11, 12 and 13; a publish of the status 3
leaves the system as it was. -/
theorem C11_publish_clears_pending_witness :
    ((publish sample_consts (engine sample_consts sample_codes (answering 0 0 sample_response))
        2 3 sample_three_pending).world.registry 11 = none ∧
      notifier_subscribed 11 (publish sample_consts
        (engine sample_consts sample_codes (answering 0 0 sample_response))
        2 3 sample_three_pending).world.notifier = false) ∧
    ((publish sample_consts (engine sample_consts sample_codes (answering 0 0 sample_response))
        2 3 sample_three_pending).world.registry 12 = none ∧
      notifier_subscribed 12 (publish sample_consts
        (engine sample_consts sample_codes (answering 0 0 sample_response))
        2 3 sample_three_pending).world.notifier = false) ∧
    ((publish sample_consts (engine sample_consts sample_codes (answering 0 0 sample_response))
        2 3 sample_three_pending).world.registry 13 = none ∧
      notifier_subscribed 13 (publish sample_consts
        (engine sample_consts sample_codes (answering 0 0 sample_response))
        2 3 sample_three_pending).world.notifier = false) ∧
    publish sample_consts (engine sample_consts sample_codes (answering 0 0 sample_response))
      3 2 sample_three_pending = sample_three_pending ∧
    sample_three_pending.world.registry 12 = some 8 :=
  ⟨((C11_publish_clears_pending sample_consts sample_codes (answering 0 0 sample_response)
      (fun (q r : Nat) => q + r) (by decide)).1 2 3 sample_three_pending).1 (by decide)
      StatChgCb.getltime_status_chg_cb ⟨by decide, by decide⟩,
    ((C11_publish_clears_pending sample_consts sample_codes (answering 0 0 sample_response)
      (fun (q r : Nat) => q + r) (by decide)).1 2 3 sample_three_pending).1 (by decide)
      StatChgCb.getpinset_status_chg_cb ⟨by decide, by decide⟩,
    ((C11_publish_clears_pending sample_consts sample_codes (answering 0 0 sample_response)
      (fun (q r : Nat) => q + r) (by decide)).1 2 3 sample_three_pending).1 (by decide)
      StatChgCb.getquality_status_chg_cb ⟨by decide, by decide⟩,
    (((C11_publish_clears_pending sample_consts sample_codes (answering 0 0 sample_response)
      (fun (q r : Nat) => q + r) (by decide)).1 3 2 sample_three_pending).2 (by decide)).1,
    by decide⟩


theorem subscribed_unsubscribe (id k : Nat) (n : Notifier) :
    notifier_subscribed k (notifier_unsubscribe id n) = true ↔
      k ≠ id ∧ notifier_subscribed k n = true := by
  simp only [notifier_subscribed, notifier_unsubscribe, List.any_eq_true, List.mem_filter,
    beq_iff_eq, decide_eq_true_eq, ne_eq]
  constructor
  · rintro ⟨e, ⟨he, hne⟩, hk⟩
    exact ⟨fun h => hne (hk.trans h), e, he, hk⟩
  · rintro ⟨hne, e, he, hk⟩
    exact ⟨e, ⟨he, fun h => hne (hk.symm.trans h)⟩, hk⟩

theorem subscribed_subscribe (id k : Nat) (h : StatChgCb) (n : Notifier) :
    notifier_subscribed k (notifier_subscribe id h n) = true →
      k = id ∨ notifier_subscribed k n = true := by
  intro hs
  by_cases hk : k = id
  · exact Or.inl hk
  · right
    have : notifier_subscribed k (notifier_unsubscribe id n) = true := by
      simp only [notifier_subscribed, notifier_subscribe, List.any_cons, Bool.or_eq_true,
        beq_iff_eq] at hs
      rcases hs with hs | hs
      · exact absurd hs.symm hk
      · exact hs
    exact ((subscribed_unsubscribe id k n).mp this).2

/-- I5 is kept by a registration followed by a subscription. -/
theorem I5_register (w : Engine) (id cb : Nat) (h : StatChgCb) (hw : I5 w) :
    I5 ⟨fun k => if k = id then some cb else w.registry k,
      notifier_subscribe id h w.notifier⟩ := by
  intro k hk
  by_cases hki : k = id
  · simp [hki]
  · rcases subscribed_subscribe id k h w.notifier hk with h1 | h1
    · exact absurd h1 hki
    · simpa [hki] using hw k h1

/-- I5 is kept by a teardown. -/
theorem I5_teardown (w : Engine) (id : Nat) (hw : I5 w) :
    I5 ⟨registry_unregister id w.registry, notifier_unsubscribe id w.notifier⟩ := by
  intro k hk
  obtain ⟨hki, h1⟩ := (subscribed_unsubscribe id k w.notifier).mp hk
  simpa [registry_unregister, hki] using hw k h1

/-- I5 is kept by every call of the common implementation on the engine. -/
theorem I5_impl_core (K : Consts) (C : Codes) (A : Oracle R) (c : Cmd R O) (out : Option O)
    (cb : Nat) (w : Engine) (tr : List (Event P)) (hw : I5 w) :
    I5 (impl_core K (engine K C A) c out cb ⟨w, tr⟩).sys.world := by
  have hb : I5 (before_alloc (engine K C A : Collab Engine R P) c cb w) := by
    by_cases hcb : cb = NULL
    · simp only [before_alloc, if_pos hcb]
      exact hw
    · obtain ⟨-, -, e3, -⟩ := engine_answers (P := P) K C A c cb w hcb
      rw [e3]
      split_ifs
      · exact hw
      · exact I5_register w c.id cb c.stat_cb hw
  have hx : I5 (errout_world (engine K C A : Collab Engine R P) c cb
      (before_alloc (engine K C A : Collab Engine R P) c cb w)) := by
    unfold errout_world
    split_ifs
    · exact hb
    · exact I5_teardown _ c.id hb
  apply impl_core_cases K (engine K C A) c out cb w tr (motive := fun o => I5 o.sys.world)
  · intro _; exact hw
  · intro _ _; exact hw
  · intro _ _ _; exact hb
  · intro _ _ _ _; exact hx
  · intro _ _; exact hx
  · intro _ _ _; exact hb
  · intro _ _ _ _; exact hb
  · intro _ _ _ _; exact hb

/-- I5 is kept by the common completion job on the engine. -/
theorem I5_job_core (K : Consts) (C : Codes) (A : Oracle R) (c : Cmd R P)
    (hc : stat_cb_id K c.stat_cb = c.id) (arg : Nat) (data : R) (uninit : P) (w : Engine)
    (tr : List (Event P)) (hw : I5 w) :
    I5 (job_core (engine K C A) c arg data uninit ⟨w, tr⟩).world := by
  rw [job_core_spec]
  intro k hk
  have hk2 : notifier_subscribed k (notifier_unsubscribe c.id w.notifier) = true := by
    simp only [engine, hc] at hk
    split_ifs at hk <;> exact hk
  obtain ⟨hki, h1⟩ := (subscribed_unsubscribe c.id k w.notifier).mp hk2
  have h2 := hw k h1
  simp only [engine, registry_take]
  cases hr : w.registry c.id with
  | none => split_ifs <;> simpa [hr] using h2
  | some x => split_ifs <;> simpa [hr, hki] using h2

/-- A publish pass, whatever the status: the Notifier gets nothing new, and
at or above the threshold the Registry is unchanged. -/
theorem publish_pass_shrinks (K : Consts) (C : Codes) (A : Oracle R) (new_stat old_stat : Int)
    (subs : List (Nat × StatChgCb)) :
    ∀ s : Sys Engine P,
      (∀ e ∈ (publish_pass K (engine K C A : Collab Engine R P) new_stat old_stat subs
          s).world.notifier, e ∈ s.world.notifier) ∧
      (K.ALTCOM_STATUS_POWER_ON ≤ new_stat →
        (publish_pass K (engine K C A : Collab Engine R P) new_stat old_stat subs
          s).world.registry = s.world.registry) := by
  induction subs with
  | nil => intro s; exact ⟨fun _ h => h, fun _ => rfl⟩
  | cons sub rest ih =>
    intro s
    by_cases hn : new_stat < K.ALTCOM_STATUS_POWER_ON
    · have hE := (status_chg_cb_of_engine (P := P) K C A sub.2 new_stat old_stat s).1 hn
      simp only [publish_pass, hE, if_true]
      refine ⟨fun e he => ?_, fun h => absurd hn (not_lt.mpr h)⟩
      have h1 := (ih _).1 e he
      simp only [List.mem_filter] at h1
      exact h1.1
    · have hE := (status_chg_cb_of_engine (P := P) K C A sub.2 new_stat old_stat s).2
        (not_lt.mp hn)
      simp only [publish_pass, hE]
      split_ifs
      · refine ⟨fun e he => ?_, fun h => ?_⟩
        · have h1 := (ih _).1 e he
          simp only [List.mem_filter] at h1
          exact h1.1
        · exact (ih _).2 h
      · exact ih s

/-- I5 is kept by a publish pass on the engine. -/
theorem I5_publish (K : Consts) (C : Codes) (A : Oracle R) (new_stat old_stat : Int)
    (s : Sys Engine P) (hw : I5 s.world) :
    I5 (publish K (engine K C A : Collab Engine R P) new_stat old_stat s).world := by
  by_cases hn : new_stat < K.ALTCOM_STATUS_POWER_ON
  · obtain ⟨p1, -, -⟩ := publish_pass_below (P := P) K C A new_stat old_stat hn
      s.world.notifier s
    have hnil : (publish K (engine K C A : Collab Engine R P) new_stat old_stat
        s).world.notifier = [] := by
      apply List.eq_nil_iff_forall_not_mem.mpr
      intro e he
      exact (p1 e he).2 (p1 e he).1
    intro k hk
    rw [hnil] at hk
    simp [notifier_subscribed] at hk
  · obtain ⟨q1, q2⟩ := publish_pass_shrinks (P := P) K C A new_stat old_stat
      s.world.notifier s
    intro k hk
    have hk2 : notifier_subscribed k s.world.notifier = true := by
      simp only [notifier_subscribed, List.any_eq_true] at hk ⊢
      obtain ⟨e, he, hek⟩ := hk
      exact ⟨e, q1 e he, hek⟩
    show ((publish_pass K (engine K C A : Collab Engine R P) new_stat old_stat
      s.world.notifier s).world.registry k).isSome = true
    rw [q2 (not_lt.mp hn)]
    exact hw k hk2

/-- I5 is kept by every operation. -/
theorem I5_step (K : Consts) (C : Codes) (set_quality : Q → Qraw → Q) (op : Op Qraw Q)
    (w : Engine) (hw : I5 w) : I5 (step K C set_quality op w) := by
  cases op with
  | get_localtime A callback =>
    exact I5_impl_core K C A (getltime_cmd K) none callback w [] hw
  | get_pinset A callback =>
    exact I5_impl_core K C A (getpinset_cmd K) none callback w [] hw
  | get_quality A callback =>
    exact I5_impl_core K C A (getquality_cmd K set_quality) none callback w [] hw
  | localtime_response arg data ltime =>
    exact I5_job_core K C _ (getltime_cmd K) rfl arg data ltime w [] hw
  | pinset_response arg data pinset =>
    exact I5_job_core K C _ (getpinset_cmd K) rfl arg data pinset w [] hw
  | quality_response arg data getquality =>
    exact I5_job_core K C _ (getquality_cmd K set_quality) rfl arg data getquality w [] hw
  | status new_stat old_stat =>
    exact I5_publish K C _ new_stat old_stat (start w) hw


/-- C19, counterexample: with `lte_get_localtime(7)` pending on the engine,
(1) the status-change handler run for the status 2, below the threshold 3,
returns `ALTCOM_STATUS_REG_CLR` in a state in which the Notifier still holds
the subscription of command 11 and the Registry holds no entry for it; and
(2) the completion job invokes the user callback once, in a world in which the
Notifier still holds the subscription of command 11 and the Registry holds no
entry for it.  I5 fails in both states. -/
theorem C19_I5_counterexample :
    ((getltime_status_chg_cb sample_consts sample_engine 2 3 sample_pending).1 = 1 ∧
      notifier_subscribed 11
        (getltime_status_chg_cb sample_consts sample_engine 2 3 sample_pending).2.world.notifier
        = true ∧
      (getltime_status_chg_cb sample_consts sample_engine 2 3 sample_pending).2.world.registry 11
        = none ∧
      ¬ I5 (getltime_status_chg_cb sample_consts sample_engine 2 3 sample_pending).2.world) ∧
    ((getltime_job sample_consts (observing sample_engine) 4097 sample_response
        ⟨0, 0, 0, 0, 0, 0, 0⟩ (start (sample_pending.world, []))).world.2.map
        (fun w => (w.registry 11, notifier_subscribed 11 w.notifier)) = [(none, true)] ∧
      ∀ w ∈ (getltime_job sample_consts (observing sample_engine) 4097 sample_response
        ⟨0, 0, 0, 0, 0, 0, 0⟩ (start (sample_pending.world, []))).world.2, ¬ I5 w) := by
  have h1 : notifier_subscribed 11
      (getltime_status_chg_cb sample_consts sample_engine 2 3 sample_pending).2.world.notifier
      = true := by decide
  have h2 : (getltime_status_chg_cb sample_consts sample_engine 2 3
      sample_pending).2.world.registry 11 = none := by decide
  have h3 : (getltime_job sample_consts (observing sample_engine) 4097 sample_response
      ⟨0, 0, 0, 0, 0, 0, 0⟩ (start (sample_pending.world, []))).world.2
      = [⟨fun k => if k = 11 then none else sample_pending.world.registry k,
        sample_pending.world.notifier⟩] := rfl
  refine ⟨⟨by decide, h1, h2, fun hI => ?_⟩, by decide, ?_⟩
  · have := hI 11 h1
    rw [h2] at this
    exact absurd this (by decide)
  · intro w hw hI
    rw [h3] at hw
    simp only [List.mem_singleton] at hw
    subst hw
    have := hI 11 (by decide)
    exact absurd this (by decide)

/-- C19, amended: invariant I5 holds of the idle engine and is kept by every
operation that has run to its end: the asynchronous call of each of the three
commands, whatever it returns, the completion job of each of the three
commands, and the publication of a status change, in which the Status Notifier
runs the status-change handlers and removes those that return CLEAR.  So in
every state reached from a state with I5 by a sequence of such operations, the
Notifier holds a subscription for a command id only if the Registry holds a
pending operation for it.  (It does not hold inside the completion job at the
invocation of the user callback, nor at the return of a status-change handler
that answers CLEAR.) -/
theorem C19_I5_between_operations (K : Consts) (C : Codes) (set_quality : Q → Qraw → Q)
    (ops : List (Op Qraw Q)) :
    I5 idle ∧ ∀ w : Engine, I5 w → I5 (steps K C set_quality ops w) := by
  refine ⟨fun _ h => by simp [idle, notifier_subscribed] at h, ?_⟩
  induction ops with
  | nil => intro w hw; exact hw
  | cons op rest ih =>
    intro w hw
    exact ih _ (I5_step K C set_quality op w hw)

/-- Witness of C19 as amended: I5 holds on the idle engine after
`lte_get_localtime(7)`, `lte_get_pinset(8)`, a response to get local time, the
publication of the status 2 and a late response to get PIN set; after the
first two operations the Notifier holds the subscriptions of the commands 11
and 12 and the Registry holds their entries. -/
theorem C19_I5_between_operations_witness :
    I5 (steps sample_consts sample_codes (fun (q r : Nat) => q + r)
      [Op.get_localtime (answering 0 0 sample_response) 7,
        Op.get_pinset (answering 0 0 ⟨0, 1, 2, 3, 4, 5, 6⟩) 8,
        Op.localtime_response 4097 sample_response ⟨0, 0, 0, 0, 0, 0, 0⟩,
        Op.status 2 3,
        Op.pinset_response 4098 ⟨0, 1, 2, 3, 4, 5, 6⟩ ⟨0, 0, 0, 0, 0, 0⟩] idle) ∧
    (steps sample_consts sample_codes (fun (q r : Nat) => q + r)
      [Op.get_localtime (answering 0 0 sample_response) 7,
        Op.get_pinset (answering 0 0 ⟨0, 1, 2, 3, 4, 5, 6⟩) 8] idle).notifier
      = [(12, StatChgCb.getpinset_status_chg_cb), (11, StatChgCb.getltime_status_chg_cb)] ∧
    (steps sample_consts sample_codes (fun (q r : Nat) => q + r)
      [Op.get_localtime (answering 0 0 sample_response) 7,
        Op.get_pinset (answering 0 0 ⟨0, 1, 2, 3, 4, 5, 6⟩) 8] idle).registry 11 = some 7 :=
  ⟨(C19_I5_between_operations sample_consts sample_codes (fun (q r : Nat) => q + r)
      [Op.get_localtime (answering 0 0 sample_response) 7,
        Op.get_pinset (answering 0 0 ⟨0, 1, 2, 3, 4, 5, 6⟩) 8,
        Op.localtime_response 4097 sample_response ⟨0, 0, 0, 0, 0, 0, 0⟩,
        Op.status 2 3,
        Op.pinset_response 4098 ⟨0, 1, 2, 3, 4, 5, 6⟩ ⟨0, 0, 0, 0, 0, 0⟩]).2 idle
      (C19_I5_between_operations sample_consts sample_codes (fun (q r : Nat) => q + r)
        ([] : List (Op Nat Nat))).1,
    by decide, by decide⟩


end Altcom
